import Mathlib

/-!
# HmObjectTracker (modules/perception/obstacle/lidar/tracker/hm_tracker/hm_tracker.cc)

A shallow embedding of the per-frame lidar object tracker.  Scalars (`double`,
`float`) are exact rationals, so every `cast<float>()` / `cast<double>()` of the
source is the identity.  C++ `int` values that are only compared are `Int`.
Vectors of the source are lists; an access outside a vector, which is undefined
behaviour in the source, makes the embedded function return `none`.

The collaborating classes (`ObjectTrack`, `ObjectTrackSet`, `HungarianMatcher`,
`KalmanFilter`, `TrackObjectDistance`, `FeatureDescriptor`, `HDMapInput`) are not
part of this file of the source; their operations are fields of `Collaborators`,
and every call the tracker makes to them is recorded in a list of `Call`s.
-/

namespace Apollo

/-! ## Geometry -/

/-- Eigen::Vector3d / Eigen::Vector3f / a pcl point: components (0), (1), (2). -/
structure Vector3 where
  x : ℚ
  y : ℚ
  z : ℚ
  deriving DecidableEq, Repr

/-- Eigen::Vector4d. -/
structure Vector4 where
  x : ℚ
  y : ℚ
  z : ℚ
  w : ℚ
  deriving DecidableEq, Repr

/-- Eigen::Matrix4d, indexed (row, column). -/
abbrev Matrix4d := Fin 4 → Fin 4 → ℚ

/-- Eigen::Matrix3d, indexed (row, column). -/
abbrev Matrix3d := Fin 3 → Fin 3 → ℚ

/-- Component-wise difference of two vectors (Eigen operator-). -/
def Vector3.sub (a b : Vector3) : Vector3 :=
  { x := a.x - b.x, y := a.y - b.y, z := a.z - b.z }

/-- The expression (pose * v).head(3) of the source. -/
def mulHead3 (pose : Matrix4d) (v : Vector4) : Vector3 :=
  { x := pose 0 0 * v.x + pose 0 1 * v.y + pose 0 2 * v.z + pose 0 3 * v.w,
    y := pose 1 0 * v.x + pose 1 1 * v.y + pose 1 2 * v.z + pose 1 3 * v.w,
    z := pose 2 0 * v.x + pose 2 1 * v.y + pose 2 2 * v.z + pose 2 3 * v.w }

/-- Modelled from the spec: TransformPointCloud of geometry_util.h is not in the
sources at hand; the spec says a detection's point cloud and polygon are
transformed by the 4x4 rigid transform, i.e. every point p becomes
pose * (p, 1). -/
def TransformPointCloud (pose : Matrix4d) (cloud : List Vector3) : List Vector3 :=
  cloud.map (fun p => mulHead3 pose { x := p.x, y := p.y, z := p.z, w := 1 })

/-! ## Data model -/

/-- The fields of Object that hm_tracker.cc reads or writes. -/
structure Object where
  direction : Vector3
  center : Vector3
  cloud : List Vector3
  polygon : List Vector3
  theta : ℚ
  length : ℚ
  width : ℚ
  height : ℚ
  velocity : Vector3
  velocity_uncertainty : Matrix3d
  track_id : Int
  tracking_time : ℚ
  type : Nat
  anchor_point : Vector3
  shape_features : List ℚ

/-- The fields of TrackedObject that hm_tracker.cc reads or writes. -/
structure TrackedObject where
  object_ptr : Object
  direction : Vector3
  center : Vector3
  barycenter : Vector3
  anchor_point : Vector3
  lane_direction : Vector3
  size : Vector3
  velocity : Vector3
  velocity_uncertainty : Matrix3d
  type : Nat

/-- The members of ObjectTrack that hm_tracker.cc reads; the rest of a track
(filter state, history) is kept as uninterpreted data in belief_. -/
structure ObjectTrack where
  idx_ : Int
  age_ : Int
  consecutive_invisible_count_ : Int
  period_ : ℚ
  current_object_ : TrackedObject
  belief_ : List ℚ

/-- Values of tracker_config::ModelConfigs::MatcherMethod as read from the
configuration file: the Hungarian matcher or any other enumerator value. -/
inductive MatcherMethod where
  | HUNGARIAN_MATCHER
  | OTHER_MATCHER (value : Nat)
  deriving DecidableEq, Repr

/-- Values of tracker_config::ModelConfigs::FilterMethod. -/
inductive FilterMethod where
  | KALMAN_FILTER
  | OTHER_FILTER (value : Nat)
  deriving DecidableEq, Repr

/-- The fields of tracker_config::ModelConfigs that Init and the frame loop read. -/
structure ModelConfigs where
  matcher_method : MatcherMethod
  filter_method : FilterMethod
  track_cached_history_size_maximum : Int
  track_consecutive_invisible_maximum : Int
  track_visible_ratio_minimum : ℚ
  collect_age_minimum : Int
  collect_consecutive_invisible_maximum : Int
  acceleration_noise_maximum : ℚ
  speed_noise_maximum : ℚ
  match_distance_maximum : ℚ
  location_distance_weight : ℚ
  direction_distance_weight : ℚ
  bbox_size_distance_weight : ℚ
  point_num_distance_weight : ℚ
  histogram_distance_weight : ℚ
  histogram_bin_size : Int
  use_adaptive : Bool
  measurement_noise : ℚ
  initial_velocity_noise : ℚ
  xy_propagation_noise : ℚ
  z_propagation_noise : ℚ
  breakdown_threshold_maximum : ℚ

/-- TrackerOptions: the sensor pose pointer (none when null) and the
lane-direction service.  Modelled from the spec: HDMapInput is not in the
sources at hand; the spec describes it as a service that, given a 3D world
point, returns a direction vector or fails. -/
structure TrackerOptions where
  velodyne_trans : Option Matrix4d
  hdmap_input : Vector3 → Option Vector3

/-- Result of HungarianMatcher::Match: the (track, object) pairs and the two
lists of unassigned indices. -/
structure MatchResult where
  assignments : List (Int × Int)
  unassigned_tracks : List Int
  unassigned_objects : List Int

/-- The operations of the collaborating classes, whose code is outside
hm_tracker.cc.  W is the static state of ObjectTrack (its id counter), which
the ObjectTrack constructor reads and advances. -/
structure Collaborators (W : Type) where
  SetTrackCachedHistorySizeMaximum : Int → Bool
  SetTrackConsecutiveInvisibleMaximum : Int → Bool
  SetTrackVisibleRatioMinimum : ℚ → Bool
  SetAccelerationNoiseMaximum : ℚ → Bool
  SetSpeedNoiseMaximum : ℚ → Bool
  SetMatchDistanceMaximum : ℚ → Bool
  SetLocationDistanceWeight : ℚ → Bool
  SetDirectionDistanceWeight : ℚ → Bool
  SetBboxSizeDistanceWeight : ℚ → Bool
  SetPointNumDistanceWeight : ℚ → Bool
  SetHistogramDistanceWeight : ℚ → Bool
  SetAssociationScoreMaximum : ℚ → Bool
  InitParams : ℚ → ℚ → ℚ → ℚ → Bool
  SetBreakdownThresholdMaximum : ℚ → Bool
  NewTrackedObject : Object → TrackedObject
  ComputeHistogram : Int → List Vector3 → List ℚ
  Predict : ObjectTrack → ℚ → List ℚ
  Match : List TrackedObject → List ObjectTrack → List (List ℚ) → MatchResult
  UpdateWithObject : ObjectTrack → TrackedObject → ℚ → ObjectTrack × TrackedObject
  UpdateWithoutObject : ObjectTrack → List ℚ → ℚ → ObjectTrack
  RemoveLostTracks : List ObjectTrack → List ObjectTrack
  NewObjectTrack : W → TrackedObject → ObjectTrack × W
  atan2 : ℚ → ℚ → ℚ

/-- One call made by the tracker to a collaborator, with the arguments that the
properties below speak about. -/
inductive Call where
  | ComputeHistogram (bin_size : Int) (cloud : List Vector3)
  | GetNearestLaneDirection (query_pt : Vector3)
  | Predict (track_id : Nat) (time_diff : ℚ)
  | Match
  | UpdateWithObject (track_id obj_id : Int) (time_diff : ℚ)
  | UpdateWithoutObject (track_id : Int) (time_diff : ℚ)
  | RemoveLostTracks
  | NewObjectTrack (obj_id : Int)
  deriving DecidableEq, Repr

/-- DBL_MIN of cfloat: 2^-1022. -/
def DBL_MIN : ℚ := 1 / 2 ^ 1022

/-- FLT_EPSILON of cfloat: 2^-23. -/
def FLT_EPSILON : ℚ := 1 / 2 ^ 23

/-- M_PI of cmath, the double nearest to pi. -/
def M_PI : ℚ := 884279719003555 / 281474976710656

/-- The members of HmObjectTracker, and track_static_, the static state of
ObjectTrack that creating tracks advances. -/
structure HmObjectTracker (W : Type) where
  config_ : ModelConfigs
  matcher_ : Option MatcherMethod
  use_histogram_for_match_ : Bool
  valid_ : Bool
  global_to_local_offset_ : Vector3
  time_stamp_ : ℚ
  object_tracks_ : List ObjectTrack
  track_static_ : W

/-! ## Vector helpers -/

/-- Element i of a vector indexed by a C++ int; none outside the vector. -/
def at? {α : Type} (xs : List α) (i : Int) : Option α :=
  if i < 0 then none else xs.get? i.toNat

/-- The assignment xs[i] = v for an index already known to be inside xs. -/
def setAt {α : Type} (xs : List α) (i : Int) (v : α) : List α :=
  xs.set i.toNat v

/-- Method resize of std::vector: truncate, or pad with the default value d. -/
def resize {α : Type} (xs : List α) (n : Nat) (d : α) : List α :=
  xs.take n ++ List.replicate (n - xs.length) d

namespace HmObjectTracker

variable {W : Type}

/-! ## Coordinate and feature construction (hm_tracker.cc:270-352) -/

/-- The assignment pose(i, j) = v on a 4x4 matrix. -/
def setEntry (pose : Matrix4d) (i j : Fin 4) (v : ℚ) : Matrix4d :=
  fun a b => if a = i ∧ b = j then v else pose a b

/-- TransformPoseGlobal2Local (lines 270-274): adds the local-frame offset to
the translation column of the pose. -/
def TransformPoseGlobal2Local (self : HmObjectTracker W) (pose : Matrix4d) : Matrix4d :=
  let pose := setEntry pose 0 3 (pose 0 3 + self.global_to_local_offset_.x)
  let pose := setEntry pose 1 3 (pose 1 3 + self.global_to_local_offset_.y)
  let pose := setEntry pose 2 3 (pose 2 3 + self.global_to_local_offset_.z)
  pose

/-- TransformObject (lines 341-352). -/
def TransformObject (obj : Object) (pose : Matrix4d) : Object :=
  let dir := obj.direction
  let dir := mulHead3 pose { x := dir.x, y := dir.y, z := dir.z, w := 0 }
  let center := obj.center
  let center := mulHead3 pose { x := center.x, y := center.y, z := center.z, w := 1 }
  { obj with
    direction := dir
    center := center
    cloud := TransformPointCloud pose obj.cloud
    polygon := TransformPointCloud pose obj.polygon }

/-- TransformTrackedObject (lines 320-339). -/
def TransformTrackedObject (obj : TrackedObject) (pose : Matrix4d) : TrackedObject :=
  let object_ptr := TransformObject obj.object_ptr pose
  let dir := obj.direction
  let dir := mulHead3 pose { x := dir.x, y := dir.y, z := dir.z, w := 0 }
  let center := obj.center
  let center := mulHead3 pose { x := center.x, y := center.y, z := center.z, w := 1 }
  let barycenter := obj.barycenter
  let barycenter :=
    mulHead3 pose { x := barycenter.x, y := barycenter.y, z := barycenter.z, w := 1 }
  { obj with
    object_ptr := object_ptr
    direction := dir
    center := center
    barycenter := barycenter }

/-- ComputeShapeFeatures (lines 311-318): stores the histogram of the cloud in
the object's shape_features. -/
def ComputeShapeFeatures (env : Collaborators W) (self : HmObjectTracker W)
    (obj : TrackedObject) : TrackedObject :=
  let temp_object := obj.object_ptr
  { obj with
    object_ptr :=
      { temp_object with
        shape_features :=
          env.ComputeHistogram self.config_.histogram_bin_size temp_object.cloud } }

/-- Body of the loop of ConstructTrackedObjects (lines 284-307) for one input
object: the tracked object and the collaborator calls made for it. -/
def ConstructTrackedObject (env : Collaborators W) (self : HmObjectTracker W)
    (pose : Matrix4d) (options : TrackerOptions) (object : Object) :
    TrackedObject × List Call :=
  let obj := object
  let tracked := env.NewTrackedObject obj
  let featured :=
    if self.use_histogram_for_match_ then
      (ComputeShapeFeatures env self tracked,
        [Call.ComputeHistogram self.config_.histogram_bin_size tracked.object_ptr.cloud])
    else (tracked, [])
  let tracked := TransformTrackedObject featured.1 pose
  let anchor_point := tracked.barycenter
  let tracked := { tracked with anchor_point := anchor_point }
  let query_pt := anchor_point.sub self.global_to_local_offset_
  let lane_dir :=
    match options.hdmap_input query_pt with
    | some lane_dir => lane_dir
    | none => mulHead3 pose { x := 1, y := 0, z := 0, w := 0 }
  ({ tracked with lane_direction := lane_dir },
    featured.2 ++ [Call.GetNearestLaneDirection query_pt])

/-- ConstructTrackedObjects (lines 276-309): one tracked object per input
object, in input order. -/
def ConstructTrackedObjects (env : Collaborators W) (self : HmObjectTracker W)
    (objects : List Object) (pose : Matrix4d) (options : TrackerOptions) :
    List TrackedObject × List Call :=
  let built := objects.map (ConstructTrackedObject env self pose options)
  (built.map Prod.fst, (built.map Prod.snd).flatten)

/-! ## Prediction, update and lifecycle passes (hm_tracker.cc:354-404) -/

/-- ComputeTracksPredict (lines 354-363): one predicted state per track. -/
def ComputeTracksPredict (env : Collaborators W) (self : HmObjectTracker W)
    (time_diff : ℚ) : List (List ℚ) × List Call :=
  let tracks := self.object_tracks_
  (tracks.map (fun track => env.Predict track time_diff),
    (List.range tracks.length).map (fun i => Call.Predict i time_diff))

/-- UpdateAssignedTracks (lines 365-377), run over the remaining assignments.
UpdateWithObject receives a pointer to the new object and may change it, so
the object is written back. -/
def UpdateAssignedTracks (env : Collaborators W) (time_diff : ℚ) :
    List (Int × Int) → List ObjectTrack → List TrackedObject →
    Option (List ObjectTrack × List TrackedObject × List Call)
  | [], tracks, new_objects => some (tracks, new_objects, [])
  | assignment :: rest, tracks, new_objects =>
    let track_id := assignment.1
    let obj_id := assignment.2
    match at? tracks track_id, at? new_objects obj_id with
    | some track, some obj =>
      let updated := env.UpdateWithObject track obj time_diff
      match UpdateAssignedTracks env time_diff rest (setAt tracks track_id updated.1)
          (setAt new_objects obj_id updated.2) with
      | some (tracks, new_objects, calls) =>
        some (tracks, new_objects,
          Call.UpdateWithObject track_id obj_id time_diff :: calls)
      | none => none
    | _, _ => none

/-- UpdateUnassignedTracks (lines 379-388), run over the remaining unassigned
track indices. -/
def UpdateUnassignedTracks (env : Collaborators W) (tracks_predict : List (List ℚ))
    (time_diff : ℚ) :
    List Int → List ObjectTrack → Option (List ObjectTrack × List Call)
  | [], tracks => some (tracks, [])
  | track_id :: rest, tracks =>
    match at? tracks track_id, at? tracks_predict track_id with
    | some track, some predict =>
      match UpdateUnassignedTracks env tracks_predict time_diff rest
          (setAt tracks track_id (env.UpdateWithoutObject track predict time_diff)) with
      | some (tracks, calls) =>
        some (tracks, Call.UpdateWithoutObject track_id time_diff :: calls)
      | none => none
    | _, _ => none

/-- Modelled from the spec: ObjectTrackSet::AddTrack is not in the sources at
hand; the spec says the collection exposes an ordered sequence, ordered by
creation, so a new track is appended at the end. -/
def AddTrack (tracks : List ObjectTrack) (track : ObjectTrack) : List ObjectTrack :=
  tracks ++ [track]

/-- CreateNewTracks (lines 390-399), run over the remaining unassigned object
indices. -/
def CreateNewTracks (env : Collaborators W) (new_objects : List TrackedObject) :
    List Int → List ObjectTrack → W → Option (List ObjectTrack × W × List Call)
  | [], tracks, static => some (tracks, static, [])
  | obj_id :: rest, tracks, static =>
    match at? new_objects obj_id with
    | some obj =>
      let created := env.NewObjectTrack static obj
      match CreateNewTracks env new_objects rest (AddTrack tracks created.1) created.2 with
      | some (tracks, static, calls) =>
        some (tracks, static, Call.NewObjectTrack obj_id :: calls)
      | none => none
    | none => none

/-- DeleteLostTracks (lines 401-404). -/
def DeleteLostTracks (env : Collaborators W) (self : HmObjectTracker W) :
    HmObjectTracker W :=
  { self with object_tracks_ := env.RemoveLostTracks self.object_tracks_ }

/-! ## Result collection (hm_tracker.cc:406-457) -/

/-- Body of the loop of CollectTrackedResults for one reported track: the
object built from the track (lines 421-452). -/
def CollectObject (env : Collaborators W) (self : HmObjectTracker W)
    (track : ObjectTrack) : Object :=
  let result_obj := track.current_object_
  let obj := result_obj.object_ptr
  let direction := result_obj.direction
  let theta :=
    if |direction.x| < DBL_MIN then
      (if direction.y > 0 then M_PI / 2 else -M_PI / 2)
    else env.atan2 direction.y direction.x
  { obj with
    direction := direction
    theta := theta
    length := result_obj.size.x
    width := result_obj.size.y
    height := result_obj.size.z
    velocity := result_obj.velocity
    velocity_uncertainty := result_obj.velocity_uncertainty
    track_id := track.idx_
    tracking_time := track.period_
    type := result_obj.type
    center := result_obj.center.sub self.global_to_local_offset_
    anchor_point := result_obj.anchor_point.sub self.global_to_local_offset_
    cloud := obj.cloud.map (fun p => p.sub self.global_to_local_offset_)
    polygon := obj.polygon.map (fun p => p.sub self.global_to_local_offset_) }

/-- The loop of CollectTrackedResults (lines 414-455) over the remaining
tracks, writing into tracked_objects at position track_number. -/
def CollectLoop (env : Collaborators W) (self : HmObjectTracker W) :
    List ObjectTrack → List (Option Object) → Nat → List (Option Object) × Nat
  | [], tracked_objects, track_number => (tracked_objects, track_number)
  | track :: rest, tracked_objects, track_number =>
    if track.consecutive_invisible_count_ >
        self.config_.collect_consecutive_invisible_maximum then
      CollectLoop env self rest tracked_objects track_number
    else if track.age_ < self.config_.collect_age_minimum then
      CollectLoop env self rest tracked_objects track_number
    else
      CollectLoop env self rest
        (tracked_objects.set track_number (some (CollectObject env self track)))
        (track_number + 1)

/-- CollectTrackedResults: the output vector (shared pointers, none when null)
is resized to the number of tracks, filled by the loop and cut to the number
of reported tracks. -/
def CollectTrackedResults (env : Collaborators W) (self : HmObjectTracker W)
    (tracked_objects : List (Option Object)) : List (Option Object) :=
  let tracks := self.object_tracks_
  let sized := resize tracked_objects tracks.length none
  let filled := CollectLoop env self tracks sized 0
  resize filled.1 filled.2 none

/-! ## The frame entry points (hm_tracker.cc:169-268) -/

/-- What one call of Track leaves behind: the returned flag, the tracker, the
output vector behind the tracked_objects pointer (none for a null pointer) and
the collaborator calls made, in order. -/
structure TrackResult (W : Type) where
  ret : Bool
  self : HmObjectTracker W
  tracked_objects : Option (List (Option Object))
  calls : List Call

/-- InitializeTrack (lines 234-268). -/
def InitializeTrack (env : Collaborators W) (self : HmObjectTracker W)
    (objects : List Object) (timestamp : ℚ) (options : TrackerOptions)
    (tracked_objects : List (Option Object)) : Option (TrackResult W) :=
  match options.velodyne_trans with
  | none =>
    some { ret := false, self := self, tracked_objects := some tracked_objects, calls := [] }
  | some velo2world_pose =>
    let self :=
      { self with
        global_to_local_offset_ :=
          { x := -velo2world_pose 0 3, y := -velo2world_pose 1 3, z := -velo2world_pose 2 3 } }
    let velo2world_pose := TransformPoseGlobal2Local self velo2world_pose
    let constructed := ConstructTrackedObjects env self objects velo2world_pose options
    let transformed_objects := constructed.1
    let unassigned_objects :=
      (List.range transformed_objects.length).map (fun (i : Nat) => (i : Int))
    match CreateNewTracks env transformed_objects unassigned_objects self.object_tracks_
        self.track_static_ with
    | none => none
    | some (tracks, static, calls) =>
      let self := { self with object_tracks_ := tracks, track_static_ := static }
      let self := { self with time_stamp_ := timestamp }
      some
        { ret := true
          self := self
          tracked_objects := some (CollectTrackedResults env self tracked_objects)
          calls := constructed.2 ++ calls }

/-- Track (lines 169-232).  The matcher reads the objects, the tracks and the
predictions and returns the three index lists. -/
def Track (env : Collaborators W) (self : HmObjectTracker W) (objects : List Object)
    (timestamp : ℚ) (options : TrackerOptions)
    (tracked_objects : Option (List (Option Object))) : Option (TrackResult W) :=
  match tracked_objects with
  | none => some { ret := false, self := self, tracked_objects := none, calls := [] }
  | some out =>
    if !self.valid_ then
      InitializeTrack env { self with valid_ := true } objects timestamp options out
    else
      match options.velodyne_trans with
      | none => some { ret := false, self := self, tracked_objects := some out, calls := [] }
      | some velo2world_pose =>
        let time_diff := timestamp - self.time_stamp_
        let self := { self with time_stamp_ := timestamp }
        let velo2world_pose := TransformPoseGlobal2Local self velo2world_pose
        let constructed := ConstructTrackedObjects env self objects velo2world_pose options
        let transformed_objects := constructed.1
        let predicted := ComputeTracksPredict env self time_diff
        let tracks_predict := predicted.1
        match self.matcher_ with
        | none =>
          some
            { ret := false, self := self, tracked_objects := some out,
              calls := constructed.2 ++ predicted.2 }
        | some _ =>
          let matched := env.Match transformed_objects self.object_tracks_ tracks_predict
          match UpdateAssignedTracks env time_diff matched.assignments self.object_tracks_
              transformed_objects with
          | none => none
          | some (tracks, transformed_objects, calls_assigned) =>
            match UpdateUnassignedTracks env tracks_predict time_diff
                matched.unassigned_tracks tracks with
            | none => none
            | some (tracks, calls_unassigned) =>
              let self := DeleteLostTracks env { self with object_tracks_ := tracks }
              match CreateNewTracks env transformed_objects matched.unassigned_objects
                  self.object_tracks_ self.track_static_ with
              | none => none
              | some (tracks, static, calls_created) =>
                let self := { self with object_tracks_ := tracks, track_static_ := static }
                some
                  { ret := true
                    self := self
                    tracked_objects := some (CollectTrackedResults env self out)
                    calls :=
                      constructed.2 ++ predicted.2 ++ [Call.Match] ++ calls_assigned ++
                        calls_unassigned ++ [Call.RemoveLostTracks] ++ calls_created }

/-! ## Initialisation (hm_tracker.cc:34-163) -/

/-- Part C of Init (lines 143-162): the Kalman filter setup. -/
def InitFilter (env : Collaborators W) (self : HmObjectTracker W) : Bool :=
  if self.config_.filter_method = FilterMethod.KALMAN_FILTER then
    let association_score_maximum := self.config_.match_distance_maximum
    if !env.SetAssociationScoreMaximum association_score_maximum then false
    else if !env.InitParams self.config_.measurement_noise
        self.config_.initial_velocity_noise self.config_.xy_propagation_noise
        self.config_.z_propagation_noise then false
    else if !env.SetBreakdownThresholdMaximum self.config_.breakdown_threshold_maximum then
      false
    else true
  else true

/-- Init (lines 34-163).  The argument loaded is what GetProtoFromFile read
from the configuration file, none when reading failed.  The static setters
are collaborators that accept or reject a value. -/
def Init (env : Collaborators W) (self : HmObjectTracker W)
    (loaded : Option ModelConfigs) : Bool × HmObjectTracker W :=
  match loaded with
  | none => (false, self)
  | some config =>
    let self := { self with config_ := config }
    let self :=
      if self.config_.matcher_method ≠ MatcherMethod.HUNGARIAN_MATCHER then
        { self with
          config_ := { self.config_ with matcher_method := MatcherMethod.HUNGARIAN_MATCHER } }
      else self
    let self := { self with matcher_ := some MatcherMethod.HUNGARIAN_MATCHER }
    if !env.SetTrackCachedHistorySizeMaximum
        self.config_.track_cached_history_size_maximum then (false, self)
    else if !env.SetTrackConsecutiveInvisibleMaximum
        self.config_.track_consecutive_invisible_maximum then (false, self)
    else if !env.SetTrackVisibleRatioMinimum self.config_.track_visible_ratio_minimum then
      (false, self)
    else if self.config_.collect_age_minimum < 0 then (false, self)
    else if self.config_.collect_consecutive_invisible_maximum < 0 then (false, self)
    else if !env.SetAccelerationNoiseMaximum self.config_.acceleration_noise_maximum then
      (false, self)
    else if !env.SetSpeedNoiseMaximum self.config_.speed_noise_maximum then (false, self)
    else if self.config_.matcher_method = MatcherMethod.HUNGARIAN_MATCHER ∧
        env.SetMatchDistanceMaximum self.config_.match_distance_maximum = false then
      (false, self)
    else if !env.SetLocationDistanceWeight self.config_.location_distance_weight then
      (false, self)
    else if !env.SetDirectionDistanceWeight self.config_.direction_distance_weight then
      (false, self)
    else if !env.SetBboxSizeDistanceWeight self.config_.bbox_size_distance_weight then
      (false, self)
    else if !env.SetPointNumDistanceWeight self.config_.point_num_distance_weight then
      (false, self)
    else if !env.SetHistogramDistanceWeight self.config_.histogram_distance_weight then
      (false, self)
    else
      let self :=
        { self with
          use_histogram_for_match_ :=
            if self.config_.histogram_distance_weight > FLT_EPSILON then true else false }
      if self.config_.histogram_bin_size ≤ 0 then (false, self)
      else (InitFilter env self, self)

/-! ## Specification-side definitions -/

/-- The reporting filter of CollectTrackedResults, in the words of the
specification: consecutive-invisible count within the reporting maximum and
age at least the reporting minimum. -/
def Reported (self : HmObjectTracker W) (track : ObjectTrack) : Bool :=
  decide (track.consecutive_invisible_count_ ≤
      self.config_.collect_consecutive_invisible_maximum ∧
    self.config_.collect_age_minimum ≤ track.age_)

/-- The tracks that the ObjectTrack constructor builds from a list of tracked
objects, one after the other, threading the static state; with the static
state left behind. -/
def TracksFrom (env : Collaborators W) : W → List TrackedObject → List ObjectTrack × W
  | static, [] => ([], static)
  | static, obj :: rest =>
    let created := env.NewObjectTrack static obj
    let others := TracksFrom env created.2 rest
    (created.1 :: others.1, others.2)

/-- The tracker as Track hands it to InitializeTrack on a first frame with
pose velo2world_pose: valid_ is set and the offset is the negated translation. -/
def FirstFrameTracker (self : HmObjectTracker W) (velo2world_pose : Matrix4d) :
    HmObjectTracker W :=
  { self with
    valid_ := true
    global_to_local_offset_ :=
      { x := -velo2world_pose 0 3, y := -velo2world_pose 1 3, z := -velo2world_pose 2 3 } }

/-- The arguments of one Track call. -/
structure Frame where
  objects : List Object
  timestamp : ℚ
  options : TrackerOptions
  tracked_objects : Option (List (Option Object))

/-- A sequence of Track calls, each on the tracker the previous one left; none
as soon as one call has undefined behaviour. -/
def TrackAll (env : Collaborators W) : HmObjectTracker W → List Frame →
    Option (HmObjectTracker W)
  | self, [] => some self
  | self, frame :: rest =>
    match Track env self frame.objects frame.timestamp frame.options
        frame.tracked_objects with
    | none => none
    | some r => TrackAll env r.self rest

/-- The call hands detection obj_id to UpdateWithObject. -/
def Call.matchesObject (obj_id : Int) : Call → Bool
  | Call.UpdateWithObject _ o _ => decide (o = obj_id)
  | _ => false

/-- The call creates a new track from detection obj_id. -/
def Call.createsFromObject (obj_id : Int) : Call → Bool
  | Call.NewObjectTrack o => decide (o = obj_id)
  | _ => false

/-- The call is UpdateWithObject on track track_id. -/
def Call.updatesTrackWithObject (track_id : Int) : Call → Bool
  | Call.UpdateWithObject t _ _ => decide (t = track_id)
  | _ => false

/-- The call is UpdateWithoutObject on track track_id. -/
def Call.updatesTrackWithoutObject (track_id : Int) : Call → Bool
  | Call.UpdateWithoutObject t _ => decide (t = track_id)
  | _ => false

/-- The (track, detection) pair of an UpdateWithObject call. -/
def Call.assignment? : Call → Option (Int × Int)
  | Call.UpdateWithObject t o _ => some (t, o)
  | _ => none

/-- The time delta handed to a Predict, UpdateWithObject or UpdateWithoutObject
call. -/
def Call.time_diff? : Call → Option ℚ
  | Call.Predict _ d => some d
  | Call.UpdateWithObject _ _ d => some d
  | Call.UpdateWithoutObject _ d => some d
  | _ => none

/-- What the matcher returns in a Track call on a later frame with pose
velo2world_pose: steps B to D of Track. -/
def MatchOfFrame (env : Collaborators W) (self : HmObjectTracker W) (objects : List Object)
    (timestamp : ℚ) (options : TrackerOptions) (velo2world_pose : Matrix4d) : MatchResult :=
  let time_diff := timestamp - self.time_stamp_
  let self := { self with time_stamp_ := timestamp }
  let velo2world_pose := TransformPoseGlobal2Local self velo2world_pose
  let constructed := ConstructTrackedObjects env self objects velo2world_pose options
  let predicted := ComputeTracksPredict env self time_diff
  env.Match constructed.1 self.object_tracks_ predicted.1

/-- The tracked objects that a Track call on a later frame with pose
velo2world_pose builds from the detections: step B of Track. -/
def ObjectsOfFrame (env : Collaborators W) (self : HmObjectTracker W) (objects : List Object)
    (timestamp : ℚ) (options : TrackerOptions) (velo2world_pose : Matrix4d) :
    List TrackedObject :=
  let self := { self with time_stamp_ := timestamp }
  let velo2world_pose := TransformPoseGlobal2Local self velo2world_pose
  (ConstructTrackedObjects env self objects velo2world_pose options).1

/-! ## Sample collaborators and frames -/

/-- A sample Object at centre (x, y, 0) with a one-point cloud. -/
def sampleObject (x y : ℚ) : Object :=
  { direction := { x := 1, y := 0, z := 0 }
    center := { x := x, y := y, z := 0 }
    cloud := [{ x := x, y := y, z := 0 }]
    polygon := [{ x := x, y := y, z := 0 }, { x := x + 1, y := y, z := 0 }]
    theta := 0
    length := 2
    width := 1
    height := 1
    velocity := { x := 0, y := 0, z := 0 }
    velocity_uncertainty := fun _ _ => 0
    track_id := 0
    tracking_time := 0
    type := 0
    anchor_point := { x := 0, y := 0, z := 0 }
    shape_features := [] }

/-- Sample collaborators: setters accept non-negative values, the matcher pairs
track i with object i, a match resets the invisible count, a miss increments
it, tracks invisible for more than two frames are removed, and new tracks take
their id from the static counter. -/
def sampleEnv : Collaborators Nat :=
  { SetTrackCachedHistorySizeMaximum := fun v => decide (0 < v)
    SetTrackConsecutiveInvisibleMaximum := fun v => decide (0 ≤ v)
    SetTrackVisibleRatioMinimum := fun v => decide (0 ≤ v ∧ v ≤ 1)
    SetAccelerationNoiseMaximum := fun v => decide (0 ≤ v)
    SetSpeedNoiseMaximum := fun v => decide (0 ≤ v)
    SetMatchDistanceMaximum := fun v => decide (0 ≤ v)
    SetLocationDistanceWeight := fun v => decide (0 ≤ v)
    SetDirectionDistanceWeight := fun v => decide (0 ≤ v)
    SetBboxSizeDistanceWeight := fun v => decide (0 ≤ v)
    SetPointNumDistanceWeight := fun v => decide (0 ≤ v)
    SetHistogramDistanceWeight := fun v => decide (0 ≤ v)
    SetAssociationScoreMaximum := fun v => decide (0 ≤ v)
    InitParams := fun a b c d => decide (0 < a ∧ 0 < b ∧ 0 < c ∧ 0 < d)
    SetBreakdownThresholdMaximum := fun v => decide (0 ≤ v)
    NewTrackedObject := fun obj =>
      { object_ptr := obj
        direction := obj.direction
        center := obj.center
        barycenter := obj.center
        anchor_point := obj.center
        lane_direction := { x := 0, y := 0, z := 0 }
        size := { x := obj.length, y := obj.width, z := obj.height }
        velocity := { x := 0, y := 0, z := 0 }
        velocity_uncertainty := fun _ _ => 0
        type := obj.type }
    ComputeHistogram := fun _ cloud => cloud.map (fun p => p.x)
    Predict := fun track _ => track.belief_
    Match := fun objects tracks _ =>
      let n := min objects.length tracks.length
      { assignments := (List.range n).map (fun (i : Nat) => ((i : Int), (i : Int)))
        unassigned_tracks := (List.range' n (tracks.length - n)).map (fun (i : Nat) => (i : Int))
        unassigned_objects := (List.range' n (objects.length - n)).map (fun (i : Nat) => (i : Int)) }
    UpdateWithObject := fun track obj time_diff =>
      ({ track with
          age_ := track.age_ + 1
          consecutive_invisible_count_ := 0
          period_ := track.period_ + time_diff
          current_object_ := obj }, obj)
    UpdateWithoutObject := fun track _ time_diff =>
      { track with
        age_ := track.age_ + 1
        consecutive_invisible_count_ := track.consecutive_invisible_count_ + 1
        period_ := track.period_ + time_diff }
    RemoveLostTracks := fun tracks =>
      tracks.filter (fun t => decide (t.consecutive_invisible_count_ ≤ 2))
    NewObjectTrack := fun static obj =>
      ({ idx_ := static
         age_ := 1
         consecutive_invisible_count_ := 0
         period_ := 0
         current_object_ := obj
         belief_ := [] }, static + 1)
    atan2 := fun _ _ => 0 }

/-- A sample configuration that the sample collaborators accept. -/
def sampleConfig : ModelConfigs :=
  { matcher_method := MatcherMethod.HUNGARIAN_MATCHER
    filter_method := FilterMethod.KALMAN_FILTER
    track_cached_history_size_maximum := 5
    track_consecutive_invisible_maximum := 1
    track_visible_ratio_minimum := 3 / 5
    collect_age_minimum := 1
    collect_consecutive_invisible_maximum := 0
    acceleration_noise_maximum := 5
    speed_noise_maximum := 2 / 5
    match_distance_maximum := 4
    location_distance_weight := 3 / 5
    direction_distance_weight := 1 / 5
    bbox_size_distance_weight := 1 / 10
    point_num_distance_weight := 1 / 10
    histogram_distance_weight := 1 / 2
    histogram_bin_size := 10
    use_adaptive := true
    measurement_noise := 2 / 5
    initial_velocity_noise := 5
    xy_propagation_noise := 10
    z_propagation_noise := 10
    breakdown_threshold_maximum := 10 }

/-- A tracker after Init with the sample configuration, before its first frame. -/
def sampleTracker : HmObjectTracker Nat :=
  { config_ := sampleConfig
    matcher_ := some MatcherMethod.HUNGARIAN_MATCHER
    use_histogram_for_match_ := true
    valid_ := false
    global_to_local_offset_ := { x := 0, y := 0, z := 0 }
    time_stamp_ := 0
    object_tracks_ := []
    track_static_ := 0 }

/-- A sample sensor pose: a quarter turn about z and translation (100, 200, 3). -/
def samplePose : Matrix4d :=
  ![![0, -1, 0, 100], ![1, 0, 0, 200], ![0, 0, 1, 3], ![0, 0, 0, 1]]

/-- Sample options: a pose, and a lane-direction service that always fails. -/
def sampleOptions : TrackerOptions :=
  { velodyne_trans := some samplePose, hdmap_input := fun _ => none }

/-- Three sample detections. -/
def sampleObjects : List Object :=
  [sampleObject 1 0, sampleObject 5 5, sampleObject 9 2]

/-- A second sample pose: the same rotation, translation (101, 202, 3). -/
def samplePose2 : Matrix4d :=
  ![![0, -1, 0, 101], ![1, 0, 0, 202], ![0, 0, 1, 3], ![0, 0, 0, 1]]

/-- The sample first frame: three detections at time 10. -/
def sampleFrame1 : Frame :=
  { objects := sampleObjects, timestamp := 10, options := sampleOptions,
    tracked_objects := some [] }

/-- A sample second frame: two detections at time 21/2, so one track is left
without a detection. -/
def sampleFrame2 : Frame :=
  { objects := [sampleObject 2 0, sampleObject 6 5], timestamp := 21 / 2,
    options := { velodyne_trans := some samplePose2, hdmap_input := fun _ => none },
    tracked_objects := some [] }

/-- A sample third frame: four detections at time 11, so one detection is left
without a track. -/
def sampleFrame3 : Frame :=
  { objects := [sampleObject 3 0, sampleObject 7 5, sampleObject 9 3, sampleObject 20 20],
    timestamp := 11,
    options := { velodyne_trans := some samplePose2, hdmap_input := fun _ => none },
    tracked_objects := some [] }

/-- The sample tracker after its first frame. -/
def sampleTracker1 : HmObjectTracker Nat :=
  (TrackAll sampleEnv sampleTracker [sampleFrame1]).getD sampleTracker

/-- The sample tracker after its first two frames. -/
def sampleTracker2 : HmObjectTracker Nat :=
  (TrackAll sampleEnv sampleTracker [sampleFrame1, sampleFrame2]).getD sampleTracker

/-- The sample tracker after its three sample frames. -/
def sampleTracker3 : HmObjectTracker Nat :=
  (TrackAll sampleEnv sampleTracker [sampleFrame1, sampleFrame2, sampleFrame3]).getD
    sampleTracker

/-- The sample configuration with an unsupported matcher method configured. -/
def sampleConfigOtherMatcher : ModelConfigs :=
  { sampleConfig with matcher_method := MatcherMethod.OTHER_MATCHER 1 }

/-- The call computes a shape histogram. -/
def Call.isComputeHistogram : Call → Bool
  | Call.ComputeHistogram _ _ => true
  | _ => false

/-- The point handed to a lane-direction lookup. -/
def Call.laneQuery? : Call → Option Vector3
  | Call.GetNearestLaneDirection query_pt => some query_pt
  | _ => none

/-- Sample options without a sensor pose. -/
def sampleOptionsNoPose : TrackerOptions :=
  { velodyne_trans := none, hdmap_input := fun _ => none }

/-- The sample configuration with a filter method other than the Kalman
filter and a measurement noise that the sample estimator rejects. -/
def sampleConfigOtherFilter : ModelConfigs :=
  { sampleConfig with
    filter_method := FilterMethod.OTHER_FILTER 1
    measurement_noise := -1 }

/-- The values that atan2 of the C library takes for x = 0: M_PI / 2 for
y > 0, -M_PI / 2 for y < 0 and 0 for y = 0; the sample leaves directions with
x other than 0 at 0. -/
def axisAtan2 (y x : ℚ) : ℚ :=
  if x = 0 then (if 0 < y then M_PI / 2 else if y < 0 then -M_PI / 2 else 0) else 0

/-- The sample collaborators with axisAtan2 as atan2. -/
def sampleEnvAxis : Collaborators Nat :=
  { sampleEnv with atan2 := axisAtan2 }

/-- A sample track whose current object has direction (dx, dy, 0). -/
def sampleTrackWithDirection (dx dy : ℚ) : ObjectTrack :=
  { idx_ := 0
    age_ := 1
    consecutive_invisible_count_ := 0
    period_ := 0
    current_object_ :=
      { sampleEnv.NewTrackedObject (sampleObject 1 0) with
        direction := { x := dx, y := dy, z := 0 } }
    belief_ := [] }

end HmObjectTracker

/-! # Maps of the standard library

std::map and std::unordered_map are lists of (key, value) pairs; the
operations below keep the keys distinct. -/

/-- Member find of a map: the value stored under k, none for end(). -/
def mapFind {K V : Type} [DecidableEq K] : List (K × V) → K → Option V
  | [], _ => none
  | entry :: rest, k => if entry.1 = k then some entry.2 else mapFind rest k

/-- The assignment m[k] = v: overwrites the value under k, or adds the pair. -/
def mapAssign {K V : Type} [DecidableEq K] : List (K × V) → K → V → List (K × V)
  | [], k, v => [(k, v)]
  | entry :: rest, k, v =>
    if entry.1 = k then (k, v) :: rest else entry :: mapAssign rest k v

/-- Member insert of a map: adds the pair unless the key is present. -/
def mapInsert {K V : Type} [DecidableEq K] (m : List (K × V)) (k : K) (v : V) :
    List (K × V) :=
  match mapFind m k with
  | some _ => m
  | none => mapAssign m k v

/-- Reading m[k]: the value under k; an absent key is first added with the
default value d. -/
def mapIndex {K V : Type} [DecidableEq K] (m : List (K × V)) (k : K) (d : V) :
    V × List (K × V) :=
  match mapFind m k with
  | some v => (v, m)
  | none => (d, mapAssign m k d)

/-! # IndexedList (modules/planning/common/indexed_list.h)

A pointer to an object stored in object_dict_ is represented by the key of
its map node: an unordered_map never moves its nodes, so the pointer stays
valid and designates the value currently stored under that key. -/

/-- The members of IndexedList. -/
structure IndexedList (I T : Type) where
  object_list_ : List I
  object_dict_ : List (I × T)

namespace IndexedList

variable {I T : Type} [DecidableEq I]

/-- Modelled from the spec: FindOrNull of map_util.h is not in the sources at
hand; by the doc comment of Find it returns the pointer to the object stored
under the id if found, and null if not. -/
def FindOrNull (object_dict : List (I × T)) (id : I) : Option I :=
  match mapFind object_dict id with
  | some _ => some id
  | none => none

/-- Find (lines 69-71). -/
def Find (self : IndexedList I T) (id : I) : Option I :=
  FindOrNull self.object_dict_ id

/-- The object a pointer into the container designates. -/
def deref (self : IndexedList I T) (ptr : I) : Option T :=
  mapFind self.object_dict_ ptr

/-- Add (lines 49-61): the container afterwards and the returned pointer. -/
def Add (self : IndexedList I T) (id : I) (object : T) : IndexedList I T × I :=
  let obs := Find self id
  match obs with
  | some obs => ({ self with object_dict_ := mapAssign self.object_dict_ obs object }, obs)
  | none =>
    let object_dict := mapInsert self.object_dict_ id object
    let ptr := id
    ({ object_list_ := self.object_list_ ++ [ptr], object_dict_ := object_dict }, ptr)

/-- Items (line 87). -/
def Items (self : IndexedList I T) : List I :=
  self.object_list_

/-- The container a default-constructed IndexedList is. -/
def empty : IndexedList I T :=
  { object_list_ := [], object_dict_ := [] }

/-- A sequence of Add calls, in order. -/
def AddAll : IndexedList I T → List (I × T) → IndexedList I T
  | self, [] => self
  | self, add :: rest => AddAll (Add self add.1 add.2).1 rest

/-- The ids of a sequence in the order of their first occurrence. -/
def firstOccurrences : List I → List I
  | [] => []
  | id :: rest => id :: (firstOccurrences rest).filter (fun other => decide (other ≠ id))

/-- The object most recently added under id in a sequence of Add calls. -/
def lastAdded (adds : List (I × T)) (id : I) : Option T :=
  mapFind adds.reverse id

/-- A sample sequence of Add calls: id 2 is added twice. -/
def sampleAdds : List (Nat × String) :=
  [(2, "a"), (7, "b"), (2, "c"), (5, "d")]

end IndexedList

/-! # SummaryMonitor (modules/monitor/software/summary_monitor.cc) -/

/-- Modelled from the spec: the enum apollo::monitor::Summary is declared in a
proto file that is not in the sources at hand; the comment in
UpdateStatusSummary gives its order, FATAL > ERROR > WARN > OK > UNKNOWN,
which is the order that operator> on the enumerators must have. -/
inductive Summary where
  | UNKNOWN
  | OK
  | WARN
  | ERROR
  | FATAL
  deriving DecidableEq, Repr

/-- The numeric value of an enumerator of Summary. -/
def Summary.value : Summary → Nat
  | Summary.UNKNOWN => 0
  | Summary.OK => 1
  | Summary.WARN => 2
  | Summary.ERROR => 3
  | Summary.FATAL => 4

/-- The summary and msg fields of a status message (ModuleStatus or
HardwareStatus); msg is none when the field is cleared. -/
structure Status where
  summary : Summary
  msg : Option String
  deriving DecidableEq, Repr

/-- TopicStatus: message_delay, none when the field is not set. -/
structure TopicStatus where
  message_delay : Option ℚ
  deriving DecidableEq, Repr

/-- ModuleStatus: process_status is none when not set, else running(). -/
structure ModuleStatus extends Status where
  process_status : Option Bool
  topic_status : Option TopicStatus
  deriving DecidableEq, Repr

/-- Values of HardwareStatus::Status that SummarizeHardware tells apart. -/
inductive HardwareStatusValue where
  | NOT_PRESENT
  | NOT_READY
  | WARN
  | GPS_UNSTABLE_WARNING
  | GPS_UNSTABLE_ERROR
  | OK
  | OTHER (value : Nat)
  deriving DecidableEq, Repr

/-- HardwareStatus: status is none when not set. -/
structure HardwareStatus extends Status where
  status : Option HardwareStatusValue
  detailed_msg : String
  topic_status : Option TopicStatus
  deriving DecidableEq, Repr

/-- SystemStatus: the header (none when cleared), the module and hardware
maps, and the remaining fields as uninterpreted data. -/
structure SystemStatus where
  header : Option (List Nat)
  modules : List (String × ModuleStatus)
  hardware : List (String × HardwareStatus)
  other_ : List Nat
  deriving DecidableEq, Repr

/-- The collaborators of SummaryMonitor::RunOnce, whose code is outside
summary_monitor.cc: the safety manager, protobuf serialisation, std::hash on
strings, the header filler and the flag broadcast_max_interval. -/
structure MonitorCollaborators where
  CheckSafety : ℚ → SystemStatus → SystemStatus
  SerializeToString : SystemStatus → List Nat
  hash_fn : List Nat → Nat
  FillSystemStatusHeader : SystemStatus → SystemStatus
  FLAGS_broadcast_max_interval : ℚ

/-- The members of SummaryMonitor; safety_manager_ is true when the pointer is
not null. -/
structure SummaryMonitor where
  system_status_fp_ : Nat
  last_broadcast_ : ℚ
  safety_manager_ : Bool
  deriving DecidableEq, Repr

namespace SummaryMonitor

/-- UpdateStatusSummary (lines 44-57). -/
def UpdateStatusSummary (new_summary : Summary) (new_msg : String) (status : Status) :
    Status :=
  if new_summary.value > status.summary.value then
    let status := { status with summary := new_summary }
    if new_msg ≠ "" then { status with msg := some new_msg }
    else { status with msg := none }
  else status

/-- SummarizeOnTopicStatus (lines 59-71). -/
def SummarizeOnTopicStatus (topic_status : TopicStatus) (status : Status) : Status :=
  match topic_status.message_delay with
  | none => UpdateStatusSummary Summary.OK "" status
  | some message_delay =>
    if message_delay < 0 then UpdateStatusSummary Summary.ERROR "No message" status
    else UpdateStatusSummary Summary.ERROR "Notable delay" status

/-- Body of the loop of SummarizeModules (lines 117-130). -/
def SummarizeModule (status : ModuleStatus) : ModuleStatus :=
  match status.process_status with
  | some false =>
    { status with toStatus := UpdateStatusSummary Summary.FATAL "No process" status.toStatus }
  | running =>
    let status :=
      match running with
      | some _ =>
        { status with toStatus := UpdateStatusSummary Summary.OK "" status.toStatus }
      | none => status
    match status.topic_status with
    | some topic_status =>
      { status with toStatus := SummarizeOnTopicStatus topic_status status.toStatus }
    | none => status

/-- SummarizeModules (lines 115-132). -/
def SummarizeModules (system_status : SystemStatus) : SystemStatus :=
  { system_status with
    modules := system_status.modules.map (fun module => (module.1, SummarizeModule module.2)) }

/-- Body of the loop of SummarizeHardware (lines 136-167). -/
def SummarizeOneHardware (status : HardwareStatus) : HardwareStatus :=
  let status :=
    match status.status with
    | none => status
    | some HardwareStatusValue.NOT_PRESENT =>
      { status with
        toStatus := UpdateStatusSummary Summary.FATAL status.detailed_msg status.toStatus }
    | some HardwareStatusValue.NOT_READY =>
      { status with
        toStatus := UpdateStatusSummary Summary.WARN status.detailed_msg status.toStatus }
    | some HardwareStatusValue.WARN =>
      { status with
        toStatus := UpdateStatusSummary Summary.WARN status.detailed_msg status.toStatus }
    | some HardwareStatusValue.GPS_UNSTABLE_WARNING =>
      { status with
        toStatus := UpdateStatusSummary Summary.WARN status.detailed_msg status.toStatus }
    | some HardwareStatusValue.GPS_UNSTABLE_ERROR =>
      { status with
        toStatus := UpdateStatusSummary Summary.WARN status.detailed_msg status.toStatus }
    | some HardwareStatusValue.OK =>
      { status with
        toStatus := UpdateStatusSummary Summary.OK status.detailed_msg status.toStatus }
    | some (HardwareStatusValue.OTHER _) =>
      { status with
        toStatus := UpdateStatusSummary Summary.ERROR status.detailed_msg status.toStatus }
  match status.topic_status with
  | some topic_status =>
    { status with toStatus := SummarizeOnTopicStatus topic_status status.toStatus }
  | none => status

/-- SummarizeHardware (lines 134-169). -/
def SummarizeHardware (system_status : SystemStatus) : SystemStatus :=
  { system_status with
    hardware :=
      system_status.hardware.map (fun hardware => (hardware.1, SummarizeOneHardware hardware.2)) }

/-- Lines 86-97 of RunOnce: the status of MonitorManager after summarising,
the safety check and clear_header. -/
def CurrentStatus (env : MonitorCollaborators) (self : SummaryMonitor)
    (system_status : SystemStatus) (current_time : ℚ) : SystemStatus :=
  let system_status := SummarizeModules system_status
  let system_status := SummarizeHardware system_status
  let system_status :=
    if self.safety_manager_ then env.CheckSafety current_time system_status
    else system_status
  { system_status with header := none }

/-- The fingerprint of serialised bytes: std::hash on the string, a size_t. -/
def Fingerprint (env : MonitorCollaborators) (proto_bytes : List Nat) : Nat :=
  env.hash_fn proto_bytes % 2 ^ 64

/-- What RunOnce leaves behind: the monitor, the status held by
MonitorManager, and the status handed to PublishSystemStatus, if any. -/
structure RunOnceResult where
  self : SummaryMonitor
  system_status : SystemStatus
  published : Option SystemStatus

/-- RunOnce (lines 85-113); printing and publishing the log buffer is left
out. -/
def RunOnce (env : MonitorCollaborators) (self : SummaryMonitor)
    (system_status : SystemStatus) (current_time : ℚ) : RunOnceResult :=
  let system_status := CurrentStatus env self system_status current_time
  let proto_bytes := env.SerializeToString system_status
  let new_fp := Fingerprint env proto_bytes
  if self.system_status_fp_ ≠ new_fp ∨
      current_time - self.last_broadcast_ > env.FLAGS_broadcast_max_interval then
    let system_status := env.FillSystemStatusHeader system_status
    { self := { self with system_status_fp_ := new_fp, last_broadcast_ := current_time }
      system_status := system_status
      published := some system_status }
  else { self := self, system_status := system_status, published := none }

/-- A status with no header, no modules and no hardware; other_ then holds the
bytes that the remaining fields contribute to the serialised status. -/
def bareStatus (other_ : List Nat) : SystemStatus :=
  { header := none, modules := [], hardware := [], other_ := other_ }

/-- The multiplier of the 64-bit _Hash_bytes. -/
def hash_mul : Nat := 0xc6a4a793 * 2 ^ 32 + 0x5bd1e995

/-- Helper shift_mix of _Hash_bytes. -/
def shift_mix (v : Nat) : Nat := v ^^^ (v >>> 47)

/-- Helpers load_bytes and unaligned_load of _Hash_bytes on a little-endian
machine: byte i of the chars counts 256 ^ i. -/
def load_bytes : List Nat → Nat
  | [] => 0
  | b :: rest => load_bytes rest * 256 + b

/-- The main loop of _Hash_bytes over the given number of 8-byte blocks: the
hash afterwards and the chars not yet read. -/
def Hash_blocks : Nat → List Nat → Nat → Nat × List Nat
  | 0, rest, hash => (hash, rest)
  | blocks + 1, rest, hash =>
    let data := shift_mix (load_bytes (rest.take 8) * hash_mul % 2 ^ 64) * hash_mul % 2 ^ 64
    Hash_blocks blocks (rest.drop 8) ((hash ^^^ data) * hash_mul % 2 ^ 64)

/-- The function _Hash_bytes of libstdc++ for a 64-bit size_t, the hash
behind std::hash on strings of the GCC toolchain. The standard library is not
part of the repository; this follows libsupc++/hash_bytes.cc. -/
def Hash_bytes (chars : List Nat) (seed : Nat) : Nat :=
  let len := chars.length
  let looped := Hash_blocks (len / 8) chars (seed ^^^ (len * hash_mul % 2 ^ 64))
  let hash :=
    if len % 8 ≠ 0 then (looped.1 ^^^ load_bytes looped.2) * hash_mul % 2 ^ 64
    else looped.1
  let hash := shift_mix hash * hash_mul % 2 ^ 64
  shift_mix hash

/-- The chars of a serialised SystemStatus whose only field is passenger_msg
with a text shorter than 128 chars: the tag of field 4 as a length-delimited
field, the length, the text. The message definition and the serialiser are
not in the sources at hand; this is the protobuf wire format. -/
def passengerMsgBytes (passenger_msg : String) : List Nat :=
  [0x22, passenger_msg.length] ++ passenger_msg.toList.map (fun c => c.toNat)

/-- Sample collaborators for a monitor built with libstdc++: no safety
changes, a status without modules and hardware serialises to the bytes of its
remaining fields, and std::hash on strings is Hash_bytes with the seed
0xc70f6907 of the library. -/
def sampleMonitorEnv : MonitorCollaborators :=
  { CheckSafety := fun _ system_status => system_status
    SerializeToString := fun system_status => system_status.other_
    hash_fn := fun proto_bytes => Hash_bytes proto_bytes 0xc70f6907
    FillSystemStatusHeader := fun system_status => { system_status with header := some [1] }
    FLAGS_broadcast_max_interval := 8 }

/-- A freshly constructed monitor with the safety mode disabled. -/
def sampleMonitor : SummaryMonitor :=
  { system_status_fp_ := 0, last_broadcast_ := 0, safety_manager_ := false }

/-- A status whose only content is the passenger message WBQKFPNMMKLLP. -/
def sampleStatusA : SystemStatus :=
  bareStatus (passengerMsgBytes "WBQKFPNMMKLLP")

/-- A status whose only content is the passenger message GFXRTANHIDDDC. -/
def sampleStatusB : SystemStatus :=
  bareStatus (passengerMsgBytes "GFXRTANHIDDDC")

end SummaryMonitor

/-! # ColorReviser (modules/perception/traffic_light/reviser/color_decision.cc) -/

/-- The colours TLColor of a traffic light. -/
inductive TLColor where
  | UNKNOWN_COLOR
  | RED
  | YELLOW
  | GREEN
  | BLACK
  deriving DecidableEq, Repr

/-- The fields of a Light that Revise reads or writes: info.id().id() and
status.color. -/
structure Light where
  id : String
  color : TLColor
  deriving DecidableEq, Repr

/-- The members of ColorReviser: the two fields of its configuration, the
colour memory and the time memory. -/
structure ColorReviser where
  enable : Int
  blink_time : ℚ
  color_map_ : List (String × TLColor)
  time_map_ : List (String × ℚ)
  deriving DecidableEq, Repr

namespace ColorReviser

/-- The shared tail of the switch of Revise (lines 75-83): remember the
detected colour and the time. -/
def Remember (self : ColorReviser) (ts : ℚ) (light : Light) : ColorReviser × Light :=
  let self :=
    if self.time_map_.length > 10 then { self with color_map_ := [], time_map_ := [] }
    else self
  ({ self with
      color_map_ := mapAssign self.color_map_ light.id light.color
      time_map_ := mapAssign self.time_map_ light.id ts }, light)

/-- Body of the loop of Revise (lines 47-84) for one light. -/
def ReviseLight (self : ColorReviser) (ts : ℚ) (light : Light) : ColorReviser × Light :=
  let id := light.id
  match light.color with
  | TLColor.YELLOW =>
    match mapFind self.color_map_ id with
    | some TLColor.RED =>
      if ts > 0 then
        ({ self with
            color_map_ := mapAssign self.color_map_ id TLColor.RED
            time_map_ := mapAssign self.time_map_ id ts },
          { light with color := TLColor.RED })
      else Remember self ts light
    | _ => Remember self ts light
  | TLColor.RED => Remember self ts light
  | TLColor.GREEN => Remember self ts light
  | _ =>
    match mapFind self.color_map_ id with
    | some remembered =>
      if ts > 0 then
        let read := mapIndex self.time_map_ id 0
        let self := { self with time_map_ := read.2 }
        if ts - read.1 < self.blink_time then (self, { light with color := remembered })
        else (self, light)
      else (self, light)
    | none => (self, light)

/-- The loop of Revise over the lights, in order. -/
def ReviseLoop (ts : ℚ) : ColorReviser → List Light → ColorReviser × List Light
  | self, [] => (self, [])
  | self, light :: rest =>
    let one := ReviseLight self ts light
    let others := ReviseLoop ts one.1 rest
    (others.1, one.2 :: others.2)

/-- Revise (lines 39-88): the returned flag, the reviser and the lights
afterwards; ts is option.ts. -/
def Revise (self : ColorReviser) (ts : ℚ) (lights : List Light) :
    Bool × ColorReviser × List Light :=
  if self.enable = 0 then (true, self, lights)
  else
    let revised := ReviseLoop ts self lights
    (true, revised.1, revised.2)

/-- A sequence of Revise calls, each with its timestamp and lights: the
reviser afterwards and the lights as revised by each call. -/
def ReviseAll : ColorReviser → List (ℚ × List Light) → ColorReviser × List (List Light)
  | self, [] => (self, [])
  | self, frame :: rest =>
    let one := Revise self frame.1 frame.2
    let others := ReviseAll one.2.1 rest
    (others.1, one.2.2 :: others.2)

/-- A sample enabled reviser that remembers RED for light a since time 3. -/
def sampleReviser : ColorReviser :=
  { enable := 1, blink_time := 3 / 2, color_map_ := [("a", TLColor.RED)],
    time_map_ := [("a", 3)] }

/-- What holds of the two memories in every state reached from the empty
memory: the same ids in the same order, no id twice, at most 11 ids, and
only RED, GREEN or YELLOW remembered. -/
def MemoryInvariant (self : ColorReviser) : Prop :=
  self.color_map_.map Prod.fst = self.time_map_.map Prod.fst ∧
    (self.color_map_.map Prod.fst).Nodup ∧
    self.color_map_.length ≤ 11 ∧
    ∀ entry ∈ self.color_map_,
      entry.2 = TLColor.RED ∨ entry.2 = TLColor.GREEN ∨ entry.2 = TLColor.YELLOW

/-- A sample enabled reviser with empty memory. -/
def sampleEmptyReviser : ColorReviser :=
  { enable := 1, blink_time := 3 / 2, color_map_ := [], time_map_ := [] }

/-- Sample Revise calls: light a GREEN at time 1, light a BLACK and light b
RED at time 2. -/
def sampleLightFrames : List (ℚ × List Light) :=
  [(1, [{ id := "a", color := TLColor.GREEN }]),
    (2, [{ id := "a", color := TLColor.BLACK }, { id := "b", color := TLColor.RED }])]

/-- The sample reviser after the sample Revise calls: GREEN remembered for
light a since time 1 and RED for light b since time 2. -/
def sampleRevisedMemory : ColorReviser :=
  { enable := 1, blink_time := 3 / 2,
    color_map_ := [("a", TLColor.GREEN), ("b", TLColor.RED)],
    time_map_ := [("a", 1), ("b", 2)] }

end ColorReviser

namespace HmObjectTracker

variable {W : Type}

/-! ## Vector lemmas -/

theorem resize_length {α : Type} (xs : List α) (n : Nat) (d : α) :
    (resize xs n d).length = n := by
  simp only [resize, List.length_append, List.length_take, List.length_replicate]
  omega

theorem resize_of_le {α : Type} (xs : List α) (n : Nat) (d : α) (h : n ≤ xs.length) :
    resize xs n d = xs.take n := by
  simp [resize, Nat.sub_eq_zero_of_le h]

theorem take_succ_set {α : Type} (out : List α) (k : Nat) (v : α) (h : k < out.length) :
    (out.set k v).take (k + 1) = out.take k ++ [v] := by
  rw [List.set_eq_take_append_cons_drop]
  simp only [h, if_true]
  rw [List.take_append_eq_append_take]
  simp [List.length_take, Nat.min_eq_left (Nat.le_of_lt h)]

theorem take_set_of_le {α : Type} (out : List α) (k j : Nat) (v : α) (h : j ≤ k) :
    (out.set k v).take j = out.take j := by
  induction out generalizing k j with
  | nil => simp
  | cons a rest ih =>
    cases j with
    | zero => simp
    | succ j =>
      cases k with
      | zero => omega
      | succ k => simp [List.set, ih k j (by omega)]

/-! ## Result collection -/

theorem CollectLoop_length (env : Collaborators W) (self : HmObjectTracker W)
    (tracks : List ObjectTrack) (out : List (Option Object)) (k : Nat) :
    (CollectLoop env self tracks out k).1.length = out.length := by
  induction tracks generalizing out k with
  | nil => simp [CollectLoop]
  | cons track rest ih =>
    simp only [CollectLoop]
    split
    · exact ih out k
    · split
      · exact ih out k
      · rw [ih]; simp

theorem CollectLoop_spec (env : Collaborators W) (self : HmObjectTracker W)
    (tracks : List ObjectTrack) (out : List (Option Object)) (k : Nat)
    (h : k + tracks.length ≤ out.length) :
    (CollectLoop env self tracks out k).2 = k + (tracks.filter (Reported self)).length ∧
    (CollectLoop env self tracks out k).1.take (CollectLoop env self tracks out k).2 =
      out.take k ++
        (tracks.filter (Reported self)).map (fun t => some (CollectObject env self t)) := by
  induction tracks generalizing out k with
  | nil => simp [CollectLoop]
  | cons track rest ih =>
    simp only [List.length_cons] at h
    simp only [CollectLoop]
    split
    · rename_i h1
      have hr : Reported self track = false := by
        simp only [Reported, decide_eq_false_iff_not]; omega
      rw [List.filter_cons_of_neg (by simp [hr])]
      exact ih out k (by omega)
    · split
      · rename_i h1 h2
        have hr : Reported self track = false := by
          simp only [Reported, decide_eq_false_iff_not]; omega
        rw [List.filter_cons_of_neg (by simp [hr])]
        exact ih out k (by omega)
      · rename_i h1 h2
        have hr : Reported self track = true := by
          simp only [Reported, decide_eq_true_eq]; omega
        rw [List.filter_cons_of_pos hr]
        have := ih (out.set k (some (CollectObject env self track))) (k + 1)
          (by simp only [List.length_set]; omega)
        rw [take_succ_set out k _ (by omega)] at this
        refine ⟨?_, ?_⟩
        · rw [this.1]; simp only [List.length_cons]; omega
        · rw [this.2]; simp

theorem CollectTrackedResults_eq (env : Collaborators W) (self : HmObjectTracker W)
    (tracked_objects : List (Option Object)) :
    CollectTrackedResults env self tracked_objects =
      (self.object_tracks_.filter (Reported self)).map
        (fun t => some (CollectObject env self t)) := by
  have hlen := resize_length tracked_objects self.object_tracks_.length none
  have hs := CollectLoop_spec env self self.object_tracks_
    (resize tracked_objects self.object_tracks_.length none) 0 (by omega)
  have hl := CollectLoop_length env self self.object_tracks_
    (resize tracked_objects self.object_tracks_.length none) 0
  have hf := List.length_filter_le (Reported self) self.object_tracks_
  simp only [CollectTrackedResults]
  rw [resize_of_le _ _ _ (by rw [hl, hlen, hs.1]; omega), hs.2]
  simp

/-- C1: CollectTrackedResults returns, whatever the output vector held before,
exactly one object per track whose consecutive-invisible count is at most
collect_consecutive_invisible_maximum and whose age is at least
collect_age_minimum, in the order of the collection, and nothing for any other
track; each returned object carries the id of its track; and when no track
qualifies the result is the empty vector. -/
theorem C1_CollectTrackedResults_reports_qualifying_tracks (env : Collaborators W)
    (self : HmObjectTracker W) (tracked_objects : List (Option Object)) :
    CollectTrackedResults env self tracked_objects =
        (self.object_tracks_.filter (fun t =>
            decide (t.consecutive_invisible_count_ ≤
                self.config_.collect_consecutive_invisible_maximum ∧
              self.config_.collect_age_minimum ≤ t.age_))).map
          (fun t => some (CollectObject env self t)) ∧
      (∀ t : ObjectTrack, (CollectObject env self t).track_id = t.idx_) ∧
      ((∀ t ∈ self.object_tracks_,
          ¬ (t.consecutive_invisible_count_ ≤
                self.config_.collect_consecutive_invisible_maximum ∧
              self.config_.collect_age_minimum ≤ t.age_)) →
        CollectTrackedResults env self tracked_objects = []) := by
  have h := CollectTrackedResults_eq env self tracked_objects
  refine ⟨h, fun t => rfl, fun hnone => ?_⟩
  rw [h]
  have : self.object_tracks_.filter (Reported self) = [] := by
    rw [List.filter_eq_nil_iff]
    intro t ht
    simpa [Reported] using hnone t ht
  rw [this]; rfl

/-! ## First frame -/

theorem at?_natCast {α : Type} (xs : List α) (i : Nat) : at? xs (i : Int) = xs.get? i := by
  simp [at?]

theorem at?_append_length {α : Type} (pre rest : List α) (x : α) :
    at? (pre ++ x :: rest) (pre.length : Int) = some x := by
  rw [at?_natCast]
  induction pre with
  | nil => rfl
  | cons a pre ih => simpa using ih

theorem TracksFrom_length (env : Collaborators W) (static : W) (objs : List TrackedObject) :
    (TracksFrom env static objs).1.length = objs.length := by
  induction objs generalizing static with
  | nil => rfl
  | cons obj rest ih => simp [TracksFrom, ih]

theorem TracksFrom_get (env : Collaborators W) (static : W) (objs : List TrackedObject)
    (i : Nat) (h : i < objs.length) :
    ∃ w : W, (TracksFrom env static objs).1[i]? = some (env.NewObjectTrack w objs[i]).1 := by
  induction objs generalizing static i with
  | nil => simp at h
  | cons obj rest ih =>
    cases i with
    | zero => exact ⟨static, by simp [TracksFrom]⟩
    | succ i =>
      obtain ⟨w, hw⟩ := ih (env.NewObjectTrack static obj).2 i (by simpa using h)
      exact ⟨w, by simpa [TracksFrom] using hw⟩

theorem CreateNewTracks_range (env : Collaborators W) (pre objs : List TrackedObject)
    (tracks : List ObjectTrack) (static : W) :
    CreateNewTracks env (pre ++ objs)
        ((List.range' pre.length objs.length).map (fun (i : Nat) => (i : Int))) tracks static =
      some (tracks ++ (TracksFrom env static objs).1, (TracksFrom env static objs).2,
        (List.range' pre.length objs.length).map (fun (i : Nat) => Call.NewObjectTrack (i : Int))) := by
  induction objs generalizing pre tracks static with
  | nil => simp [CreateNewTracks, TracksFrom]
  | cons obj rest ih =>
    have h := ih (pre ++ [obj]) (AddTrack tracks (env.NewObjectTrack static obj).1)
      (env.NewObjectTrack static obj).2
    simp only [List.append_assoc, List.singleton_append, List.length_append,
      List.length_singleton, AddTrack] at h
    simp only [List.length_cons, List.range'_succ, List.map_cons, CreateNewTracks,
      at?_append_length, h, TracksFrom, AddTrack, List.append_assoc, List.singleton_append]

theorem ConstructTrackedObjects_length (env : Collaborators W) (self : HmObjectTracker W)
    (objects : List Object) (pose : Matrix4d) (options : TrackerOptions) :
    (ConstructTrackedObjects env self objects pose options).1.length = objects.length := by
  simp [ConstructTrackedObjects]

theorem ConstructTrackedObjects_get (env : Collaborators W) (self : HmObjectTracker W)
    (objects : List Object) (pose : Matrix4d) (options : TrackerOptions) (i : Nat)
    (h : i < objects.length) :
    (ConstructTrackedObjects env self objects pose options).1[i]? =
      some (ConstructTrackedObject env self pose options objects[i]).1 := by
  simp [ConstructTrackedObjects, h]

theorem ConstructTrackedObjects_calls (env : Collaborators W) (self : HmObjectTracker W)
    (objects : List Object) (pose : Matrix4d) (options : TrackerOptions) (c : Call)
    (hc : c ∈ (ConstructTrackedObjects env self objects pose options).2) :
    (∃ b cloud, c = Call.ComputeHistogram b cloud) ∨
      (∃ q, c = Call.GetNearestLaneDirection q) := by
  simp only [ConstructTrackedObjects, List.map_map, List.mem_flatten, List.mem_map,
    Function.comp] at hc
  obtain ⟨l, ⟨obj, _, rfl⟩, hcl⟩ := hc
  simp only [ConstructTrackedObject] at hcl
  split at hcl <;> simp at hcl
  · rcases hcl with h | h
    · exact Or.inl ⟨_, _, h⟩
    · exact Or.inr ⟨_, h⟩
  · exact Or.inr ⟨_, hcl⟩

theorem InitializeTrack_with_pose (env : Collaborators W) (self : HmObjectTracker W)
    (objects : List Object) (timestamp : ℚ) (hdmap : Vector3 → Option Vector3)
    (pose : Matrix4d) (out : List (Option Object)) :
    Track env { self with valid_ := false } objects timestamp
        { velodyne_trans := some pose, hdmap_input := hdmap } (some out) =
      (let first := FirstFrameTracker self pose
       let constructed := ConstructTrackedObjects env first objects
         (TransformPoseGlobal2Local first pose)
         { velodyne_trans := some pose, hdmap_input := hdmap }
       let created := TracksFrom env self.track_static_ constructed.1
       let last : HmObjectTracker W :=
         { first with
           object_tracks_ := self.object_tracks_ ++ created.1
           track_static_ := created.2
           time_stamp_ := timestamp }
       some
         { ret := true
           self := last
           tracked_objects := some (CollectTrackedResults env last out)
           calls := constructed.2 ++
             (List.range objects.length).map (fun (i : Nat) => Call.NewObjectTrack (i : Int)) }) := by
  have h := CreateNewTracks_range env []
    (ConstructTrackedObjects env (FirstFrameTracker self pose) objects
      (TransformPoseGlobal2Local (FirstFrameTracker self pose) pose)
      { velodyne_trans := some pose, hdmap_input := hdmap }).1
    self.object_tracks_ self.track_static_
  simp only [List.nil_append, List.length_nil, ← List.range_eq_range',
    ConstructTrackedObjects_length] at h
  simp only [Track, InitializeTrack, FirstFrameTracker, Bool.not_false, if_true,
    ConstructTrackedObjects_length] at h ⊢
  rw [h]

/-- C2: a first Track call (valid_ not yet set) with a pose, an output vector
and n detections succeeds, makes no call to the matcher, and appends exactly n
tracks to the collection (which is then exactly these n tracks when the
tracker had none); the i-th appended track is the one the ObjectTrack
constructor builds from the tracked object constructed from the i-th
detection, for i = 0 .. n-1. -/
theorem C2_first_frame_creates_one_track_per_detection (env : Collaborators W)
    (self : HmObjectTracker W) (objects : List Object) (timestamp : ℚ)
    (hdmap : Vector3 → Option Vector3) (pose : Matrix4d) (out : List (Option Object))
    (hfirst : self.valid_ = false) :
    ∃ (r : TrackResult W) (added : List ObjectTrack),
      Track env self objects timestamp
          { velodyne_trans := some pose, hdmap_input := hdmap } (some out) = some r ∧
        r.ret = true ∧
        Call.Match ∉ r.calls ∧
        r.self.object_tracks_ = self.object_tracks_ ++ added ∧
        added.length = objects.length ∧
        (self.object_tracks_ = [] → r.self.object_tracks_.length = objects.length) ∧
        ∀ (i : Nat) (h : i < objects.length), ∃ w : W,
          added[i]? = some (env.NewObjectTrack w
            (ConstructTrackedObject env (FirstFrameTracker self pose)
              (TransformPoseGlobal2Local (FirstFrameTracker self pose) pose)
              { velodyne_trans := some pose, hdmap_input := hdmap } objects[i]).1).1 := by
  have hself : self = { self with valid_ := false } := by
    cases self; simp only at hfirst; subst hfirst; rfl
  have hrun := InitializeTrack_with_pose env self objects timestamp hdmap pose out
  rw [← hself] at hrun
  refine ⟨_, _, hrun, rfl, ?_, rfl, ?_, ?_, ?_⟩
  · intro hmem
    simp only [List.mem_append, List.mem_map] at hmem
    rcases hmem with hmem | ⟨i, _, hi⟩
    · rcases ConstructTrackedObjects_calls _ _ _ _ _ _ hmem with ⟨_, _, h⟩ | ⟨_, h⟩ <;>
        cases h
    · cases hi
  · simp [TracksFrom_length, ConstructTrackedObjects_length]
  · intro hnil
    simp [hnil, TracksFrom_length, ConstructTrackedObjects_length]
  · intro i h
    have hlen := ConstructTrackedObjects_length env (FirstFrameTracker self pose) objects
      (TransformPoseGlobal2Local (FirstFrameTracker self pose) pose)
      { velodyne_trans := some pose, hdmap_input := hdmap }
    obtain ⟨w, hw⟩ := TracksFrom_get env self.track_static_
      (ConstructTrackedObjects env (FirstFrameTracker self pose) objects
        (TransformPoseGlobal2Local (FirstFrameTracker self pose) pose)
        { velodyne_trans := some pose, hdmap_input := hdmap }).1 i (by rw [hlen]; exact h)
    refine ⟨w, ?_⟩
    rw [hw]
    have hget := ConstructTrackedObjects_get env (FirstFrameTracker self pose) objects
      (TransformPoseGlobal2Local (FirstFrameTracker self pose) pose)
      { velodyne_trans := some pose, hdmap_input := hdmap } i h
    rw [List.getElem?_eq_getElem (by rw [hlen]; exact h)] at hget
    simp only [Option.some.injEq] at hget
    rw [hget]

/-- C2 at the sample first frame: three detections on the fresh sample tracker. -/
theorem C2_first_frame_witness :
    ∃ (r : TrackResult Nat) (added : List ObjectTrack),
      Track sampleEnv sampleTracker sampleObjects 10
          { velodyne_trans := some samplePose, hdmap_input := fun _ => none } (some []) =
          some r ∧
        r.ret = true ∧
        Call.Match ∉ r.calls ∧
        r.self.object_tracks_ = sampleTracker.object_tracks_ ++ added ∧
        added.length = sampleObjects.length ∧
        (sampleTracker.object_tracks_ = [] →
          r.self.object_tracks_.length = sampleObjects.length) ∧
        ∀ (i : Nat) (h : i < sampleObjects.length), ∃ w : Nat,
          added[i]? = some (sampleEnv.NewObjectTrack w
            (ConstructTrackedObject sampleEnv (FirstFrameTracker sampleTracker samplePose)
              (TransformPoseGlobal2Local (FirstFrameTracker sampleTracker samplePose)
                samplePose)
              { velodyne_trans := some samplePose, hdmap_input := fun _ => none }
              sampleObjects[i]).1).1 :=
  C2_first_frame_creates_one_track_per_detection sampleEnv sampleTracker sampleObjects 10
    (fun _ => none) samplePose [] rfl

/-! ## The local frame -/

theorem Track_later_keeps_offset (env : Collaborators W) (self : HmObjectTracker W)
    (objects : List Object) (timestamp : ℚ) (options : TrackerOptions)
    (tracked_objects : Option (List (Option Object))) (r : TrackResult W)
    (hvalid : self.valid_ = true)
    (hrun : Track env self objects timestamp options tracked_objects = some r) :
    r.self.valid_ = true ∧
      r.self.global_to_local_offset_ = self.global_to_local_offset_ := by
  unfold Track at hrun
  simp only [hvalid, Bool.not_true] at hrun
  repeat' split at hrun
  all_goals first
    | contradiction
    | (simp only [Option.some.injEq] at hrun; subst hrun
       exact ⟨by simp [DeleteLostTracks, hvalid], by simp [DeleteLostTracks]⟩)

theorem TrackAll_later_keeps_offset (env : Collaborators W) (frames : List Frame)
    (self last : HmObjectTracker W) (hvalid : self.valid_ = true)
    (hrun : TrackAll env self frames = some last) :
    last.global_to_local_offset_ = self.global_to_local_offset_ := by
  induction frames generalizing self with
  | nil =>
    simp only [TrackAll, Option.some.injEq] at hrun
    rw [hrun]
  | cons frame rest ih =>
    simp only [TrackAll] at hrun
    split at hrun
    · cases hrun
    · rename_i r hr
      have h := Track_later_keeps_offset env self _ _ _ _ r hvalid hr
      rw [ih r.self h.1 hrun, h.2]

theorem TransformPoseGlobal2Local_entries (self : HmObjectTracker W) (pose : Matrix4d) :
    (∀ i j : Fin 4, (j ≠ 3 ∨ i = 3) → TransformPoseGlobal2Local self pose i j = pose i j) ∧
      TransformPoseGlobal2Local self pose 0 3 = pose 0 3 + self.global_to_local_offset_.x ∧
      TransformPoseGlobal2Local self pose 1 3 = pose 1 3 + self.global_to_local_offset_.y ∧
      TransformPoseGlobal2Local self pose 2 3 = pose 2 3 + self.global_to_local_offset_.z := by
  refine ⟨?_, ?_, ?_, ?_⟩
  · intro i j h
    simp only [TransformPoseGlobal2Local, setEntry]
    rcases h with h | h
    · simp [h]
    · subst h; simp
  · simp [TransformPoseGlobal2Local, setEntry]
  · simp [TransformPoseGlobal2Local, setEntry]
  · simp [TransformPoseGlobal2Local, setEntry]

/-- C3: in a sequence of Track calls that starts on a tracker before its first
frame with a call carrying a pose (and an output vector), the local-frame
offset after every call of the sequence is the negated translation column of
that first pose, so the first frame's local pose has zero translation and no
later call changes the offset; and TransformPoseGlobal2Local changes only the
entries (0,3), (1,3), (2,3) of a pose, by adding the offset, leaving the
rotation block and the bottom row as they are. -/
theorem C3_offset_fixed_by_first_pose (env : Collaborators W) (self last : HmObjectTracker W)
    (objects : List Object) (timestamp : ℚ) (hdmap : Vector3 → Option Vector3)
    (pose : Matrix4d) (out : List (Option Object)) (rest : List Frame)
    (hfirst : self.valid_ = false)
    (hrun : TrackAll env self
      ({ objects := objects, timestamp := timestamp,
         options := { velodyne_trans := some pose, hdmap_input := hdmap },
         tracked_objects := some out } :: rest) = some last) :
    last.global_to_local_offset_ = { x := -pose 0 3, y := -pose 1 3, z := -pose 2 3 } ∧
      (TransformPoseGlobal2Local last pose 0 3 = 0 ∧
        TransformPoseGlobal2Local last pose 1 3 = 0 ∧
        TransformPoseGlobal2Local last pose 2 3 = 0) ∧
      (∀ (t : HmObjectTracker W) (P : Matrix4d) (i j : Fin 4), (j ≠ 3 ∨ i = 3) →
        TransformPoseGlobal2Local t P i j = P i j) ∧
      (∀ (t : HmObjectTracker W) (P : Matrix4d),
        TransformPoseGlobal2Local t P 0 3 = P 0 3 + t.global_to_local_offset_.x ∧
        TransformPoseGlobal2Local t P 1 3 = P 1 3 + t.global_to_local_offset_.y ∧
        TransformPoseGlobal2Local t P 2 3 = P 2 3 + t.global_to_local_offset_.z) := by
  have hself : self = { self with valid_ := false } := by
    cases self; simp only at hfirst; subst hfirst; rfl
  have hone := InitializeTrack_with_pose env self objects timestamp hdmap pose out
  rw [← hself] at hone
  simp only [TrackAll, hone] at hrun
  have hoff := TrackAll_later_keeps_offset env rest _ last rfl hrun
  simp only [FirstFrameTracker] at hoff
  refine ⟨hoff, ?_, fun t P => (TransformPoseGlobal2Local_entries t P).1,
    fun t P => (TransformPoseGlobal2Local_entries t P).2⟩
  have h := (TransformPoseGlobal2Local_entries last pose).2
  rw [hoff] at h
  simpa using h

/-- C3 on the three sample frames, whose later poses differ from the first. -/
theorem C3_offset_witness :
    ∃ last : HmObjectTracker Nat,
      TrackAll sampleEnv sampleTracker [sampleFrame1, sampleFrame2, sampleFrame3] =
          some last ∧
        last.global_to_local_offset_ =
          { x := -samplePose 0 3, y := -samplePose 1 3, z := -samplePose 2 3 } ∧
        (TransformPoseGlobal2Local last samplePose 0 3 = 0 ∧
          TransformPoseGlobal2Local last samplePose 1 3 = 0 ∧
          TransformPoseGlobal2Local last samplePose 2 3 = 0) :=
  ⟨_, rfl,
    (C3_offset_fixed_by_first_pose sampleEnv sampleTracker _ sampleObjects 10
      (fun _ => none) samplePose [] [sampleFrame2, sampleFrame3] rfl rfl).1,
    (C3_offset_fixed_by_first_pose sampleEnv sampleTracker _ sampleObjects 10
      (fun _ => none) samplePose [] [sampleFrame2, sampleFrame3] rfl rfl).2.1⟩

/-! ## Round trip of coordinates -/

theorem local_then_world (self : HmObjectTracker W) (P : Matrix4d) (p : Vector3) :
    (mulHead3 (TransformPoseGlobal2Local self P) { x := p.x, y := p.y, z := p.z, w := 1 }).sub
        self.global_to_local_offset_ =
      mulHead3 P { x := p.x, y := p.y, z := p.z, w := 1 } := by
  simp only [mulHead3, Vector3.sub, TransformPoseGlobal2Local, setEntry]
  simp
  refine ⟨?_, ?_, ?_⟩ <;> ring

theorem local_then_world_cloud (self : HmObjectTracker W) (P : Matrix4d)
    (cloud : List Vector3) :
    (TransformPointCloud (TransformPoseGlobal2Local self P) cloud).map
        (fun p => p.sub self.global_to_local_offset_) =
      TransformPointCloud P cloud := by
  simp only [TransformPointCloud, List.map_map]
  apply List.map_congr_left
  intro p _
  exact local_then_world self P p

/-- C4: for every pose P, every offset o (the offset of the tracker) and every
detection, if the tracked object that ConstructTrackedObjects builds with the
local pose (P with o added to its translation) is the current object of a
track, then the object CollectTrackedResults reports for that track has as
centre, cloud points and polygon vertices exactly P applied to the centre,
cloud points and polygon vertices of the detection; point by point,
transforming by the local pose and subtracting o is applying P. -/
theorem C4_local_frame_round_trip (env : Collaborators W) (self : HmObjectTracker W)
    (P : Matrix4d) (options : TrackerOptions) (object : Object) (track : ObjectTrack) :
    (∀ p : Vector3,
        (mulHead3 (TransformPoseGlobal2Local self P)
            { x := p.x, y := p.y, z := p.z, w := 1 }).sub self.global_to_local_offset_ =
          mulHead3 P { x := p.x, y := p.y, z := p.z, w := 1 }) ∧
      (CollectObject env self
          { track with
            current_object_ :=
              (ConstructTrackedObject env self (TransformPoseGlobal2Local self P) options
                object).1 }).center =
        mulHead3 P
          { x := (env.NewTrackedObject object).center.x,
            y := (env.NewTrackedObject object).center.y,
            z := (env.NewTrackedObject object).center.z, w := 1 } ∧
      (CollectObject env self
          { track with
            current_object_ :=
              (ConstructTrackedObject env self (TransformPoseGlobal2Local self P) options
                object).1 }).cloud =
        TransformPointCloud P (env.NewTrackedObject object).object_ptr.cloud ∧
      (CollectObject env self
          { track with
            current_object_ :=
              (ConstructTrackedObject env self (TransformPoseGlobal2Local self P) options
                object).1 }).polygon =
        TransformPointCloud P (env.NewTrackedObject object).object_ptr.polygon := by
  refine ⟨local_then_world self P, ?_, ?_, ?_⟩
  · simp only [CollectObject, ConstructTrackedObject, TransformTrackedObject]
    split <;> exact local_then_world self P _
  · simp only [CollectObject, ConstructTrackedObject, TransformTrackedObject, TransformObject]
    split <;> exact local_then_world_cloud self P _
  · simp only [CollectObject, ConstructTrackedObject, TransformTrackedObject, TransformObject]
    split <;> exact local_then_world_cloud self P _

/-! ## Rejected frames -/

/-- C5: a Track call whose options carry no sensor pose returns false, on a
tracker before or after its first frame and whatever the output pointer is;
it makes no call to any collaborator (no track is created, predicted, updated
or deleted), leaves the output vector as it was, and leaves every member of
the tracker other than valid_ unchanged, in particular the tracks, the stored
timestamp and the local-frame offset. -/
theorem C5_missing_pose_rejects_frame (env : Collaborators W) (self : HmObjectTracker W)
    (objects : List Object) (timestamp : ℚ) (hdmap : Vector3 → Option Vector3)
    (tracked_objects : Option (List (Option Object))) :
    ∃ r : TrackResult W,
      Track env self objects timestamp { velodyne_trans := none, hdmap_input := hdmap }
          tracked_objects = some r ∧
        r.ret = false ∧
        r.calls = [] ∧
        r.tracked_objects = tracked_objects ∧
        r.self.object_tracks_ = self.object_tracks_ ∧
        r.self.time_stamp_ = self.time_stamp_ ∧
        r.self.global_to_local_offset_ = self.global_to_local_offset_ ∧
        r.self = { self with valid_ := r.self.valid_ } := by
  cases tracked_objects with
  | none => exact ⟨_, rfl, rfl, rfl, rfl, rfl, rfl, rfl, rfl⟩
  | some out =>
    cases hv : self.valid_ with
    | false =>
      refine ⟨{ ret := false
                self := { self with valid_ := true }
                tracked_objects := some out
                calls := [] }, ?_, rfl, rfl, rfl, rfl, rfl, rfl, rfl⟩
      simp [Track, InitializeTrack, hv]
    | true =>
      refine ⟨{ ret := false, self := self, tracked_objects := some out, calls := [] },
        ?_, rfl, rfl, rfl, rfl, rfl, rfl, ?_⟩
      · simp [Track, hv]
      · cases self; simp_all

/-! ## Later frames -/

theorem Track_later_accepted (env : Collaborators W) (self : HmObjectTracker W)
    (objects : List Object) (timestamp : ℚ) (options : TrackerOptions)
    (tracked_objects : Option (List (Option Object))) (r : TrackResult W)
    (hvalid : self.valid_ = true)
    (hrun : Track env self objects timestamp options tracked_objects = some r)
    (hret : r.ret = true) :
    ∃ (out : List (Option Object)) (pose : Matrix4d) (matcher : MatcherMethod)
      (tracks1 : List ObjectTrack) (objects1 : List TrackedObject) (calls1 : List Call)
      (tracks2 : List ObjectTrack) (calls2 : List Call)
      (tracks3 : List ObjectTrack) (static3 : W) (calls3 : List Call),
      tracked_objects = some out ∧ options.velodyne_trans = some pose ∧
      self.matcher_ = some matcher ∧
      UpdateAssignedTracks env (timestamp - self.time_stamp_)
          (env.Match
            (ConstructTrackedObjects env { self with time_stamp_ := timestamp } objects
              (TransformPoseGlobal2Local { self with time_stamp_ := timestamp } pose)
              options).1
            self.object_tracks_
            (ComputeTracksPredict env { self with time_stamp_ := timestamp }
              (timestamp - self.time_stamp_)).1).assignments
          self.object_tracks_
          (ConstructTrackedObjects env { self with time_stamp_ := timestamp } objects
            (TransformPoseGlobal2Local { self with time_stamp_ := timestamp } pose)
            options).1 = some (tracks1, objects1, calls1) ∧
      UpdateUnassignedTracks env
          (ComputeTracksPredict env { self with time_stamp_ := timestamp }
            (timestamp - self.time_stamp_)).1
          (timestamp - self.time_stamp_)
          (env.Match
            (ConstructTrackedObjects env { self with time_stamp_ := timestamp } objects
              (TransformPoseGlobal2Local { self with time_stamp_ := timestamp } pose)
              options).1
            self.object_tracks_
            (ComputeTracksPredict env { self with time_stamp_ := timestamp }
              (timestamp - self.time_stamp_)).1).unassigned_tracks
          tracks1 = some (tracks2, calls2) ∧
      CreateNewTracks env objects1
          (env.Match
            (ConstructTrackedObjects env { self with time_stamp_ := timestamp } objects
              (TransformPoseGlobal2Local { self with time_stamp_ := timestamp } pose)
              options).1
            self.object_tracks_
            (ComputeTracksPredict env { self with time_stamp_ := timestamp }
              (timestamp - self.time_stamp_)).1).unassigned_objects
          (env.RemoveLostTracks tracks2) self.track_static_ =
        some (tracks3, static3, calls3) ∧
      r.self =
        { self with
          time_stamp_ := timestamp, object_tracks_ := tracks3, track_static_ := static3 } ∧
      r.calls =
        (ConstructTrackedObjects env { self with time_stamp_ := timestamp } objects
            (TransformPoseGlobal2Local { self with time_stamp_ := timestamp } pose)
            options).2 ++
          (ComputeTracksPredict env { self with time_stamp_ := timestamp }
            (timestamp - self.time_stamp_)).2 ++
          [Call.Match] ++ calls1 ++ calls2 ++ [Call.RemoveLostTracks] ++ calls3 ∧
      r.tracked_objects = some (CollectTrackedResults env r.self out) := by
  have hnot : (!self.valid_) = false := by simp [hvalid]
  unfold Track at hrun
  simp only [hnot] at hrun
  repeat' split at hrun
  all_goals first
    | contradiction
    | (simp only [Option.some.injEq] at hrun; subst hrun; simp at hret; done)
    | skip
  rename_i out _ _ pose hpose _ matcher hmatcher _ tracks1 objects1 calls1 h1 _ tracks2 calls2
    h2 _ tracks3 static3 calls3 h3
  simp only [Option.some.injEq] at hrun
  subst hrun
  exact ⟨out, pose, matcher, tracks1, objects1, calls1, tracks2, calls2, tracks3, static3,
    calls3, rfl, hpose, hmatcher, h1, h2, h3, rfl, rfl, rfl⟩

theorem at?_of_lt {α : Type} (xs : List α) (i : Int) (h0 : 0 ≤ i) (h1 : i < xs.length) :
    ∃ x, at? xs i = some x := by
  have hlt : i.toNat < xs.length := by omega
  refine ⟨xs[i.toNat], ?_⟩
  simp only [at?, List.get?_eq_getElem?]
  rw [if_neg (by omega), List.getElem?_eq_getElem hlt]

theorem setAt_length {α : Type} (xs : List α) (i : Int) (v : α) :
    (setAt xs i v).length = xs.length := by
  simp [setAt]

theorem UpdateAssignedTracks_calls (env : Collaborators W) (time_diff : ℚ)
    (assignments : List (Int × Int)) (tracks tracks1 : List ObjectTrack)
    (objs objs1 : List TrackedObject) (calls : List Call)
    (h : UpdateAssignedTracks env time_diff assignments tracks objs =
      some (tracks1, objs1, calls)) :
    calls = assignments.map (fun a => Call.UpdateWithObject a.1 a.2 time_diff) ∧
      tracks1.length = tracks.length ∧ objs1.length = objs.length := by
  induction assignments generalizing tracks objs calls with
  | nil =>
    simp only [UpdateAssignedTracks, Option.some.injEq, Prod.mk.injEq] at h
    obtain ⟨rfl, rfl, rfl⟩ := h
    simp
  | cons a rest ih =>
    simp only [UpdateAssignedTracks] at h
    split at h
    · split at h
      · rename_i heq
        simp only [Option.some.injEq, Prod.mk.injEq] at h
        obtain ⟨rfl, rfl, rfl⟩ := h
        have := ih _ _ _ heq
        simp only [setAt_length] at this
        simp [this.1, this.2.1, this.2.2]
      · cases h
    · cases h

theorem UpdateAssignedTracks_defined (env : Collaborators W) (time_diff : ℚ)
    (assignments : List (Int × Int)) (tracks : List ObjectTrack) (objs : List TrackedObject)
    (h : ∀ a ∈ assignments,
      (0 ≤ a.1 ∧ a.1 < tracks.length) ∧ (0 ≤ a.2 ∧ a.2 < objs.length)) :
    ∃ r, UpdateAssignedTracks env time_diff assignments tracks objs = some r := by
  induction assignments generalizing tracks objs with
  | nil => exact ⟨_, rfl⟩
  | cons a rest ih =>
    obtain ⟨⟨h0, h1⟩, h2, h3⟩ := h a (List.mem_cons_self _ _)
    obtain ⟨track, ht⟩ := at?_of_lt tracks a.1 h0 h1
    obtain ⟨obj, ho⟩ := at?_of_lt objs a.2 h2 h3
    obtain ⟨⟨t, o, c⟩, hr⟩ := ih
      (setAt tracks a.1 (env.UpdateWithObject track obj time_diff).1)
      (setAt objs a.2 (env.UpdateWithObject track obj time_diff).2)
      (by
        intro b hb
        simp only [setAt_length]
        exact h b (List.mem_cons_of_mem _ hb))
    exact ⟨(t, o, Call.UpdateWithObject a.1 a.2 time_diff :: c),
      by simp only [UpdateAssignedTracks, ht, ho, hr]⟩

theorem UpdateUnassignedTracks_calls (env : Collaborators W) (tracks_predict : List (List ℚ))
    (time_diff : ℚ) (unassigned : List Int) (tracks tracks1 : List ObjectTrack)
    (calls : List Call)
    (h : UpdateUnassignedTracks env tracks_predict time_diff unassigned tracks =
      some (tracks1, calls)) :
    calls = unassigned.map (fun i => Call.UpdateWithoutObject i time_diff) ∧
      tracks1.length = tracks.length := by
  induction unassigned generalizing tracks calls with
  | nil =>
    simp only [UpdateUnassignedTracks, Option.some.injEq, Prod.mk.injEq] at h
    obtain ⟨rfl, rfl⟩ := h
    simp
  | cons a rest ih =>
    simp only [UpdateUnassignedTracks] at h
    split at h
    · split at h
      · rename_i heq
        simp only [Option.some.injEq, Prod.mk.injEq] at h
        obtain ⟨rfl, rfl⟩ := h
        have := ih _ _ heq
        simp only [setAt_length] at this
        simp [this.1, this.2]
      · cases h
    · cases h

theorem UpdateUnassignedTracks_defined (env : Collaborators W)
    (tracks_predict : List (List ℚ)) (time_diff : ℚ) (unassigned : List Int)
    (tracks : List ObjectTrack)
    (h : ∀ i ∈ unassigned, 0 ≤ i ∧ i < tracks.length ∧ i < tracks_predict.length) :
    ∃ r, UpdateUnassignedTracks env tracks_predict time_diff unassigned tracks = some r := by
  induction unassigned generalizing tracks with
  | nil => exact ⟨_, rfl⟩
  | cons a rest ih =>
    obtain ⟨h0, h1, h2⟩ := h a (List.mem_cons_self _ _)
    obtain ⟨track, ht⟩ := at?_of_lt tracks a h0 h1
    obtain ⟨predict, hp⟩ := at?_of_lt tracks_predict a h0 h2
    obtain ⟨⟨t, c⟩, hr⟩ := ih
      (setAt tracks a (env.UpdateWithoutObject track predict time_diff))
      (by
        intro b hb
        simp only [setAt_length]
        exact h b (List.mem_cons_of_mem _ hb))
    exact ⟨(t, Call.UpdateWithoutObject a time_diff :: c),
      by simp only [UpdateUnassignedTracks, ht, hp, hr]⟩

theorem CreateNewTracks_calls (env : Collaborators W) (new_objects : List TrackedObject)
    (unassigned : List Int) (tracks tracks1 : List ObjectTrack) (static static1 : W)
    (calls : List Call)
    (h : CreateNewTracks env new_objects unassigned tracks static =
      some (tracks1, static1, calls)) :
    calls = unassigned.map (fun i => Call.NewObjectTrack i) ∧
      ∃ added : List ObjectTrack,
        tracks1 = tracks ++ added ∧ added.length = unassigned.length := by
  induction unassigned generalizing tracks static calls with
  | nil =>
    simp only [CreateNewTracks, Option.some.injEq, Prod.mk.injEq] at h
    obtain ⟨rfl, rfl, rfl⟩ := h
    exact ⟨rfl, [], by simp, rfl⟩
  | cons a rest ih =>
    simp only [CreateNewTracks] at h
    split at h
    · split at h
      · rename_i obj _ _ _ _ _ heq
        simp only [Option.some.injEq, Prod.mk.injEq] at h
        obtain ⟨rfl, rfl, rfl⟩ := h
        obtain ⟨hc, added, ha, hl⟩ := ih _ _ _ heq
        refine ⟨by simp [hc], (env.NewObjectTrack static obj).1 :: added, ?_, by simp [hl]⟩
        rw [ha]; simp [AddTrack]
      · cases h
    · cases h

theorem CreateNewTracks_defined (env : Collaborators W) (new_objects : List TrackedObject)
    (unassigned : List Int) (tracks : List ObjectTrack) (static : W)
    (h : ∀ i ∈ unassigned, 0 ≤ i ∧ i < new_objects.length) :
    ∃ r, CreateNewTracks env new_objects unassigned tracks static = some r := by
  induction unassigned generalizing tracks static with
  | nil => exact ⟨_, rfl⟩
  | cons a rest ih =>
    obtain ⟨h0, h1⟩ := h a (List.mem_cons_self _ _)
    obtain ⟨obj, ho⟩ := at?_of_lt new_objects a h0 h1
    obtain ⟨⟨t, w, c⟩, hr⟩ := ih (AddTrack tracks (env.NewObjectTrack static obj).1)
      (env.NewObjectTrack static obj).2 (fun b hb => h b (List.mem_cons_of_mem _ hb))
    exact ⟨(t, w, Call.NewObjectTrack a :: c), by simp only [CreateNewTracks, ho, hr]⟩

theorem mem_range_cast (n : Nat) (i : Int)
    (h : i ∈ (List.range n).map (fun (k : Nat) => (k : Int))) : 0 ≤ i ∧ i < n := by
  simp only [List.mem_map, List.mem_range] at h
  obtain ⟨k, hk, rfl⟩ := h
  omega

theorem count_range_cast (n j : Nat) (h : j < n) :
    ((List.range n).map (fun (k : Nat) => (k : Int))).count (j : Int) = 1 := by
  apply List.count_eq_one_of_mem
  · exact (List.nodup_range n).map (fun a b hab => by simpa using hab)
  · simp only [List.mem_map, List.mem_range]
    exact ⟨j, h, rfl⟩

theorem countP_construct_calls (env : Collaborators W) (self : HmObjectTracker W)
    (objects : List Object) (pose : Matrix4d) (options : TrackerOptions) (p : Call → Bool)
    (hh : ∀ b cloud, p (Call.ComputeHistogram b cloud) = false)
    (hl : ∀ q, p (Call.GetNearestLaneDirection q) = false) :
    (ConstructTrackedObjects env self objects pose options).2.countP p = 0 := by
  rw [List.countP_eq_zero]
  intro c hc
  rcases ConstructTrackedObjects_calls env self objects pose options c hc with
    ⟨b, cloud, rfl⟩ | ⟨q, rfl⟩
  · simp [hh]
  · simp [hl]

theorem countP_predict_calls (env : Collaborators W) (self : HmObjectTracker W)
    (time_diff : ℚ) (p : Call → Bool) (hp : ∀ i d, p (Call.Predict i d) = false) :
    (ComputeTracksPredict env self time_diff).2.countP p = 0 := by
  rw [List.countP_eq_zero]
  intro c hc
  simp only [ComputeTracksPredict, List.mem_map] at hc
  obtain ⟨i, _, rfl⟩ := hc
  simp [hp]

theorem Track_later_defined (env : Collaborators W) (self : HmObjectTracker W)
    (objects : List Object) (timestamp : ℚ) (hdmap : Vector3 → Option Vector3)
    (pose : Matrix4d) (matcher : MatcherMethod) (out : List (Option Object))
    (hvalid : self.valid_ = true) (hmatcher : self.matcher_ = some matcher)
    (hassigned : ∀ a ∈ (MatchOfFrame env self objects timestamp
        { velodyne_trans := some pose, hdmap_input := hdmap } pose).assignments,
      (0 ≤ a.1 ∧ a.1 < self.object_tracks_.length) ∧ (0 ≤ a.2 ∧ a.2 < objects.length))
    (htracks : ∀ i ∈ (MatchOfFrame env self objects timestamp
        { velodyne_trans := some pose, hdmap_input := hdmap } pose).unassigned_tracks,
      0 ≤ i ∧ i < self.object_tracks_.length)
    (hobjects : ∀ j ∈ (MatchOfFrame env self objects timestamp
        { velodyne_trans := some pose, hdmap_input := hdmap } pose).unassigned_objects,
      0 ≤ j ∧ j < objects.length) :
    ∃ r : TrackResult W,
      Track env self objects timestamp { velodyne_trans := some pose, hdmap_input := hdmap }
          (some out) = some r ∧ r.ret = true := by
  have hnot : (!self.valid_) = false := by simp [hvalid]
  simp only [MatchOfFrame] at hassigned htracks hobjects
  obtain ⟨⟨tracks1, objects1, calls1⟩, h1⟩ := UpdateAssignedTracks_defined env
    (timestamp - self.time_stamp_) _ self.object_tracks_
    (ConstructTrackedObjects env { self with time_stamp_ := timestamp } objects
      (TransformPoseGlobal2Local { self with time_stamp_ := timestamp } pose)
      { velodyne_trans := some pose, hdmap_input := hdmap }).1
    (by simpa only [ConstructTrackedObjects_length] using hassigned)
  obtain ⟨_, hlen1, hlen1o⟩ := UpdateAssignedTracks_calls env _ _ _ _ _ _ _ h1
  obtain ⟨⟨tracks2, calls2⟩, h2⟩ := UpdateUnassignedTracks_defined env
    (ComputeTracksPredict env { self with time_stamp_ := timestamp }
      (timestamp - self.time_stamp_)).1
    (timestamp - self.time_stamp_) _ tracks1
    (by
      intro i hi
      have := htracks i hi
      simp only [ComputeTracksPredict, List.length_map, hlen1]
      exact ⟨this.1, this.2, this.2⟩)
  obtain ⟨⟨tracks3, static3, calls3⟩, h3⟩ := CreateNewTracks_defined env objects1 _
    (env.RemoveLostTracks tracks2) self.track_static_
    (by
      intro j hj
      have := hobjects j hj
      rw [hlen1o, ConstructTrackedObjects_length]
      exact this)
  generalize hres : Track env self objects timestamp
    { velodyne_trans := some pose, hdmap_input := hdmap } (some out) = res
  unfold Track at hres
  simp only [hnot, Bool.false_eq_true, if_false] at hres
  split at hres
  · rename_i hm
    rw [hmatcher] at hm
    cases hm
  · simp only [h1, h2, DeleteLostTracks, h3] at hres
    subst hres
    exact ⟨_, rfl, rfl⟩

theorem countP_matchesObject (time_diff : ℚ) (j : Int) (assignments : List (Int × Int)) :
    (assignments.map (fun a => Call.UpdateWithObject a.1 a.2 time_diff)).countP
        (Call.matchesObject j) = (assignments.map Prod.snd).count j ∧
      (assignments.map (fun a => Call.UpdateWithObject a.1 a.2 time_diff)).countP
        (Call.createsFromObject j) = 0 ∧
      (assignments.map (fun a => Call.UpdateWithObject a.1 a.2 time_diff)).countP
        (Call.updatesTrackWithObject j) = (assignments.map Prod.fst).count j ∧
      (assignments.map (fun a => Call.UpdateWithObject a.1 a.2 time_diff)).countP
        (Call.updatesTrackWithoutObject j) = 0 := by
  induction assignments with
  | nil => simp
  | cons a rest ih =>
    obtain ⟨h1, h2, h3, h4⟩ := ih
    simp only [List.map_cons, List.countP_cons, List.count_cons, h1, h2, h3, h4,
      Call.matchesObject, Call.createsFromObject, Call.updatesTrackWithObject,
      Call.updatesTrackWithoutObject, beq_iff_eq, decide_eq_true_eq]
    simp

theorem countP_withoutObject (time_diff : ℚ) (j : Int) (unassigned : List Int) :
    (unassigned.map (fun i => Call.UpdateWithoutObject i time_diff)).countP
        (Call.matchesObject j) = 0 ∧
      (unassigned.map (fun i => Call.UpdateWithoutObject i time_diff)).countP
        (Call.createsFromObject j) = 0 ∧
      (unassigned.map (fun i => Call.UpdateWithoutObject i time_diff)).countP
        (Call.updatesTrackWithObject j) = 0 ∧
      (unassigned.map (fun i => Call.UpdateWithoutObject i time_diff)).countP
        (Call.updatesTrackWithoutObject j) = unassigned.count j := by
  induction unassigned with
  | nil => simp
  | cons a rest ih =>
    obtain ⟨h1, h2, h3, h4⟩ := ih
    simp only [List.map_cons, List.countP_cons, List.count_cons, h1, h2, h3, h4,
      Call.matchesObject, Call.createsFromObject, Call.updatesTrackWithObject,
      Call.updatesTrackWithoutObject, beq_iff_eq, decide_eq_true_eq]
    simp

theorem countP_newObjectTrack (j : Int) (unassigned : List Int) :
    (unassigned.map (fun i => Call.NewObjectTrack i)).countP (Call.matchesObject j) = 0 ∧
      (unassigned.map (fun i => Call.NewObjectTrack i)).countP (Call.createsFromObject j) =
        unassigned.count j ∧
      (unassigned.map (fun i => Call.NewObjectTrack i)).countP
        (Call.updatesTrackWithObject j) = 0 ∧
      (unassigned.map (fun i => Call.NewObjectTrack i)).countP
        (Call.updatesTrackWithoutObject j) = 0 := by
  induction unassigned with
  | nil => simp
  | cons a rest ih =>
    obtain ⟨h1, h2, h3, h4⟩ := ih
    simp only [List.map_cons, List.countP_cons, List.count_cons, h1, h2, h3, h4,
      Call.matchesObject, Call.createsFromObject, Call.updatesTrackWithObject,
      Call.updatesTrackWithoutObject, beq_iff_eq, decide_eq_true_eq]
    simp

theorem countP_frame_calls (p : Call → Bool) (construct predict calls1 calls2 calls3 : List Call)
    (hc : construct.countP p = 0) (hp : predict.countP p = 0) (hm : p Call.Match = false)
    (hr : p Call.RemoveLostTracks = false) :
    (construct ++ predict ++ [Call.Match] ++ calls1 ++ calls2 ++ [Call.RemoveLostTracks] ++
        calls3).countP p = calls1.countP p + calls2.countP p + calls3.countP p := by
  simp [List.countP_append, List.countP_cons, hc, hp, hm, hr]
  omega

theorem Track_later_conservation_calls (env : Collaborators W)
    (self : HmObjectTracker W) (objects : List Object) (timestamp : ℚ)
    (hdmap : Vector3 → Option Vector3) (pose : Matrix4d) (matcher : MatcherMethod)
    (out : List (Option Object))
    (hvalid : self.valid_ = true) (hmatcher : self.matcher_ = some matcher)
    (hobjects : List.Perm
      ((MatchOfFrame env self objects timestamp
          { velodyne_trans := some pose, hdmap_input := hdmap } pose).assignments.map Prod.snd ++
        (MatchOfFrame env self objects timestamp
          { velodyne_trans := some pose, hdmap_input := hdmap } pose).unassigned_objects)
      ((List.range objects.length).map (fun (k : Nat) => (k : Int))))
    (htracks : List.Perm
      ((MatchOfFrame env self objects timestamp
          { velodyne_trans := some pose, hdmap_input := hdmap } pose).assignments.map Prod.fst ++
        (MatchOfFrame env self objects timestamp
          { velodyne_trans := some pose, hdmap_input := hdmap } pose).unassigned_tracks)
      ((List.range self.object_tracks_.length).map (fun (k : Nat) => (k : Int)))) :
    ∃ r : TrackResult W,
      Track env self objects timestamp { velodyne_trans := some pose, hdmap_input := hdmap }
          (some out) = some r ∧
        r.ret = true ∧
        (∀ j : Nat, j < objects.length →
          r.calls.countP (Call.matchesObject j) + r.calls.countP (Call.createsFromObject j) =
            1) ∧
        (∀ i : Nat, i < self.object_tracks_.length →
          r.calls.countP (Call.updatesTrackWithObject i) +
            r.calls.countP (Call.updatesTrackWithoutObject i) = 1) ∧
        r.calls.filterMap Call.assignment? =
          (MatchOfFrame env self objects timestamp
            { velodyne_trans := some pose, hdmap_input := hdmap } pose).assignments ∧
        (∃ updated added : List ObjectTrack,
          updated.length = self.object_tracks_.length ∧
            r.self.object_tracks_ = env.RemoveLostTracks updated ++ added ∧
            added.length =
              (MatchOfFrame env self objects timestamp
                { velodyne_trans := some pose, hdmap_input := hdmap }
                pose).unassigned_objects.length) ∧
        (objects = [] →
          (∀ c ∈ r.calls, Call.assignment? c = none) ∧
            (∀ c ∈ r.calls, ∀ j : Int, c ≠ Call.NewObjectTrack j) ∧
            ∃ updated : List ObjectTrack,
              updated.length = self.object_tracks_.length ∧
                r.self.object_tracks_ = env.RemoveLostTracks updated) := by
  -- every index the matcher returns is inside its vector
  have hsnd : ∀ j ∈ (MatchOfFrame env self objects timestamp
      { velodyne_trans := some pose, hdmap_input := hdmap } pose).assignments.map Prod.snd ++
      (MatchOfFrame env self objects timestamp
        { velodyne_trans := some pose, hdmap_input := hdmap } pose).unassigned_objects,
      0 ≤ j ∧ j < objects.length :=
    fun j hj => mem_range_cast _ j (hobjects.subset hj)
  have hfst : ∀ i ∈ (MatchOfFrame env self objects timestamp
      { velodyne_trans := some pose, hdmap_input := hdmap } pose).assignments.map Prod.fst ++
      (MatchOfFrame env self objects timestamp
        { velodyne_trans := some pose, hdmap_input := hdmap } pose).unassigned_tracks,
      0 ≤ i ∧ i < self.object_tracks_.length :=
    fun i hi => mem_range_cast _ i (htracks.subset hi)
  obtain ⟨r, hrun, hret⟩ := Track_later_defined env self objects timestamp hdmap pose matcher
    out hvalid hmatcher
    (fun a ha => ⟨hfst a.1 (List.mem_append_left _ (List.mem_map_of_mem _ ha)),
      hsnd a.2 (List.mem_append_left _ (List.mem_map_of_mem _ ha))⟩)
    (fun i hi => hfst i (List.mem_append_right _ hi))
    (fun j hj => hsnd j (List.mem_append_right _ hj))
  obtain ⟨out1, pose1, matcher1, tracks1, objects1, calls1, tracks2, calls2, tracks3, static3,
    calls3, hout, hpose, -, h1, h2, h3, hself, hcalls, -⟩ :=
    Track_later_accepted env self objects timestamp _ _ r hvalid hrun hret
  simp only [Option.some.injEq] at hpose
  subst hpose
  obtain ⟨hc1, hl1, -⟩ := UpdateAssignedTracks_calls env _ _ _ _ _ _ _ h1
  obtain ⟨hc2, hl2⟩ := UpdateUnassignedTracks_calls env _ _ _ _ _ _ h2
  obtain ⟨hc3, added, hadd, haddlen⟩ := CreateNewTracks_calls env _ _ _ _ _ _ _ h3
  have hcount : ∀ p : Call → Bool,
      (∀ b cloud, p (Call.ComputeHistogram b cloud) = false) →
      (∀ q, p (Call.GetNearestLaneDirection q) = false) →
      (∀ i d, p (Call.Predict i d) = false) → p Call.Match = false →
      p Call.RemoveLostTracks = false →
      r.calls.countP p = calls1.countP p + calls2.countP p + calls3.countP p := by
    intro p hh hl hp hm hr
    rw [hcalls]
    exact countP_frame_calls p _ _ _ _ _
      (countP_construct_calls env _ objects _ _ p hh hl)
      (countP_predict_calls env _ _ p hp) hm hr
  simp only [MatchOfFrame] at hobjects htracks ⊢
  have hassign : r.calls.filterMap Call.assignment? =
      (env.Match
        (ConstructTrackedObjects env { self with time_stamp_ := timestamp } objects
          (TransformPoseGlobal2Local { self with time_stamp_ := timestamp } pose)
          { velodyne_trans := some pose, hdmap_input := hdmap }).1
        self.object_tracks_
        (ComputeTracksPredict env { self with time_stamp_ := timestamp }
          (timestamp - self.time_stamp_)).1).assignments := by
    have hA : (ConstructTrackedObjects env { self with time_stamp_ := timestamp } objects
        (TransformPoseGlobal2Local { self with time_stamp_ := timestamp } pose)
        { velodyne_trans := some pose, hdmap_input := hdmap }).2.filterMap
        Call.assignment? = [] := by
      rw [List.filterMap_eq_nil_iff]
      intro c hc
      rcases ConstructTrackedObjects_calls _ _ _ _ _ c hc with ⟨_, _, rfl⟩ | ⟨_, rfl⟩ <;> rfl
    have hB : (ComputeTracksPredict env { self with time_stamp_ := timestamp }
        (timestamp - self.time_stamp_)).2.filterMap Call.assignment? = [] := by
      rw [List.filterMap_eq_nil_iff]
      intro c hc
      simp only [ComputeTracksPredict, List.mem_map] at hc
      obtain ⟨_, _, rfl⟩ := hc
      rfl
    have h2nil : calls2.filterMap Call.assignment? = [] := by
      rw [hc2, List.filterMap_eq_nil_iff]
      intro c hc
      simp only [List.mem_map] at hc
      obtain ⟨_, _, rfl⟩ := hc
      rfl
    have h3nil : calls3.filterMap Call.assignment? = [] := by
      rw [hc3, List.filterMap_eq_nil_iff]
      intro c hc
      simp only [List.mem_map] at hc
      obtain ⟨_, _, rfl⟩ := hc
      rfl
    have h1all : calls1.filterMap Call.assignment? =
        (env.Match
          (ConstructTrackedObjects env { self with time_stamp_ := timestamp } objects
            (TransformPoseGlobal2Local { self with time_stamp_ := timestamp } pose)
            { velodyne_trans := some pose, hdmap_input := hdmap }).1
          self.object_tracks_
          (ComputeTracksPredict env { self with time_stamp_ := timestamp }
            (timestamp - self.time_stamp_)).1).assignments := by
      rw [hc1, List.filterMap_map]
      generalize (env.Match _ _ _).assignments = l
      induction l with
      | nil => rfl
      | cons a rest ih => simp [List.filterMap_cons, Call.assignment?, ih]
    rw [hcalls]
    simp only [List.filterMap_append, hA, hB, h1all, h2nil, h3nil, List.filterMap_cons,
      Call.assignment?, List.filterMap_nil, List.nil_append, List.append_nil]
  refine ⟨r, hrun, hret, ?_, ?_, ?_, ?_, ?_⟩
  · intro j hj
    rw [hcount _ (fun _ _ => rfl) (fun _ => rfl) (fun _ _ => rfl) rfl rfl,
      hcount _ (fun _ _ => rfl) (fun _ => rfl) (fun _ _ => rfl) rfl rfl, hc1, hc2, hc3]
    rw [(countP_matchesObject _ _ _).1, (countP_matchesObject _ _ _).2.1,
      (countP_withoutObject _ _ _).1, (countP_withoutObject _ _ _).2.1,
      (countP_newObjectTrack _ _).1, (countP_newObjectTrack _ _).2.1]
    have := hobjects.count_eq (j : Int)
    rw [List.count_append, count_range_cast _ _ hj] at this
    omega
  · intro i hi
    rw [hcount _ (fun _ _ => rfl) (fun _ => rfl) (fun _ _ => rfl) rfl rfl,
      hcount _ (fun _ _ => rfl) (fun _ => rfl) (fun _ _ => rfl) rfl rfl, hc1, hc2, hc3]
    rw [(countP_matchesObject _ _ _).2.2.1, (countP_matchesObject _ _ _).2.2.2,
      (countP_withoutObject _ _ _).2.2.1, (countP_withoutObject _ _ _).2.2.2,
      (countP_newObjectTrack _ _).2.2.1, (countP_newObjectTrack _ _).2.2.2]
    have := htracks.count_eq (i : Int)
    rw [List.count_append, count_range_cast _ _ hi] at this
    omega
  · exact hassign
  · exact ⟨tracks2, added, by rw [hl2, hl1], by rw [hself, hadd], haddlen⟩
  · intro hnil
    subst hnil
    have hboth := List.append_eq_nil.1 (List.Perm.eq_nil hobjects)
    have hnoassign := List.map_eq_nil_iff.1 hboth.1
    refine ⟨?_, ?_, tracks2, by rw [hl2, hl1], ?_⟩
    · rw [← List.filterMap_eq_nil_iff, hassign, hnoassign]
    · intro c hc j hj
      subst hj
      have hzero : r.calls.countP (Call.createsFromObject j) = 0 := by
        rw [hcount _ (fun _ _ => rfl) (fun _ => rfl) (fun _ _ => rfl) rfl rfl, hc1, hc2, hc3,
          (countP_matchesObject _ _ _).2.1, (countP_withoutObject _ _ _).2.1,
          (countP_newObjectTrack _ _).2.1, hboth.2]
        rfl
      rw [List.countP_eq_zero] at hzero
      exact hzero _ hc (by simp [Call.createsFromObject])
    · have hlen0 : added = [] := by
        apply List.eq_nil_of_length_eq_zero
        rw [haddlen, hboth.2]; rfl
      rw [hself, hadd, hlen0]; simp

/-! ## Time delta -/

theorem Track_later_time_diff_calls (env : Collaborators W) (self : HmObjectTracker W)
    (objects : List Object) (timestamp : ℚ) (options : TrackerOptions)
    (tracked_objects : Option (List (Option Object))) (r : TrackResult W)
    (hvalid : self.valid_ = true)
    (hrun : Track env self objects timestamp options tracked_objects = some r)
    (hret : r.ret = true) :
    (∀ c ∈ r.calls, ∀ d : ℚ, Call.time_diff? c = some d → d = timestamp - self.time_stamp_) ∧
      (∀ i : Nat, i < self.object_tracks_.length →
        Call.Predict i (timestamp - self.time_stamp_) ∈ r.calls) ∧
      r.self.time_stamp_ = timestamp := by
  obtain ⟨out1, pose1, matcher1, tracks1, objects1, calls1, tracks2, calls2, tracks3, static3,
    calls3, -, -, -, h1, h2, h3, hself, hcalls, -⟩ :=
    Track_later_accepted env self objects timestamp _ _ r hvalid hrun hret
  obtain ⟨hc1, -, -⟩ := UpdateAssignedTracks_calls env _ _ _ _ _ _ _ h1
  obtain ⟨hc2, -⟩ := UpdateUnassignedTracks_calls env _ _ _ _ _ _ h2
  obtain ⟨hc3, -⟩ := CreateNewTracks_calls env _ _ _ _ _ _ _ h3
  refine ⟨?_, ?_, by rw [hself]⟩
  · intro c hc d hd
    rw [hcalls] at hc
    simp only [List.mem_append, List.mem_singleton] at hc
    rcases hc with (((((hc | hc) | hc) | hc) | hc) | hc) | hc
    · rcases ConstructTrackedObjects_calls _ _ _ _ _ c hc with ⟨_, _, rfl⟩ | ⟨_, rfl⟩ <;>
        cases hd
    · simp only [ComputeTracksPredict, List.mem_map] at hc
      obtain ⟨_, _, rfl⟩ := hc
      simp only [Call.time_diff?, Option.some.injEq] at hd
      exact hd.symm
    · subst hc; cases hd
    · rw [hc1] at hc
      simp only [List.mem_map] at hc
      obtain ⟨_, _, rfl⟩ := hc
      simp only [Call.time_diff?, Option.some.injEq] at hd
      exact hd.symm
    · rw [hc2] at hc
      simp only [List.mem_map] at hc
      obtain ⟨_, _, rfl⟩ := hc
      simp only [Call.time_diff?, Option.some.injEq] at hd
      exact hd.symm
    · subst hc; cases hd
    · rw [hc3] at hc
      simp only [List.mem_map] at hc
      obtain ⟨_, _, rfl⟩ := hc
      cases hd
  · intro i hi
    rw [hcalls]
    simp only [List.mem_append]
    refine Or.inl (Or.inl (Or.inl (Or.inl (Or.inl (Or.inr ?_)))))
    simp only [ComputeTracksPredict, List.mem_map, List.mem_range]
    exact ⟨i, hi, rfl⟩

/-! ## Initialisation -/

theorem ite_false_else_eq_true (c : Prop) [Decidable c] (x : Bool) :
    ((if c then false else x) = true) ↔ (¬ c ∧ x = true) := by
  split_ifs <;> simp [*]

theorem if_true_else_eq_true (c : Prop) [Decidable c] (x : Bool) :
    ((if c then x else true) = true) ↔ (c → x = true) := by
  split_ifs <;> simp [*]

theorem Init_true_iff (env : Collaborators W) (self : HmObjectTracker W)
    (config : ModelConfigs) :
    (Init env self (some config)).1 = true ↔
      (env.SetTrackCachedHistorySizeMaximum config.track_cached_history_size_maximum = true ∧
        env.SetTrackConsecutiveInvisibleMaximum config.track_consecutive_invisible_maximum =
          true ∧
        env.SetTrackVisibleRatioMinimum config.track_visible_ratio_minimum = true ∧
        0 ≤ config.collect_age_minimum ∧
        0 ≤ config.collect_consecutive_invisible_maximum ∧
        env.SetAccelerationNoiseMaximum config.acceleration_noise_maximum = true ∧
        env.SetSpeedNoiseMaximum config.speed_noise_maximum = true ∧
        env.SetMatchDistanceMaximum config.match_distance_maximum = true ∧
        env.SetLocationDistanceWeight config.location_distance_weight = true ∧
        env.SetDirectionDistanceWeight config.direction_distance_weight = true ∧
        env.SetBboxSizeDistanceWeight config.bbox_size_distance_weight = true ∧
        env.SetPointNumDistanceWeight config.point_num_distance_weight = true ∧
        env.SetHistogramDistanceWeight config.histogram_distance_weight = true ∧
        0 < config.histogram_bin_size) ∧
      (config.filter_method = FilterMethod.KALMAN_FILTER →
        env.SetAssociationScoreMaximum config.match_distance_maximum = true ∧
        env.InitParams config.measurement_noise config.initial_velocity_noise
          config.xy_propagation_noise config.z_propagation_noise = true ∧
        env.SetBreakdownThresholdMaximum config.breakdown_threshold_maximum = true) := by
  by_cases hm : config.matcher_method = MatcherMethod.HUNGARIAN_MATCHER
  · simp only [Init, hm, ne_eq, not_true_eq_false, if_false, InitFilter,
      apply_ite Prod.fst, ite_false_else_eq_true, Bool.not_eq_true', Bool.not_eq_false,
      Bool.if_false_left, Bool.if_true_right, Bool.if_true_left, Bool.if_false_right]
    simp only [Bool.and_eq_true, Bool.or_eq_true, Bool.not_eq_true', decide_eq_false_iff_not,
      Bool.not_eq_false, not_lt, not_le, decide_eq_true_eq, Bool.or_false, true_and]
    tauto
  · simp only [Init, hm, ne_eq, not_false_eq_true, if_true, InitFilter,
      apply_ite Prod.fst, ite_false_else_eq_true, Bool.not_eq_true', Bool.not_eq_false,
      Bool.if_false_left, Bool.if_true_right, Bool.if_true_left, Bool.if_false_right]
    simp only [Bool.and_eq_true, Bool.or_eq_true, Bool.not_eq_true', decide_eq_false_iff_not,
      Bool.not_eq_false, not_lt, not_le, decide_eq_true_eq, Bool.or_false, true_and]
    tauto

/-- C8: for every loaded configuration, Init returns false if
collect_age_minimum is negative, if collect_consecutive_invisible_maximum is
negative, if histogram_bin_size is not positive, or if one of the eleven
threshold and weight setters rejects the configured value; and Init returns
true only if none of these holds. -/
theorem C8_Init_rejects_invalid_thresholds (env : Collaborators W) (self : HmObjectTracker W)
    (config : ModelConfigs) :
    ((config.collect_age_minimum < 0 ∨
        config.collect_consecutive_invisible_maximum < 0 ∨
        config.histogram_bin_size ≤ 0 ∨
        env.SetTrackCachedHistorySizeMaximum config.track_cached_history_size_maximum =
          false ∨
        env.SetTrackConsecutiveInvisibleMaximum config.track_consecutive_invisible_maximum =
          false ∨
        env.SetTrackVisibleRatioMinimum config.track_visible_ratio_minimum = false ∨
        env.SetAccelerationNoiseMaximum config.acceleration_noise_maximum = false ∨
        env.SetSpeedNoiseMaximum config.speed_noise_maximum = false ∨
        env.SetMatchDistanceMaximum config.match_distance_maximum = false ∨
        env.SetLocationDistanceWeight config.location_distance_weight = false ∨
        env.SetDirectionDistanceWeight config.direction_distance_weight = false ∨
        env.SetBboxSizeDistanceWeight config.bbox_size_distance_weight = false ∨
        env.SetPointNumDistanceWeight config.point_num_distance_weight = false ∨
        env.SetHistogramDistanceWeight config.histogram_distance_weight = false) →
      (Init env self (some config)).1 = false) ∧
    ((Init env self (some config)).1 = true →
      0 ≤ config.collect_age_minimum ∧
        0 ≤ config.collect_consecutive_invisible_maximum ∧
        0 < config.histogram_bin_size ∧
        env.SetTrackCachedHistorySizeMaximum config.track_cached_history_size_maximum =
          true ∧
        env.SetTrackConsecutiveInvisibleMaximum config.track_consecutive_invisible_maximum =
          true ∧
        env.SetTrackVisibleRatioMinimum config.track_visible_ratio_minimum = true ∧
        env.SetAccelerationNoiseMaximum config.acceleration_noise_maximum = true ∧
        env.SetSpeedNoiseMaximum config.speed_noise_maximum = true ∧
        env.SetMatchDistanceMaximum config.match_distance_maximum = true ∧
        env.SetLocationDistanceWeight config.location_distance_weight = true ∧
        env.SetDirectionDistanceWeight config.direction_distance_weight = true ∧
        env.SetBboxSizeDistanceWeight config.bbox_size_distance_weight = true ∧
        env.SetPointNumDistanceWeight config.point_num_distance_weight = true ∧
        env.SetHistogramDistanceWeight config.histogram_distance_weight = true) := by
  have hiff := Init_true_iff env self config
  constructor
  · intro hbad
    cases hres : (Init env self (some config)).1 with
    | false => rfl
    | true =>
      obtain ⟨⟨h1, h2, h3, h4, h5, h6, h7, h8, h9, h10, h11, h12, h13, h14⟩, -⟩ := hiff.1 hres
      rcases hbad with h | h | h | h | h | h | h | h | h | h | h | h | h | h
      · omega
      · omega
      · omega
      all_goals simp_all
  · intro hres
    obtain ⟨⟨h1, h2, h3, h4, h5, h6, h7, h8, h9, h10, h11, h12, h13, h14⟩, -⟩ := hiff.1 hres
    exact ⟨h4, h5, h14, h1, h2, h3, h6, h7, h8, h9, h10, h11, h12, h13⟩

theorem Init_installs_hungarian (env : Collaborators W) (self : HmObjectTracker W)
    (config : ModelConfigs) :
    (Init env self (some config)).2.matcher_ = some MatcherMethod.HUNGARIAN_MATCHER ∧
      (Init env self (some config)).2.config_.matcher_method =
        MatcherMethod.HUNGARIAN_MATCHER := by
  by_cases hm : config.matcher_method = MatcherMethod.HUNGARIAN_MATCHER
  · simp only [Init, ne_eq, hm, not_true_eq_false, if_false, apply_ite Prod.snd,
      apply_ite HmObjectTracker.matcher_, apply_ite HmObjectTracker.config_,
      apply_ite ModelConfigs.matcher_method, ite_self, and_self]
  · simp only [Init, ne_eq, hm, not_false_eq_true, if_true, apply_ite Prod.snd,
      apply_ite HmObjectTracker.matcher_, apply_ite HmObjectTracker.config_,
      apply_ite ModelConfigs.matcher_method, ite_self, and_self]

theorem Init_matcher_method_irrelevant (env : Collaborators W) (self : HmObjectTracker W)
    (config : ModelConfigs) :
    Init env self (some config) =
      Init env self
        (some { config with matcher_method := MatcherMethod.HUNGARIAN_MATCHER }) := by
  by_cases hm : config.matcher_method = MatcherMethod.HUNGARIAN_MATCHER
  · have : config = { config with matcher_method := MatcherMethod.HUNGARIAN_MATCHER } := by
      cases config; simp only at hm; subst hm; rfl
    rw [← this]
  · simp only [Init, hm, ne_eq, not_false_eq_true, if_true, not_true_eq_false, if_false]

/-- Init accepts the sample configuration, so returning true does happen. -/
theorem Init_accepts_sampleConfig :
    (Init sampleEnv sampleTracker (some sampleConfig)).1 = true := by
  rw [Init_true_iff]
  simp only [sampleEnv, sampleConfig, decide_eq_true_eq]
  norm_num

/-- C9, the claim refuted: with an unsupported matcher method configured and
every other value acceptable, Init does not return false; it returns true
with the Hungarian matcher put in place of the configured method. -/
theorem C9_Init_unsupported_matcher_counterexample :
    sampleConfigOtherMatcher.matcher_method ≠ MatcherMethod.HUNGARIAN_MATCHER ∧
      (Init sampleEnv sampleTracker (some sampleConfigOtherMatcher)).1 = true ∧
      (Init sampleEnv sampleTracker (some sampleConfigOtherMatcher)).2.config_.matcher_method =
        MatcherMethod.HUNGARIAN_MATCHER := by
  refine ⟨by simp [sampleConfigOtherMatcher], ?_, ?_⟩
  · rw [Init_true_iff]
    simp only [sampleEnv, sampleConfigOtherMatcher, sampleConfig, decide_eq_true_eq]
    norm_num
  · exact (Init_installs_hungarian sampleEnv sampleTracker sampleConfigOtherMatcher).2

/-- C9 as amended: whatever matcher method is configured, Init installs the
Hungarian matcher, records the Hungarian method in its configuration, and
returns the same result and leaves the same tracker as for the same
configuration with the Hungarian method configured; an unsupported method is
replaced, it is never a reason for Init to return false. -/
theorem C9_Init_substitutes_hungarian_matcher (env : Collaborators W)
    (self : HmObjectTracker W) (config : ModelConfigs) :
    Init env self (some config) =
        Init env self
          (some { config with matcher_method := MatcherMethod.HUNGARIAN_MATCHER }) ∧
      (Init env self (some config)).2.matcher_ = some MatcherMethod.HUNGARIAN_MATCHER ∧
      (Init env self (some config)).2.config_.matcher_method =
        MatcherMethod.HUNGARIAN_MATCHER :=
  ⟨Init_matcher_method_irrelevant env self config,
    (Init_installs_hungarian env self config).1, (Init_installs_hungarian env self config).2⟩

/-! ## Lane direction fallback -/

theorem ConstructTrackedObject_lane_fallback (env : Collaborators W)
    (self : HmObjectTracker W) (pose : Matrix4d) (options : TrackerOptions) (object : Object)
    (hfail : options.hdmap_input
      ((mulHead3 pose
        { x := (env.NewTrackedObject object).barycenter.x,
          y := (env.NewTrackedObject object).barycenter.y,
          z := (env.NewTrackedObject object).barycenter.z, w := 1 }).sub
        self.global_to_local_offset_) = none) :
    (ConstructTrackedObject env self pose options object).1.lane_direction =
      { x := pose 0 0, y := pose 1 0, z := pose 2 0 } := by
  cases hu : self.use_histogram_for_match_ <;>
    simp [ConstructTrackedObject, hu, ComputeShapeFeatures, TransformTrackedObject, hfail] <;>
    simp [mulHead3]

/-- C10: ConstructTrackedObjects builds one tracked object per detection
whether or not the lane-direction lookups succeed; and for a detection whose
lookup fails (at its query point, the transformed barycenter minus the local
offset), the lane direction of its tracked object is the first column of the
rotation block of the sensor pose P, whatever the translation of P, the local
offset and the detection are. -/
theorem C10_lane_direction_fallback (env : Collaborators W) (self : HmObjectTracker W)
    (objects : List Object) (P : Matrix4d) (options : TrackerOptions) (i : Nat)
    (hi : i < objects.length)
    (hfail : options.hdmap_input
      ((mulHead3 (TransformPoseGlobal2Local self P)
        { x := (env.NewTrackedObject objects[i]).barycenter.x,
          y := (env.NewTrackedObject objects[i]).barycenter.y,
          z := (env.NewTrackedObject objects[i]).barycenter.z, w := 1 }).sub
        self.global_to_local_offset_) = none) :
    (ConstructTrackedObjects env self objects (TransformPoseGlobal2Local self P)
        options).1.length = objects.length ∧
      ∃ tracked : TrackedObject,
        (ConstructTrackedObjects env self objects (TransformPoseGlobal2Local self P)
          options).1[i]? = some tracked ∧
        tracked.lane_direction = { x := P 0 0, y := P 1 0, z := P 2 0 } := by
  refine ⟨ConstructTrackedObjects_length env self objects _ options, _,
    ConstructTrackedObjects_get env self objects _ options i hi, ?_⟩
  rw [ConstructTrackedObject_lane_fallback env self _ options _ hfail]
  have h := (TransformPoseGlobal2Local_entries self P).1
  rw [h 0 0 (Or.inl (by decide)), h 1 0 (Or.inl (by decide)), h 2 0 (Or.inl (by decide))]

/-- C10 on the sample detections, whose lane-direction lookups all fail: the
lane direction of the second tracked object is (0, 1, 0), the first column of
the sample pose. -/
theorem C10_lane_direction_witness :
    (ConstructTrackedObjects sampleEnv sampleTracker1 sampleObjects
        (TransformPoseGlobal2Local sampleTracker1 samplePose) sampleOptions).1.length =
        sampleObjects.length ∧
      ∃ tracked : TrackedObject,
        (ConstructTrackedObjects sampleEnv sampleTracker1 sampleObjects
          (TransformPoseGlobal2Local sampleTracker1 samplePose) sampleOptions).1[1]? =
            some tracked ∧
        tracked.lane_direction =
          { x := samplePose 0 0, y := samplePose 1 0, z := samplePose 2 0 } :=
  C10_lane_direction_fallback sampleEnv sampleTracker1 sampleObjects samplePose sampleOptions
    1 (by decide) rfl

/-! ## Reported heading -/

theorem M_PI_lt_pi : ((M_PI : ℚ) : ℝ) < Real.pi := by
  refine lt_trans ?_ Real.pi_gt_d20
  simp only [M_PI]
  push_cast
  norm_num

theorem M_PI_pos : (0 : ℚ) < M_PI := by
  simp only [M_PI]
  norm_num

/-- C11: for every track, with (dx, dy, dz) the direction of its current
object, the object CollectTrackedResults reports has theta = M_PI / 2 when
|dx| < DBL_MIN and dy > 0, theta = -M_PI / 2 when |dx| < DBL_MIN and not
dy > 0, and theta = atan2(dy, dx) when |dx| >= DBL_MIN; so, atan2 returning
values in [-pi, pi], the reported heading lies in [-pi, pi]. -/
theorem C11_reported_heading (env : Collaborators W) (self : HmObjectTracker W)
    (track : ObjectTrack)
    (hatan2 : ∀ y x : ℚ, -Real.pi ≤ ((env.atan2 y x : ℚ) : ℝ) ∧
      ((env.atan2 y x : ℚ) : ℝ) ≤ Real.pi) :
    (|track.current_object_.direction.x| < DBL_MIN → 0 < track.current_object_.direction.y →
        (CollectObject env self track).theta = M_PI / 2) ∧
      (|track.current_object_.direction.x| < DBL_MIN →
        ¬ 0 < track.current_object_.direction.y →
        (CollectObject env self track).theta = -M_PI / 2) ∧
      (DBL_MIN ≤ |track.current_object_.direction.x| →
        (CollectObject env self track).theta =
          env.atan2 track.current_object_.direction.y track.current_object_.direction.x) ∧
      (-Real.pi ≤ (((CollectObject env self track).theta : ℚ) : ℝ) ∧
        (((CollectObject env self track).theta : ℚ) : ℝ) ≤ Real.pi) := by
  have hpi := M_PI_lt_pi
  have hpos : (0 : ℝ) < ((M_PI : ℚ) : ℝ) := by exact_mod_cast M_PI_pos
  refine ⟨?_, ?_, ?_, ?_⟩
  · intro h1 h2
    simp [CollectObject, h1, h2]
  · intro h1 h2
    simp [CollectObject, h1, h2]
  · intro h1
    simp [CollectObject, not_lt.mpr h1]
  · simp only [CollectObject]
    split_ifs
    · push_cast
      constructor <;> linarith
    · push_cast
      constructor <;> linarith
    · exact hatan2 _ _

/-- C11 with the sample collaborators, whose atan2 is constantly 0, on a track
whose direction is (0, 1, 0): the reported heading is M_PI / 2. -/
theorem C11_reported_heading_witness :
    (CollectObject sampleEnv sampleTracker
        { idx_ := 0, age_ := 1, consecutive_invisible_count_ := 0, period_ := 0,
          current_object_ :=
            { sampleEnv.NewTrackedObject (sampleObject 1 0) with
              direction := { x := 0, y := 1, z := 0 } },
          belief_ := [] }).theta = M_PI / 2 :=
  (C11_reported_heading sampleEnv sampleTracker
    { idx_ := 0, age_ := 1, consecutive_invisible_count_ := 0, period_ := 0,
      current_object_ :=
        { sampleEnv.NewTrackedObject (sampleObject 1 0) with
          direction := { x := 0, y := 1, z := 0 } },
      belief_ := [] }
    (fun _ _ => ⟨by simpa [sampleEnv] using Real.pi_pos.le,
      by simpa [sampleEnv] using Real.pi_pos.le⟩)).1
    (by simp [DBL_MIN]) (by norm_num)

/-! ## Shape histogram -/

theorem Init_success_histogram (env : Collaborators W) (self : HmObjectTracker W)
    (config : ModelConfigs) (h : (Init env self (some config)).1 = true) :
    (Init env self (some config)).2.use_histogram_for_match_ =
        decide (FLT_EPSILON < config.histogram_distance_weight) ∧
      (Init env self (some config)).2.config_.histogram_bin_size =
        config.histogram_bin_size := by
  obtain ⟨⟨h1, h2, h3, h4, h5, h6, h7, h8, h9, h10, h11, h12, h13, h14⟩, -⟩ :=
    (Init_true_iff env self config).1 h
  have h4n : ¬ config.collect_age_minimum < 0 := not_lt.mpr h4
  have h5n : ¬ config.collect_consecutive_invisible_maximum < 0 := not_lt.mpr h5
  have h14n : ¬ config.histogram_bin_size ≤ 0 := not_le.mpr h14
  by_cases hm : config.matcher_method = MatcherMethod.HUNGARIAN_MATCHER
  · simp only [Init, ne_eq, hm, not_true_eq_false, if_false, h1, h2, h3, h4n, h5n, h6, h7,
      h8, h9, h10, h11, h12, h13, h14n, Bool.not_true, Bool.false_eq_true, Bool.true_eq_false,
      and_false, gt_iff_lt]
    by_cases hw : FLT_EPSILON < config.histogram_distance_weight <;> simp [hw]
  · simp only [Init, ne_eq, hm, not_false_eq_true, if_true, h1, h2, h3, h4n, h5n, h6, h7,
      h8, h9, h10, h11, h12, h13, h14n, Bool.not_true, Bool.false_eq_true, Bool.true_eq_false,
      and_false, gt_iff_lt, if_false]
    by_cases hw : FLT_EPSILON < config.histogram_distance_weight <;> simp [hw]

theorem InitializeTrack_keeps_config (env : Collaborators W) (self : HmObjectTracker W)
    (objects : List Object) (timestamp : ℚ) (options : TrackerOptions)
    (tracked_objects : List (Option Object)) (r : TrackResult W)
    (hrun : InitializeTrack env self objects timestamp options tracked_objects = some r) :
    r.self.use_histogram_for_match_ = self.use_histogram_for_match_ ∧
      r.self.config_ = self.config_ := by
  unfold InitializeTrack at hrun
  split at hrun
  · simp only [Option.some.injEq] at hrun; subst hrun; exact ⟨rfl, rfl⟩
  · dsimp only at hrun
    split at hrun
    · cases hrun
    · simp only [Option.some.injEq] at hrun; subst hrun; exact ⟨rfl, rfl⟩

theorem Track_keeps_config (env : Collaborators W) (self : HmObjectTracker W)
    (objects : List Object) (timestamp : ℚ) (options : TrackerOptions)
    (tracked_objects : Option (List (Option Object))) (r : TrackResult W)
    (hrun : Track env self objects timestamp options tracked_objects = some r) :
    r.self.use_histogram_for_match_ = self.use_histogram_for_match_ ∧
      r.self.config_ = self.config_ := by
  unfold Track at hrun
  split at hrun
  · simp only [Option.some.injEq] at hrun; subst hrun; exact ⟨rfl, rfl⟩
  · split at hrun
    · exact InitializeTrack_keeps_config env { self with valid_ := true } _ _ _ _ r hrun
    · split at hrun
      · simp only [Option.some.injEq] at hrun; subst hrun; exact ⟨rfl, rfl⟩
      dsimp only at hrun
      repeat' split at hrun
      all_goals first
        | contradiction
        | (simp only [Option.some.injEq] at hrun; subst hrun
           exact ⟨by simp [DeleteLostTracks], by simp [DeleteLostTracks]⟩)

theorem TrackAll_keeps_config (env : Collaborators W) (frames : List Frame)
    (self last : HmObjectTracker W) (hrun : TrackAll env self frames = some last) :
    last.use_histogram_for_match_ = self.use_histogram_for_match_ ∧
      last.config_ = self.config_ := by
  induction frames generalizing self with
  | nil =>
    simp only [TrackAll, Option.some.injEq] at hrun
    rw [hrun]
    exact ⟨rfl, rfl⟩
  | cons frame rest ih =>
    simp only [TrackAll] at hrun
    split at hrun
    · cases hrun
    · rename_i r hr
      have h := Track_keeps_config env self _ _ _ _ r hr
      have h2 := ih r.self hrun
      exact ⟨h2.1.trans h.1, h2.2.trans h.2⟩

theorem ConstructTrackedObject_histogram (env : Collaborators W) (self : HmObjectTracker W)
    (pose : Matrix4d) (options : TrackerOptions) (object : Object) :
    (self.use_histogram_for_match_ = true →
        (ConstructTrackedObject env self pose options object).2.countP
            Call.isComputeHistogram = 1 ∧
          (ConstructTrackedObject env self pose options object).1.object_ptr.shape_features =
            env.ComputeHistogram self.config_.histogram_bin_size
              (env.NewTrackedObject object).object_ptr.cloud) ∧
      (self.use_histogram_for_match_ = false →
        (ConstructTrackedObject env self pose options object).2.countP
            Call.isComputeHistogram = 0 ∧
          (ConstructTrackedObject env self pose options object).1.object_ptr.shape_features =
            (env.NewTrackedObject object).object_ptr.shape_features) := by
  constructor <;> intro hu <;>
    simp [ConstructTrackedObject, hu, ComputeShapeFeatures, TransformTrackedObject,
      TransformObject, Call.isComputeHistogram, List.countP_cons]

theorem ConstructTrackedObjects_histogram_count (env : Collaborators W)
    (self : HmObjectTracker W) (objects : List Object) (pose : Matrix4d)
    (options : TrackerOptions) :
    (ConstructTrackedObjects env self objects pose options).2.countP Call.isComputeHistogram =
      if self.use_histogram_for_match_ = true then objects.length else 0 := by
  simp only [ConstructTrackedObjects]
  induction objects with
  | nil => simp
  | cons object rest ih =>
    simp only [List.map_cons, List.flatten_cons, List.countP_append, ih, List.length_cons]
    cases hu : self.use_histogram_for_match_
    · rw [((ConstructTrackedObject_histogram env self pose options object).2 hu).1]
      simp
    · rw [((ConstructTrackedObject_histogram env self pose options object).1 hu).1]
      simp
      omega

/-- C12: after a successful Init with a configuration, and after any sequence
of Track calls that follows, ConstructTrackedObjects computes the shape
histogram of a detection exactly when the configured
histogram_distance_weight is greater than FLT_EPSILON: with a larger weight
it makes one ComputeHistogram call for every detection of the frame and
stores the result in its shape_features; with a weight of at most
FLT_EPSILON it makes no ComputeHistogram call and leaves shape_features as
they were. -/
theorem C12_histogram_computed_iff_weight_above_epsilon (env : Collaborators W)
    (self st : HmObjectTracker W) (config : ModelConfigs) (frames : List Frame)
    (objects : List Object) (pose : Matrix4d) (options : TrackerOptions)
    (hinit : (Init env self (some config)).1 = true)
    (hrun : TrackAll env (Init env self (some config)).2 frames = some st) :
    (FLT_EPSILON < config.histogram_distance_weight →
        (∀ object : Object,
          (ConstructTrackedObject env st pose options object).2.countP
              Call.isComputeHistogram = 1 ∧
            (ConstructTrackedObject env st pose options object).1.object_ptr.shape_features =
              env.ComputeHistogram config.histogram_bin_size
                (env.NewTrackedObject object).object_ptr.cloud) ∧
          (ConstructTrackedObjects env st objects pose options).2.countP
            Call.isComputeHistogram = objects.length) ∧
      (config.histogram_distance_weight ≤ FLT_EPSILON →
        (∀ object : Object,
          (ConstructTrackedObject env st pose options object).2.countP
              Call.isComputeHistogram = 0 ∧
            (ConstructTrackedObject env st pose options object).1.object_ptr.shape_features =
              (env.NewTrackedObject object).object_ptr.shape_features) ∧
          (ConstructTrackedObjects env st objects pose options).2.countP
            Call.isComputeHistogram = 0) := by
  obtain ⟨huse, hbin⟩ := Init_success_histogram env self config hinit
  obtain ⟨hkeep, hconfig⟩ := TrackAll_keeps_config env frames _ st hrun
  rw [huse] at hkeep
  have hbin2 : st.config_.histogram_bin_size = config.histogram_bin_size := by
    rw [hconfig, hbin]
  constructor
  · intro hw
    have hu : st.use_histogram_for_match_ = true := by rw [hkeep]; simpa using hw
    refine ⟨fun object => ?_, ?_⟩
    · have h := (ConstructTrackedObject_histogram env st pose options object).1 hu
      rw [hbin2] at h
      exact h
    · rw [ConstructTrackedObjects_histogram_count, if_pos hu]
  · intro hw
    have hu : st.use_histogram_for_match_ = false := by
      rw [hkeep]; simpa using hw
    refine ⟨fun object => (ConstructTrackedObject_histogram env st pose options object).2 hu,
      ?_⟩
    rw [ConstructTrackedObjects_histogram_count, if_neg (by simp [hu])]

theorem Init_sample_state :
    (Init sampleEnv sampleTracker (some sampleConfig)).2 = sampleTracker := by
  simp only [Init, sampleEnv, sampleConfig, sampleTracker, InitFilter]
  norm_num [FLT_EPSILON]

/-- C12 with the sample configuration, whose histogram weight 1/2 is above
FLT_EPSILON, after Init and the three sample frames: three ComputeHistogram
calls for three detections. -/
theorem C12_histogram_witness :
    TrackAll sampleEnv (Init sampleEnv sampleTracker (some sampleConfig)).2
        [sampleFrame1, sampleFrame2, sampleFrame3] = some sampleTracker3 ∧
      (ConstructTrackedObjects sampleEnv sampleTracker3 sampleObjects samplePose
        sampleOptions).2.countP Call.isComputeHistogram = sampleObjects.length :=
  ⟨by rw [Init_sample_state]; rfl,
    ((C12_histogram_computed_iff_weight_above_epsilon sampleEnv sampleTracker sampleTracker3
      sampleConfig [sampleFrame1, sampleFrame2, sampleFrame3] sampleObjects samplePose
      sampleOptions Init_accepts_sampleConfig (by rw [Init_sample_state]; rfl)).1
      (by norm_num [FLT_EPSILON, sampleConfig])).2⟩

/-! ## A rejected first frame -/

/-- C19, the code at the failing input: the first Track call of the sample
tracker has no pose and is rejected, but leaves valid_ set; the next call,
with the sample pose, is then run as a later frame: it returns true, calls
the matcher, and leaves the local-frame offset at its initial value instead
of the negated translation of the pose. -/
theorem C19_rejected_first_frame_consumes_first_frame :
    ∃ r1 r2 : TrackResult Nat,
      Track sampleEnv sampleTracker sampleObjects 10 sampleOptionsNoPose (some []) =
          some r1 ∧
        r1.ret = false ∧ r1.self.valid_ = true ∧
        Track sampleEnv r1.self sampleObjects 11 sampleOptions (some []) = some r2 ∧
        r2.ret = true ∧
        Call.Match ∈ r2.calls ∧
        r2.self.global_to_local_offset_ = sampleTracker.global_to_local_offset_ ∧
        r2.self.global_to_local_offset_ ≠
          { x := -samplePose 0 3, y := -samplePose 1 3, z := -samplePose 2 3 } := by
  refine ⟨_, _, rfl, rfl, rfl, rfl, rfl, ?_, rfl, ?_⟩
  · decide
  · intro h
    have hx := congrArg Vector3.x h
    simp [samplePose, sampleTracker, DeleteLostTracks] at hx

/-! ## Index safety of the update passes -/

theorem at?_setAt_same {α : Type} (xs : List α) (i : Int) (v x : α)
    (h : at? xs i = some x) : at? (setAt xs i v) i = some v := by
  simp only [at?] at h ⊢
  split at h
  · cases h
  · rename_i hneg
    rw [if_neg hneg]
    simp only [List.get?_eq_getElem?] at h ⊢
    have hlt : i.toNat < xs.length := by
      by_contra hge
      rw [List.getElem?_eq_none (by omega)] at h
      cases h
    simp [setAt, hlt]

theorem at?_setAt_ne {α : Type} (xs : List α) (a i : Int) (v x : α)
    (ha : at? xs a = some x) (hne : a ≠ i) : at? (setAt xs a v) i = at? xs i := by
  simp only [at?] at ha ⊢
  split at ha
  · cases ha
  · by_cases hi : i < 0
    · simp [hi]
    · simp only [hi, if_false, List.get?_eq_getElem?, setAt]
      rw [List.getElem?_set_ne (by omega)]

theorem at?_map {α β : Type} (f : α → β) (xs : List α) (i : Int) :
    at? (xs.map f) i = (at? xs i).map f := by
  simp only [at?]
  split
  · rfl
  · simp [List.get?_eq_getElem?]

theorem UpdateAssignedTracks_other (env : Collaborators W) (time_diff : ℚ)
    (assignments : List (Int × Int)) (tracks tracks1 : List ObjectTrack)
    (objs objs1 : List TrackedObject) (calls : List Call) (i : Int)
    (h : UpdateAssignedTracks env time_diff assignments tracks objs =
      some (tracks1, objs1, calls))
    (hi : i ∉ assignments.map Prod.fst) : at? tracks1 i = at? tracks i := by
  induction assignments generalizing tracks objs calls with
  | nil =>
    simp only [UpdateAssignedTracks, Option.some.injEq, Prod.mk.injEq] at h
    rw [← h.1]
  | cons a rest ih =>
    simp only [List.map_cons, List.mem_cons, not_or] at hi
    simp only [UpdateAssignedTracks] at h
    split at h
    · rename_i track obj htrack hobj
      split at h
      · rename_i heq
        simp only [Option.some.injEq, Prod.mk.injEq] at h
        obtain ⟨rfl, rfl, rfl⟩ := h
        rw [ih _ _ _ heq hi.2]
        exact at?_setAt_ne tracks a.1 i _ track htrack (fun hEq => hi.1 hEq.symm)
      · cases h
    · cases h

theorem UpdateUnassignedTracks_other (env : Collaborators W) (tracks_predict : List (List ℚ))
    (time_diff : ℚ) (unassigned : List Int) (tracks tracks1 : List ObjectTrack)
    (calls : List Call) (i : Int)
    (h : UpdateUnassignedTracks env tracks_predict time_diff unassigned tracks =
      some (tracks1, calls))
    (hi : i ∉ unassigned) : at? tracks1 i = at? tracks i := by
  induction unassigned generalizing tracks calls with
  | nil =>
    simp only [UpdateUnassignedTracks, Option.some.injEq, Prod.mk.injEq] at h
    rw [← h.1]
  | cons a rest ih =>
    simp only [List.mem_cons, not_or] at hi
    simp only [UpdateUnassignedTracks] at h
    split at h
    · rename_i track predict htrack hpredict
      split at h
      · rename_i heq
        simp only [Option.some.injEq, Prod.mk.injEq] at h
        obtain ⟨rfl, rfl⟩ := h
        rw [ih _ _ heq hi.2]
        exact at?_setAt_ne tracks a i _ track htrack (fun hEq => hi.1 hEq.symm)
      · cases h
    · cases h

theorem UpdateUnassignedTracks_once (env : Collaborators W) (tracks_predict : List (List ℚ))
    (time_diff : ℚ) (unassigned : List Int) (tracks tracks1 : List ObjectTrack)
    (calls : List Call) (i : Int) (track : ObjectTrack) (predict : List ℚ)
    (h : UpdateUnassignedTracks env tracks_predict time_diff unassigned tracks =
      some (tracks1, calls))
    (hcount : unassigned.count i = 1)
    (htrack : at? tracks i = some track) (hpredict : at? tracks_predict i = some predict) :
    at? tracks1 i = some (env.UpdateWithoutObject track predict time_diff) := by
  induction unassigned generalizing tracks calls with
  | nil => simp at hcount
  | cons a rest ih =>
    simp only [UpdateUnassignedTracks] at h
    split at h
    · rename_i track0 predict0 htrack0 hpredict0
      split at h
      · rename_i heq
        simp only [Option.some.injEq, Prod.mk.injEq] at h
        obtain ⟨rfl, rfl⟩ := h
        by_cases hai : a = i
        · subst hai
          have hnot : a ∉ rest := by
            intro hmem
            have := List.count_pos_iff.2 hmem
            simp only [List.count_cons_self] at hcount
            omega
          rw [UpdateUnassignedTracks_other env _ _ _ _ _ _ a heq hnot]
          rw [htrack] at htrack0
          rw [hpredict] at hpredict0
          cases htrack0
          cases hpredict0
          exact at?_setAt_same tracks a _ track htrack
        · have hc : rest.count i = 1 := by
            rw [List.count_cons_of_ne (fun hEq => hai hEq.symm)] at hcount
            exact hcount
          refine ih _ _ heq hc ?_
          rw [at?_setAt_ne tracks a i _ track0 htrack0 hai]
          exact htrack
      · cases h
    · cases h

/-- C20: on a later frame (valid_ set, matcher present, pose and output
vector given), the prediction list has one entry per live track, entry i
being predicted from track i; if every track index the matcher returns is an
index of the live tracks and every detection index an index of the
detections, then no access of UpdateAssignedTracks, UpdateUnassignedTracks
or CreateNewTracks is out of range, so Track is defined and returns true;
both update passes work on the m tracks that prediction iterated, all their
calls come before RemoveLostTracks, which comes before every creation; and a
track that the matcher lists once as unassigned and never as assigned is
updated by UpdateWithoutObject with the prediction computed from that same
track. -/
theorem C20_update_passes_index_safe (env : Collaborators W) (self : HmObjectTracker W)
    (objects : List Object) (timestamp : ℚ) (hdmap : Vector3 → Option Vector3)
    (pose : Matrix4d) (matcher : MatcherMethod) (out : List (Option Object))
    (hvalid : self.valid_ = true) (hmatcher : self.matcher_ = some matcher)
    (hassigned : ∀ a ∈ (MatchOfFrame env self objects timestamp
        { velodyne_trans := some pose, hdmap_input := hdmap } pose).assignments,
      (0 ≤ a.1 ∧ a.1 < self.object_tracks_.length) ∧ (0 ≤ a.2 ∧ a.2 < objects.length))
    (htracks : ∀ i ∈ (MatchOfFrame env self objects timestamp
        { velodyne_trans := some pose, hdmap_input := hdmap } pose).unassigned_tracks,
      0 ≤ i ∧ i < self.object_tracks_.length)
    (hobjects : ∀ j ∈ (MatchOfFrame env self objects timestamp
        { velodyne_trans := some pose, hdmap_input := hdmap } pose).unassigned_objects,
      0 ≤ j ∧ j < objects.length) :
    (ComputeTracksPredict env self (timestamp - self.time_stamp_)).1.length =
        self.object_tracks_.length ∧
      (∀ (i : Int) (track : ObjectTrack), at? self.object_tracks_ i = some track →
        at? (ComputeTracksPredict env self (timestamp - self.time_stamp_)).1 i =
          some (env.Predict track (timestamp - self.time_stamp_))) ∧
      ∃ (r : TrackResult W) (updated added : List ObjectTrack),
        Track env self objects timestamp
            { velodyne_trans := some pose, hdmap_input := hdmap } (some out) = some r ∧
          r.ret = true ∧
          updated.length = self.object_tracks_.length ∧
          r.self.object_tracks_ = env.RemoveLostTracks updated ++ added ∧
          (∀ (i : Int) (track : ObjectTrack),
            (MatchOfFrame env self objects timestamp
              { velodyne_trans := some pose, hdmap_input := hdmap }
              pose).unassigned_tracks.count i = 1 →
            i ∉ (MatchOfFrame env self objects timestamp
              { velodyne_trans := some pose, hdmap_input := hdmap }
              pose).assignments.map Prod.fst →
            at? self.object_tracks_ i = some track →
            at? updated i =
              some (env.UpdateWithoutObject track
                (env.Predict track (timestamp - self.time_stamp_))
                (timestamp - self.time_stamp_))) ∧
          ∃ before updates creations : List Call,
            r.calls = before ++ [Call.Match] ++ updates ++ [Call.RemoveLostTracks] ++
              creations ∧
            (∀ c ∈ before, (∃ b cloud, c = Call.ComputeHistogram b cloud) ∨
              (∃ q, c = Call.GetNearestLaneDirection q) ∨ ∃ i d, c = Call.Predict i d) ∧
            (∀ c ∈ updates, (∃ i j d, c = Call.UpdateWithObject i j d) ∨
              ∃ i d, c = Call.UpdateWithoutObject i d) ∧
            (∀ c ∈ creations, ∃ j, c = Call.NewObjectTrack j) := by
  have hpredict : ∀ (i : Int) (track : ObjectTrack), at? self.object_tracks_ i = some track →
      at? (ComputeTracksPredict env self (timestamp - self.time_stamp_)).1 i =
        some (env.Predict track (timestamp - self.time_stamp_)) := by
    intro i track hi
    simp only [ComputeTracksPredict, at?_map, hi, Option.map_some']
  refine ⟨by simp [ComputeTracksPredict], hpredict, ?_⟩
  obtain ⟨r, hrun, hret⟩ := Track_later_defined env self objects timestamp hdmap pose matcher
    out hvalid hmatcher hassigned htracks hobjects
  obtain ⟨out1, pose1, matcher1, tracks1, objects1, calls1, tracks2, calls2, tracks3, static3,
    calls3, hout, hpose, -, h1, h2, h3, hself, hcalls, -⟩ :=
    Track_later_accepted env self objects timestamp _ _ r hvalid hrun hret
  simp only [Option.some.injEq] at hpose
  subst hpose
  obtain ⟨hc1, hl1, -⟩ := UpdateAssignedTracks_calls env _ _ _ _ _ _ _ h1
  obtain ⟨hc2, hl2⟩ := UpdateUnassignedTracks_calls env _ _ _ _ _ _ h2
  obtain ⟨hc3, added, hadd, -⟩ := CreateNewTracks_calls env _ _ _ _ _ _ _ h3
  simp only [MatchOfFrame]
  refine ⟨r, tracks2, added, hrun, hret, by rw [hl2, hl1], by rw [hself, hadd], ?_, ?_⟩
  · intro i track hcount hnot htrack
    have hsame := UpdateAssignedTracks_other env _ _ _ _ _ _ _ i h1 hnot
    exact UpdateUnassignedTracks_once env _ _ _ _ _ _ i track _ h2 hcount
      (hsame.trans htrack) (hpredict i track htrack)
  · refine ⟨(ConstructTrackedObjects env { self with time_stamp_ := timestamp } objects
        (TransformPoseGlobal2Local { self with time_stamp_ := timestamp } pose)
        { velodyne_trans := some pose, hdmap_input := hdmap }).2 ++
      (ComputeTracksPredict env { self with time_stamp_ := timestamp }
        (timestamp - self.time_stamp_)).2, calls1 ++ calls2, calls3, ?_, ?_, ?_, ?_⟩
    · rw [hcalls]; simp only [List.append_assoc]
    · intro c hc
      simp only [List.mem_append] at hc
      rcases hc with hc | hc
      · rcases ConstructTrackedObjects_calls _ _ _ _ _ c hc with h | h
        · exact Or.inl h
        · exact Or.inr (Or.inl h)
      · simp only [ComputeTracksPredict, List.mem_map] at hc
        obtain ⟨i, _, rfl⟩ := hc
        exact Or.inr (Or.inr ⟨_, _, rfl⟩)
    · intro c hc
      simp only [List.mem_append] at hc
      rcases hc with hc | hc
      · rw [hc1] at hc
        simp only [List.mem_map] at hc
        obtain ⟨a, _, rfl⟩ := hc
        exact Or.inl ⟨_, _, _, rfl⟩
      · rw [hc2] at hc
        simp only [List.mem_map] at hc
        obtain ⟨a, _, rfl⟩ := hc
        exact Or.inr ⟨_, _, rfl⟩
    · intro c hc
      rw [hc3] at hc
      simp only [List.mem_map] at hc
      obtain ⟨a, _, rfl⟩ := hc
      exact ⟨_, rfl⟩

/-- C20 on the sample second frame: two detections, three tracks, the sample
matcher returning the pairs (0, 0), (1, 1) and the unassigned track 2. -/
theorem C20_update_passes_witness :
    ∃ (r : TrackResult Nat) (updated added : List ObjectTrack),
      Track sampleEnv sampleTracker1 sampleFrame2.objects (21 / 2)
          { velodyne_trans := some samplePose2, hdmap_input := fun _ => none } (some []) =
          some r ∧
        r.ret = true ∧
        updated.length = sampleTracker1.object_tracks_.length ∧
        r.self.object_tracks_ = sampleEnv.RemoveLostTracks updated ++ added ∧
        ∀ track : ObjectTrack, at? sampleTracker1.object_tracks_ 2 = some track →
          at? updated 2 =
            some (sampleEnv.UpdateWithoutObject track
              (sampleEnv.Predict track (21 / 2 - sampleTracker1.time_stamp_))
              (21 / 2 - sampleTracker1.time_stamp_)) :=
  match (C20_update_passes_index_safe sampleEnv sampleTracker1 sampleFrame2.objects (21 / 2)
      (fun _ => none) samplePose2 MatcherMethod.HUNGARIAN_MATCHER [] rfl rfl
      (by decide) (by decide) (by decide)).2.2 with
  | ⟨r, updated, added, h1, h2, h3, h4, h5, _⟩ =>
    ⟨r, updated, added, h1, h2, h3, h4, fun track => h5 2 track (by decide) (by decide)⟩

end Apollo.HmObjectTracker

namespace Apollo

/-! # Maps: lemmas -/

theorem mapFind_mapAssign_same {K V : Type} [DecidableEq K] (m : List (K × V)) (k : K)
    (v : V) : mapFind (mapAssign m k v) k = some v := by
  induction m with
  | nil => simp [mapAssign, mapFind]
  | cons entry rest ih =>
    by_cases h : entry.1 = k
    · simp [mapAssign, mapFind, h]
    · simp [mapAssign, mapFind, h, ih]

theorem mapFind_mapAssign_ne {K V : Type} [DecidableEq K] (m : List (K × V)) (k other : K)
    (v : V) (hne : other ≠ k) : mapFind (mapAssign m k v) other = mapFind m other := by
  induction m with
  | nil => simp [mapAssign, mapFind, Ne.symm hne]
  | cons entry rest ih =>
    by_cases h : entry.1 = k
    · have h2 : ¬ entry.1 = other := fun h3 => hne (h3.symm.trans h)
      simp [mapAssign, mapFind, h, h2, Ne.symm hne]
    · by_cases h2 : entry.1 = other
      · simp only [mapAssign, if_neg h, mapFind, if_pos h2]
      · simp [mapAssign, mapFind, h, h2, ih]

theorem mapFind_append {K V : Type} [DecidableEq K] (m1 m2 : List (K × V)) (k : K) :
    mapFind (m1 ++ m2) k =
      match mapFind m1 k with
      | some v => some v
      | none => mapFind m2 k := by
  induction m1 with
  | nil => simp [mapFind]
  | cons entry rest ih =>
    by_cases h : entry.1 = k
    · simp [mapFind, h]
    · simp [mapFind, h, ih]

theorem mapFind_mapInsert_same {K V : Type} [DecidableEq K] (m : List (K × V)) (k : K)
    (v : V) (h : mapFind m k = none) : mapFind (mapInsert m k v) k = some v := by
  simp [mapInsert, h, mapFind_mapAssign_same]

theorem mapFind_mapInsert_ne {K V : Type} [DecidableEq K] (m : List (K × V)) (k other : K)
    (v : V) (hne : other ≠ k) : mapFind (mapInsert m k v) other = mapFind m other := by
  simp only [mapInsert]
  split
  · rfl
  · exact mapFind_mapAssign_ne m k other v hne

namespace IndexedList

variable {I T : Type} [DecidableEq I]

/-! # IndexedList: Add and Find -/

theorem Find_eq (self : IndexedList I T) (id : I) :
    Find self id = if (mapFind self.object_dict_ id).isSome then some id else none := by
  simp only [Find, FindOrNull]
  cases mapFind self.object_dict_ id <;> simp

theorem deref_Add (self : IndexedList I T) (id other : I) (object : T) :
    deref (Add self id object).1 other =
      if other = id then some object else deref self other := by
  simp only [Add, Find, FindOrNull, deref]
  cases h : mapFind self.object_dict_ id with
  | none =>
    by_cases ho : other = id
    · subst ho
      simp [mapFind_mapInsert_same _ _ _ h]
    · simp [ho, mapFind_mapInsert_ne _ _ _ _ ho]
  | some v =>
    by_cases ho : other = id
    · subst ho
      simp [mapFind_mapAssign_same]
    · simp [ho, mapFind_mapAssign_ne _ _ _ _ ho]

theorem Find_Add (self : IndexedList I T) (id other : I) (object : T) :
    Find (Add self id object).1 other = if other = id then some id else Find self other := by
  rw [Find_eq, Find_eq]
  have h := deref_Add self id other object
  simp only [deref] at h
  rw [h]
  by_cases ho : other = id
  · subst ho; simp
  · simp [ho]

theorem Add_pointer (self : IndexedList I T) (id : I) (object : T) :
    (Add self id object).2 = id := by
  simp only [Add, Find, FindOrNull]
  cases h : mapFind self.object_dict_ id <;> rfl

/-- C13: for every IndexedList, id and object, right after Add(id, object)
the pointer Find(id) returns is not null, is the pointer Add returned, and
designates an entry equal to object, whether or not the id was present
before. -/
theorem C13_Find_after_Add (self : IndexedList I T) (id : I) (object : T) :
    Find (Add self id object).1 id = some (Add self id object).2 ∧
      deref (Add self id object).1 (Add self id object).2 = some object := by
  rw [Add_pointer, Find_Add, deref_Add]
  simp

theorem Find_AddAll (self : IndexedList I T) (adds : List (I × T)) (id : I) :
    Find (AddAll self adds) id = none ↔ Find self id = none ∧ id ∉ adds.map Prod.fst := by
  induction adds generalizing self with
  | nil => simp [AddAll]
  | cons add rest ih =>
    simp only [AddAll, ih, Find_Add, List.map_cons, List.mem_cons, not_or]
    by_cases h : id = add.1
    · simp [h]
    · simp [h]

/-- C14: after any sequence of Add calls on an empty IndexedList, Find(id)
is null exactly when no Add of the sequence had that id; and on every
IndexedList, Add(id, object) leaves both the pointer Find(other) returns and
the entry it designates unchanged for every other id. -/
theorem C14_Find_null_iff_never_added (adds : List (I × T)) (id : I) :
    (Find (AddAll (empty : IndexedList I T) adds) id = none ↔ id ∉ adds.map Prod.fst) ∧
      ∀ (self : IndexedList I T) (added other : I) (object : T), other ≠ added →
        Find (Add self added object).1 other = Find self other ∧
          deref (Add self added object).1 other = deref self other := by
  constructor
  · rw [Find_AddAll]
    simp [empty, Find, FindOrNull, mapFind]
  · intro self added other object hne
    rw [Find_Add, deref_Add]
    simp [hne]

/-! # IndexedList: Items -/

theorem mem_firstOccurrences (ids : List I) (id : I) :
    id ∈ firstOccurrences ids ↔ id ∈ ids := by
  induction ids with
  | nil => simp [firstOccurrences]
  | cons a rest ih =>
    simp only [firstOccurrences, List.mem_cons, List.mem_filter, ih, decide_eq_true_eq]
    by_cases h : id = a
    · simp [h]
    · simp [h]

theorem firstOccurrences_nodup (ids : List I) : (firstOccurrences ids).Nodup := by
  induction ids with
  | nil => simp [firstOccurrences]
  | cons a rest ih =>
    simp only [firstOccurrences, List.nodup_cons, List.mem_filter, decide_eq_true_eq]
    exact ⟨fun h => h.2 rfl, ih.filter _⟩

theorem Items_Add (self : IndexedList I T) (id : I) (object : T) :
    Items (Add self id object).1 =
      if Find self id = none then Items self ++ [id] else Items self := by
  simp only [Add, Items]
  cases h : Find self id <;> simp

theorem Items_AddAll (self : IndexedList I T) (adds : List (I × T))
    (hc : ∀ id, id ∈ self.object_list_ ↔ Find self id ≠ none) :
    Items (AddAll self adds) =
      self.object_list_ ++
        (firstOccurrences (adds.map Prod.fst)).filter
          (fun id => decide (id ∉ self.object_list_)) := by
  induction adds generalizing self with
  | nil => simp [AddAll, firstOccurrences, Items]
  | cons add rest ih =>
    have hc2 : ∀ id, id ∈ (Add self add.1 add.2).1.object_list_ ↔
        Find (Add self add.1 add.2).1 id ≠ none := by
      intro id
      have hitems := Items_Add self add.1 add.2
      simp only [Items] at hitems
      rw [hitems, Find_Add]
      by_cases hf : Find self add.1 = none
      · by_cases hid : id = add.1
        · simp [hf, hid]
        · simp [hf, hid, hc id]
      · by_cases hid : id = add.1
        · rw [hid]
          simp [hf, (hc add.1).2 hf]
        · simp [hf, hid, hc id]
    rw [AddAll, ih _ hc2]
    have hitems := Items_Add self add.1 add.2
    simp only [Items] at hitems
    rw [hitems]
    simp only [List.map_cons, firstOccurrences]
    by_cases hf : Find self add.1 = none
    · have hnot : add.1 ∉ self.object_list_ := fun hmem => (hc _).1 hmem hf
      simp only [hf, if_true, List.append_assoc, List.singleton_append]
      rw [List.filter_cons_of_pos (by simpa using hnot), List.filter_filter]
      congr 2
      apply List.filter_congr
      intro x _
      simp only [List.mem_append, List.mem_singleton, not_or, Bool.decide_and,
        Bool.and_comm]
    · have hmem : add.1 ∈ self.object_list_ := (hc _).2 hf
      simp only [hf, if_false]
      rw [List.filter_cons_of_neg (by simpa using hmem), List.filter_filter]
      congr 1
      apply List.filter_congr
      intro x _
      by_cases hx : x = add.1
      · subst hx; simp [hmem]
      · simp [hx]

theorem deref_AddAll (self : IndexedList I T) (adds : List (I × T)) (id : I) :
    deref (AddAll self adds) id =
      match lastAdded adds id with
      | some object => some object
      | none => deref self id := by
  induction adds generalizing self with
  | nil => simp [AddAll, lastAdded, mapFind]
  | cons add rest ih =>
    rw [AddAll, ih, deref_Add]
    simp only [lastAdded, List.reverse_cons, mapFind_append, mapFind]
    cases mapFind rest.reverse id with
    | some v => rfl
    | none =>
      by_cases h : id = add.1
      · simp [h]
      · simp [h, Ne.symm h]

/-- C15: after any sequence of Add calls on an empty IndexedList, Items()
holds no pointer twice, holds a pointer for an id exactly when the id was
added, lists the ids in the order of their first Add, and every listed
pointer designates the object most recently added under its id; and an Add
with an id already present leaves Items() as it was, so neither its length
nor its order changes. -/
theorem C15_Items_first_insertion_order (adds : List (I × T)) :
    Items (AddAll (empty : IndexedList I T) adds) = firstOccurrences (adds.map Prod.fst) ∧
      (Items (AddAll (empty : IndexedList I T) adds)).Nodup ∧
      (∀ id : I, id ∈ Items (AddAll (empty : IndexedList I T) adds) ↔
        id ∈ adds.map Prod.fst) ∧
      (∀ id ∈ Items (AddAll (empty : IndexedList I T) adds),
        ∃ object : T, lastAdded adds id = some object ∧
          deref (AddAll (empty : IndexedList I T) adds) id = some object) ∧
      ∀ (self : IndexedList I T) (id : I) (object : T), Find self id ≠ none →
        Items (Add self id object).1 = Items self := by
  have hitems : Items (AddAll (empty : IndexedList I T) adds) =
      firstOccurrences (adds.map Prod.fst) := by
    rw [Items_AddAll _ _ (by simp [empty, Find, FindOrNull, mapFind])]
    simp [empty]
  refine ⟨hitems, ?_, ?_, ?_, ?_⟩
  · rw [hitems]; exact firstOccurrences_nodup _
  · intro id; rw [hitems]; exact mem_firstOccurrences _ id
  · intro id hid
    rw [hitems, mem_firstOccurrences] at hid
    have hfind := (Find_AddAll (empty : IndexedList I T) adds id).not.2
      (fun h => h.2 hid)
    have hd := deref_AddAll (empty : IndexedList I T) adds id
    rw [Find_eq] at hfind
    cases hl : lastAdded adds id with
    | some object =>
      rw [hl] at hd
      exact ⟨object, rfl, hd⟩
    | none =>
      rw [hl] at hd
      simp only [deref] at hd
      rw [hd] at hfind
      simp [empty, mapFind] at hfind
  · intro self id object hfound
    rw [Items_Add, if_neg hfound]

/-- The sample sequence of Add calls: Items() is 2, 7, 5 and the entry of id 2
is the object added last under it. -/
theorem Items_sampleAdds :
    Items (AddAll (empty : IndexedList Nat String) sampleAdds) = [2, 7, 5] ∧
      deref (AddAll (empty : IndexedList Nat String) sampleAdds) 2 = some "c" := by
  decide

end IndexedList

namespace SummaryMonitor

/-! # SummaryMonitor: status summary -/

/-- C16: UpdateStatusSummary leaves as summary the higher of the old and the
new summary in the order FATAL > ERROR > WARN > OK > UNKNOWN; it changes
nothing unless the new summary strictly outranks the old one, and then sets
the summary to the new one and the message to the new message, cleared when
the new message is empty; so it never lowers a summary, and applying the same
update a second time changes nothing. -/
theorem C16_UpdateStatusSummary_keeps_highest (new_summary : Summary) (new_msg : String)
    (status : Status) :
    (Summary.UNKNOWN.value < Summary.OK.value ∧ Summary.OK.value < Summary.WARN.value ∧
        Summary.WARN.value < Summary.ERROR.value ∧
        Summary.ERROR.value < Summary.FATAL.value) ∧
      (UpdateStatusSummary new_summary new_msg status).summary.value =
        max status.summary.value new_summary.value ∧
      (new_summary.value ≤ status.summary.value →
        UpdateStatusSummary new_summary new_msg status = status) ∧
      (status.summary.value < new_summary.value →
        (UpdateStatusSummary new_summary new_msg status).summary = new_summary ∧
          (UpdateStatusSummary new_summary new_msg status).msg =
            if new_msg = "" then none else some new_msg) ∧
      status.summary.value ≤ (UpdateStatusSummary new_summary new_msg status).summary.value ∧
      UpdateStatusSummary new_summary new_msg
          (UpdateStatusSummary new_summary new_msg status) =
        UpdateStatusSummary new_summary new_msg status := by
  refine ⟨by decide, ?_, ?_, ?_, ?_, ?_⟩
  · simp only [UpdateStatusSummary]
    split_ifs <;> simp <;> omega
  · intro h
    simp only [UpdateStatusSummary]
    rw [if_neg (by omega)]
  · intro h
    simp only [UpdateStatusSummary]
    rw [if_pos (by omega)]
    split_ifs <;> simp_all
  · simp only [UpdateStatusSummary]
    split_ifs <;> simp <;> omega
  · simp only [UpdateStatusSummary]
    split_ifs <;> simp_all

/-! # SummaryMonitor: publication -/

theorem RunOnce_published_iff (env : MonitorCollaborators) (self : SummaryMonitor)
    (system_status : SystemStatus) (current_time : ℚ) :
    ((RunOnce env self system_status current_time).published =
          some (env.FillSystemStatusHeader
            (CurrentStatus env self system_status current_time)) ∧
        (RunOnce env self system_status current_time).self =
          { self with
            system_status_fp_ :=
              Fingerprint env
                (env.SerializeToString (CurrentStatus env self system_status current_time))
            last_broadcast_ := current_time } ∧
        (self.system_status_fp_ ≠
            Fingerprint env
              (env.SerializeToString (CurrentStatus env self system_status current_time)) ∨
          current_time - self.last_broadcast_ > env.FLAGS_broadcast_max_interval)) ∨
      ((RunOnce env self system_status current_time).published = none ∧
        (RunOnce env self system_status current_time).self = self ∧
        ¬ (self.system_status_fp_ ≠
            Fingerprint env
              (env.SerializeToString (CurrentStatus env self system_status current_time)) ∨
          current_time - self.last_broadcast_ > env.FLAGS_broadcast_max_interval)) := by
  by_cases h : self.system_status_fp_ ≠
      Fingerprint env
        (env.SerializeToString (CurrentStatus env self system_status current_time)) ∨
      current_time - self.last_broadcast_ > env.FLAGS_broadcast_max_interval
  · left
    refine ⟨?_, ?_, h⟩ <;> simp only [RunOnce, if_pos h]
  · right
    refine ⟨?_, ?_, h⟩ <;> simp only [RunOnce, if_neg h]

theorem CurrentStatus_bareStatus (env : MonitorCollaborators) (self : SummaryMonitor)
    (other_ : List Nat) (current_time : ℚ) (hsafety : self.safety_manager_ = false) :
    CurrentStatus env self (bareStatus other_) current_time = bareStatus other_ := by
  simp [CurrentStatus, SummarizeModules, SummarizeHardware, bareStatus, hsafety]

theorem RunOnce_misses_collision (env : MonitorCollaborators) (self : SummaryMonitor)
    (first second : SystemStatus) (first_time second_time : ℚ)
    (hpublished : (RunOnce env self first first_time).published ≠ none)
    (hcollision :
      Fingerprint env
          (env.SerializeToString
            (CurrentStatus env (RunOnce env self first first_time).self second
              second_time)) =
        Fingerprint env
          (env.SerializeToString (CurrentStatus env self first first_time)))
    (htime : second_time - first_time ≤ env.FLAGS_broadcast_max_interval) :
    (RunOnce env (RunOnce env self first first_time).self second second_time).published =
        none ∧
      (RunOnce env (RunOnce env self first first_time).self second second_time).self =
        (RunOnce env self first first_time).self := by
  rcases RunOnce_published_iff env self first first_time with h | h
  · rcases RunOnce_published_iff env (RunOnce env self first first_time).self second
      second_time with h2 | h2
    · exfalso
      have hfp : (RunOnce env self first first_time).self.system_status_fp_ =
          Fingerprint env
            (env.SerializeToString (CurrentStatus env self first first_time)) := by
        rw [h.2.1]
      have hlast : (RunOnce env self first first_time).self.last_broadcast_ = first_time := by
        rw [h.2.1]
      rcases h2.2.2 with h3 | h3
      · apply h3
        rw [hfp]
        exact hcollision.symm
      · rw [hlast] at h3
        exact absurd h3 (not_lt.mpr htime)
    · exact ⟨h2.1, h2.2.1⟩
  · exact absurd h.1 hpublished

theorem Fingerprint_collision_of_statuses (env : MonitorCollaborators)
    (hserialize : Function.Injective
      (fun other_ : List Nat => env.SerializeToString (bareStatus other_))) :
    ∃ first second : List Nat,
      env.SerializeToString (bareStatus first) ≠ env.SerializeToString (bareStatus second) ∧
        Fingerprint env (env.SerializeToString (bareStatus first)) =
          Fingerprint env (env.SerializeToString (bareStatus second)) := by
  obtain ⟨first, second, hne, heq⟩ := Finite.exists_ne_map_eq_of_infinite
    (fun other_ : List Nat =>
      (⟨Fingerprint env (env.SerializeToString (bareStatus other_)),
        Nat.mod_lt _ (by norm_num)⟩ : Fin (2 ^ 64)))
  exact ⟨first, second, fun h => hne (hserialize h), by simpa using congrArg Fin.val heq⟩

theorem sampleMonitorEnv_serialize_injective :
    Function.Injective
      (fun other_ : List Nat => sampleMonitorEnv.SerializeToString (bareStatus other_)) :=
  fun _ _ h => h

/-- C17, where the code misses a change: a monitor with the safety mode
disabled and a status without modules and hardware. At time 1 the passenger
message is WBQKFPNMMKLLP and RunOnce publishes the status. At time 2 the
passenger message has changed to GFXRTANHIDDDC: the serialised status differs
from the one published, but both have the std::hash value 0x035ba8c9005287a1
under libstdc++, and RunOnce publishes nothing and leaves the stored
fingerprint and broadcast time as they were. Not only this hash: for every
hash function and every serialiser that tells such statuses apart there are
two statuses with different serialisations of which the second is not
published when it follows the first within broadcast_max_interval. -/
theorem C17_changed_status_missed_on_hash_collision :
    (RunOnce sampleMonitorEnv sampleMonitor sampleStatusA 1).published =
        some (sampleMonitorEnv.FillSystemStatusHeader sampleStatusA) ∧
      sampleMonitorEnv.SerializeToString
          (CurrentStatus sampleMonitorEnv
            (RunOnce sampleMonitorEnv sampleMonitor sampleStatusA 1).self sampleStatusB 2) ≠
        sampleMonitorEnv.SerializeToString
          (CurrentStatus sampleMonitorEnv sampleMonitor sampleStatusA 1) ∧
      sampleMonitorEnv.hash_fn (passengerMsgBytes "WBQKFPNMMKLLP") = 0x035ba8c9005287a1 ∧
      sampleMonitorEnv.hash_fn (passengerMsgBytes "GFXRTANHIDDDC") = 0x035ba8c9005287a1 ∧
      (RunOnce sampleMonitorEnv (RunOnce sampleMonitorEnv sampleMonitor sampleStatusA 1).self
        sampleStatusB 2).published = none ∧
      (RunOnce sampleMonitorEnv (RunOnce sampleMonitorEnv sampleMonitor sampleStatusA 1).self
        sampleStatusB 2).self = (RunOnce sampleMonitorEnv sampleMonitor sampleStatusA 1).self ∧
      ∀ env : MonitorCollaborators,
        Function.Injective
          (fun other_ : List Nat => env.SerializeToString (bareStatus other_)) →
        ∃ first second : SystemStatus,
          ∀ (self : SummaryMonitor) (first_time second_time : ℚ),
            self.safety_manager_ = false →
            (RunOnce env self first first_time).published ≠ none →
            second_time - first_time ≤ env.FLAGS_broadcast_max_interval →
            env.SerializeToString
                (CurrentStatus env (RunOnce env self first first_time).self second
                  second_time) ≠
              env.SerializeToString (CurrentStatus env self first first_time) ∧
            (RunOnce env (RunOnce env self first first_time).self second
              second_time).published = none := by
  have hfirst : (RunOnce sampleMonitorEnv sampleMonitor sampleStatusA 1).published =
      some (sampleMonitorEnv.FillSystemStatusHeader sampleStatusA) := by
    rcases RunOnce_published_iff sampleMonitorEnv sampleMonitor sampleStatusA 1 with h | h
    · exact h.1
    · exact absurd (Or.inl (by decide)) h.2.2
  have hsafety : (RunOnce sampleMonitorEnv sampleMonitor sampleStatusA 1).self.safety_manager_ =
      false := by
    rcases RunOnce_published_iff sampleMonitorEnv sampleMonitor sampleStatusA 1 with h | h
    · rw [h.2.1]
      rfl
    · rw [h.2.1]
      rfl
  have hsecond : CurrentStatus sampleMonitorEnv
      (RunOnce sampleMonitorEnv sampleMonitor sampleStatusA 1).self sampleStatusB 2 =
      sampleStatusB := CurrentStatus_bareStatus _ _ _ _ hsafety
  have hstart : CurrentStatus sampleMonitorEnv sampleMonitor sampleStatusA 1 =
      sampleStatusA := CurrentStatus_bareStatus _ _ _ _ rfl
  have hmiss := RunOnce_misses_collision sampleMonitorEnv sampleMonitor sampleStatusA
    sampleStatusB 1 2 (by rw [hfirst]; simp)
    (by
      rw [hsecond, hstart]
      decide)
    (by simp only [sampleMonitorEnv]; norm_num)
  refine ⟨hfirst, ?_, by decide, by decide, hmiss.1, hmiss.2, ?_⟩
  · rw [hsecond, hstart]
    decide
  · intro env hserialize
    obtain ⟨first, second, hne, heq⟩ := Fingerprint_collision_of_statuses env hserialize
    refine ⟨bareStatus first, bareStatus second, ?_⟩
    intro self first_time second_time hoff hpublished htime
    have hkeep : (RunOnce env self (bareStatus first) first_time).self.safety_manager_ =
        false := by
      rcases RunOnce_published_iff env self (bareStatus first) first_time with h | h
      · rw [h.2.1]
        exact hoff
      · rw [h.2.1]
        exact hoff
    have hsecond := CurrentStatus_bareStatus env
      (RunOnce env self (bareStatus first) first_time).self second second_time hkeep
    have hfirst2 := CurrentStatus_bareStatus env self first first_time hoff
    refine ⟨?_, ?_⟩
    · rw [hsecond, hfirst2]
      exact fun h => hne h.symm
    · refine (RunOnce_misses_collision env self (bareStatus first) (bareStatus second)
        first_time second_time hpublished ?_ htime).1
      rw [hsecond, hfirst2]
      exact heq.symm

end SummaryMonitor

namespace ColorReviser

/-! # ColorReviser: YELLOW after RED -/

theorem ReviseLoop_append (ts : ℚ) (self : ColorReviser) (pre post : List Light) :
    ReviseLoop ts self (pre ++ post) =
      ((ReviseLoop ts (ReviseLoop ts self pre).1 post).1,
        (ReviseLoop ts self pre).2 ++ (ReviseLoop ts (ReviseLoop ts self pre).1 post).2) := by
  induction pre generalizing self with
  | nil => simp [ReviseLoop]
  | cons light rest ih => simp [ReviseLoop, ih]

theorem ReviseLoop_length (ts : ℚ) (self : ColorReviser) (lights : List Light) :
    (ReviseLoop ts self lights).2.length = lights.length := by
  induction lights generalizing self with
  | nil => simp [ReviseLoop]
  | cons light rest ih => simp [ReviseLoop, ih]

theorem ReviseLight_yellow_after_red (self : ColorReviser) (ts : ℚ) (light : Light)
    (hts : 0 < ts) (hyellow : light.color = TLColor.YELLOW)
    (hred : mapFind self.color_map_ light.id = some TLColor.RED) :
    ReviseLight self ts light =
      ({ self with
          color_map_ := mapAssign self.color_map_ light.id TLColor.RED
          time_map_ := mapAssign self.time_map_ light.id ts },
        { light with color := TLColor.RED }) := by
  simp only [ReviseLight, hyellow, hred, gt_iff_lt, hts, if_true]

theorem ReviseAll_yellow_run (self : ColorReviser) (light : Light) (stamps : List ℚ)
    (henable : self.enable ≠ 0) (hstamps : ∀ ts ∈ stamps, 0 < ts)
    (hyellow : light.color = TLColor.YELLOW)
    (hred : mapFind self.color_map_ light.id = some TLColor.RED) :
    (ReviseAll self (stamps.map (fun ts => (ts, [light])))).2 =
      stamps.map (fun _ => [{ light with color := TLColor.RED }]) := by
  induction stamps generalizing self with
  | nil => simp [ReviseAll]
  | cons ts rest ih =>
    have hts : 0 < ts := hstamps ts (List.mem_cons_self _ _)
    have hone := ReviseLight_yellow_after_red self ts light hts hyellow hred
    simp only [List.map_cons, ReviseAll, Revise, if_neg henable, ReviseLoop, hone]
    rw [ih { self with
        color_map_ := mapAssign self.color_map_ light.id TLColor.RED
        time_map_ := mapAssign self.time_map_ light.id ts } henable
      (fun t ht => hstamps t (List.mem_cons_of_mem _ ht)) (mapFind_mapAssign_same _ _ _)]

/-- C18: with the reviser enabled and a positive timestamp ts, a YELLOW
detection of a light whose id has RED as its remembered colour when the loop
of Revise reaches it is revised to RED, and right after it the remembered
colour of the id is RED and its remembered time is ts; so in a run of Revise
calls with positive timestamps, each with a YELLOW detection of that light,
every one is reported RED. -/
theorem C18_yellow_after_red_is_revised_to_red (self : ColorReviser) (ts : ℚ)
    (before after : List Light) (light : Light) (stamps : List ℚ)
    (henable : self.enable ≠ 0) (hts : 0 < ts) (hyellow : light.color = TLColor.YELLOW)
    (hred : mapFind (ReviseLoop ts self before).1.color_map_ light.id = some TLColor.RED)
    (hstamps : ∀ t ∈ stamps, 0 < t) :
    (Revise self ts (before ++ light :: after)).1 = true ∧
      (Revise self ts (before ++ light :: after)).2.2[before.length]? =
        some { light with color := TLColor.RED } ∧
      mapFind (Revise self ts (before ++ [light])).2.1.color_map_ light.id =
        some TLColor.RED ∧
      mapFind (Revise self ts (before ++ [light])).2.1.time_map_ light.id = some ts ∧
      (ReviseAll (Revise self ts (before ++ [light])).2.1
          (stamps.map (fun t => (t, [light])))).2 =
        stamps.map (fun _ => [{ light with color := TLColor.RED }]) := by
  have hone := ReviseLight_yellow_after_red (ReviseLoop ts self before).1 ts light hts
    hyellow hred
  have hlen := ReviseLoop_length ts self before
  have hstate : (Revise self ts (before ++ [light])).2.1 =
      { (ReviseLoop ts self before).1 with
        color_map_ := mapAssign (ReviseLoop ts self before).1.color_map_ light.id TLColor.RED
        time_map_ := mapAssign (ReviseLoop ts self before).1.time_map_ light.id ts } := by
    simp only [Revise, if_neg henable, ReviseLoop_append, ReviseLoop, hone]
  have henable2 : (ReviseLoop ts self before).1.enable = self.enable := by
    clear hone hred hlen hstate
    induction before generalizing self with
    | nil => rfl
    | cons l rest ih =>
      simp only [ReviseLoop]
      rw [ih (ReviseLight self ts l).1]
      · simp only [ReviseLight, Remember, mapIndex]
        repeat' split
        all_goals rfl
      · simp only [ReviseLight, Remember, mapIndex]
        repeat' split
        all_goals exact henable
  refine ⟨?_, ?_, ?_, ?_, ?_⟩
  · simp only [Revise, if_neg henable]
  · simp only [Revise, if_neg henable, ReviseLoop_append, ReviseLoop, hone]
    rw [List.getElem?_append_right (by omega)]
    simp [hlen]
  · rw [hstate]; exact mapFind_mapAssign_same _ _ _
  · rw [hstate]; exact mapFind_mapAssign_same _ _ _
  · rw [hstate]
    exact ReviseAll_yellow_run _ light stamps (by simpa [henable2] using henable) hstamps
      hyellow (mapFind_mapAssign_same _ _ _)

/-- C18 on the sample reviser, which remembers RED for light a: at time 4 a
GREEN light b and then a YELLOW light a are revised; light a is reported RED,
RED stays remembered with time 4, and YELLOW again at times 5 and 6 is
reported RED both times. -/
theorem C18_yellow_after_red_witness :
    (Revise sampleReviser 4
        ([{ id := "b", color := TLColor.GREEN }] ++
          { id := "a", color := TLColor.YELLOW } :: [])).2.2[1]? =
        some { id := "a", color := TLColor.RED } ∧
      mapFind (Revise sampleReviser 4
        ([{ id := "b", color := TLColor.GREEN }] ++
          [{ id := "a", color := TLColor.YELLOW }])).2.1.time_map_ "a" = some 4 ∧
      (ReviseAll (Revise sampleReviser 4
          ([{ id := "b", color := TLColor.GREEN }] ++
            [{ id := "a", color := TLColor.YELLOW }])).2.1
          ([5, 6].map (fun t => (t, [{ id := "a", color := TLColor.YELLOW }])))).2 =
        [5, 6].map (fun _ => [{ id := "a", color := TLColor.RED }]) :=
  have h := C18_yellow_after_red_is_revised_to_red sampleReviser 4
    [{ id := "b", color := TLColor.GREEN }] [] { id := "a", color := TLColor.YELLOW } [5, 6]
    (by decide) (by norm_num) rfl (by decide)
    (by
      intro t ht
      simp only [List.mem_cons, List.mem_singleton, List.not_mem_nil, or_false] at ht
      rcases ht with rfl | rfl <;> norm_num)
  ⟨h.2.1, h.2.2.2.1, h.2.2.2.2⟩

end ColorReviser

end Apollo

namespace Apollo.HmObjectTracker

variable {W : Type}

/-! ## Estimator parameters -/

/-- C21, the claim refuted: with a filter method other than the Kalman filter
configured, and a measurement noise that the estimator's InitParams rejects,
Init returns true; the estimator parameters are not submitted at all. -/
theorem C21_Init_other_filter_counterexample :
    sampleConfigOtherFilter.filter_method ≠ FilterMethod.KALMAN_FILTER ∧
      sampleEnv.InitParams sampleConfigOtherFilter.measurement_noise
          sampleConfigOtherFilter.initial_velocity_noise
          sampleConfigOtherFilter.xy_propagation_noise
          sampleConfigOtherFilter.z_propagation_noise = false ∧
      (Init sampleEnv sampleTracker (some sampleConfigOtherFilter)).1 = true := by
  refine ⟨by simp [sampleConfigOtherFilter], ?_, ?_⟩
  · simp only [sampleEnv, sampleConfigOtherFilter, sampleConfig, decide_eq_false_iff_not]
    norm_num
  · rw [Init_true_iff]
    constructor
    · simp only [sampleEnv, sampleConfigOtherFilter, sampleConfig, decide_eq_true_eq]
      norm_num
    · intro h
      simp [sampleConfigOtherFilter] at h

theorem Init_other_filter_ignores_estimator (env : Collaborators W)
    (self : HmObjectTracker W) (config : ModelConfigs)
    (hfilter : config.filter_method ≠ FilterMethod.KALMAN_FILTER)
    (SetAssociationScoreMaximum2 : ℚ → Bool) (InitParams2 : ℚ → ℚ → ℚ → ℚ → Bool)
    (SetBreakdownThresholdMaximum2 : ℚ → Bool) :
    Init
        { env with
          SetAssociationScoreMaximum := SetAssociationScoreMaximum2
          InitParams := InitParams2
          SetBreakdownThresholdMaximum := SetBreakdownThresholdMaximum2 }
        self (some config) =
      Init env self (some config) := by
  by_cases hm : config.matcher_method = MatcherMethod.HUNGARIAN_MATCHER
  · simp only [Init, hm, ne_eq, not_true_eq_false, if_false, InitFilter, hfilter]
  · simp only [Init, hm, ne_eq, not_false_eq_true, if_true, InitFilter, hfilter, if_false]

theorem Init_other_filter_ignores_parameters (env : Collaborators W)
    (self : HmObjectTracker W) (config : ModelConfigs)
    (hfilter : config.filter_method ≠ FilterMethod.KALMAN_FILTER)
    (measurement_noise initial_velocity_noise xy_propagation_noise z_propagation_noise
      breakdown_threshold_maximum : ℚ) :
    (Init env self
        (some { config with
          measurement_noise := measurement_noise
          initial_velocity_noise := initial_velocity_noise
          xy_propagation_noise := xy_propagation_noise
          z_propagation_noise := z_propagation_noise
          breakdown_threshold_maximum := breakdown_threshold_maximum })).1 =
      (Init env self (some config)).1 := by
  have h1 := Init_true_iff env self config
  have h2 := Init_true_iff env self
    { config with
      measurement_noise := measurement_noise
      initial_velocity_noise := initial_velocity_noise
      xy_propagation_noise := xy_propagation_noise
      z_propagation_noise := z_propagation_noise
      breakdown_threshold_maximum := breakdown_threshold_maximum }
  simp only [hfilter, false_implies, and_true] at h1 h2
  rw [Bool.eq_iff_iff, h1, h2]

/-- C21 as amended: for every configuration whose filter method is the Kalman
filter, if the estimator rejects the association-score maximum (the
configured match_distance_maximum), the four noise parameters or the
breakdown threshold, then Init returns false, and whenever Init returns true
the estimator has accepted all of them. For every configuration with another
filter method, Init submits nothing to the estimator: its result and the
tracker it leaves are the same whatever the three estimator setters would
answer, and the returned flag is the same whatever the four noise parameters
and the breakdown threshold are. -/
theorem C21_Init_rejects_invalid_kalman_parameters (env : Collaborators W)
    (self : HmObjectTracker W) (config : ModelConfigs) :
    (config.filter_method = FilterMethod.KALMAN_FILTER →
      ((env.SetAssociationScoreMaximum config.match_distance_maximum = false ∨
          env.InitParams config.measurement_noise config.initial_velocity_noise
            config.xy_propagation_noise config.z_propagation_noise = false ∨
          env.SetBreakdownThresholdMaximum config.breakdown_threshold_maximum = false) →
        (Init env self (some config)).1 = false) ∧
      ((Init env self (some config)).1 = true →
        env.SetAssociationScoreMaximum config.match_distance_maximum = true ∧
          env.InitParams config.measurement_noise config.initial_velocity_noise
            config.xy_propagation_noise config.z_propagation_noise = true ∧
          env.SetBreakdownThresholdMaximum config.breakdown_threshold_maximum = true)) ∧
    (config.filter_method ≠ FilterMethod.KALMAN_FILTER →
      (∀ (SetAssociationScoreMaximum2 : ℚ → Bool) (InitParams2 : ℚ → ℚ → ℚ → ℚ → Bool)
        (SetBreakdownThresholdMaximum2 : ℚ → Bool),
        Init
            { env with
              SetAssociationScoreMaximum := SetAssociationScoreMaximum2
              InitParams := InitParams2
              SetBreakdownThresholdMaximum := SetBreakdownThresholdMaximum2 }
            self (some config) =
          Init env self (some config)) ∧
      (∀ measurement_noise initial_velocity_noise xy_propagation_noise z_propagation_noise
        breakdown_threshold_maximum : ℚ,
        (Init env self
            (some { config with
              measurement_noise := measurement_noise
              initial_velocity_noise := initial_velocity_noise
              xy_propagation_noise := xy_propagation_noise
              z_propagation_noise := z_propagation_noise
              breakdown_threshold_maximum := breakdown_threshold_maximum })).1 =
          (Init env self (some config)).1)) := by
  have hiff := Init_true_iff env self config
  refine ⟨fun hfilter => ⟨?_, ?_⟩, fun hfilter => ⟨?_, ?_⟩⟩
  · intro hbad
    cases hres : (Init env self (some config)).1 with
    | false => rfl
    | true =>
      obtain ⟨h1, h2, h3⟩ := (hiff.1 hres).2 hfilter
      rcases hbad with h | h | h <;> simp_all
  · intro hres
    exact (hiff.1 hres).2 hfilter
  · intro f g h
    exact Init_other_filter_ignores_estimator env self config hfilter f g h
  · intro n1 n2 n3 n4 b
    exact Init_other_filter_ignores_parameters env self config hfilter n1 n2 n3 n4 b

/-- C21 with the sample configurations. The sample configuration has the
Kalman filter and Init accepts it, so the sample estimator has accepted the
parameters. The sample configuration with another filter method gets from
Init the same flag as with any noise parameters and breakdown threshold, here
those of the sample configuration. -/
theorem C21_Init_kalman_witness :
    (sampleEnv.SetAssociationScoreMaximum sampleConfig.match_distance_maximum = true ∧
      sampleEnv.InitParams sampleConfig.measurement_noise sampleConfig.initial_velocity_noise
        sampleConfig.xy_propagation_noise sampleConfig.z_propagation_noise = true ∧
      sampleEnv.SetBreakdownThresholdMaximum sampleConfig.breakdown_threshold_maximum =
        true) ∧
      (Init sampleEnv sampleTracker
          (some { sampleConfigOtherFilter with
            measurement_noise := 2 / 5
            initial_velocity_noise := 5
            xy_propagation_noise := 10
            z_propagation_noise := 10
            breakdown_threshold_maximum := 10 })).1 =
        (Init sampleEnv sampleTracker (some sampleConfigOtherFilter)).1 :=
  ⟨((C21_Init_rejects_invalid_kalman_parameters sampleEnv sampleTracker sampleConfig).1
      rfl).2 Init_accepts_sampleConfig,
    ((C21_Init_rejects_invalid_kalman_parameters sampleEnv sampleTracker
      sampleConfigOtherFilter).2 (by simp [sampleConfigOtherFilter])).2 (2 / 5) 5 10 10 10⟩

/-! ## Anchor point and lane query -/

/-- C22: for every pose P, every offset (that of the tracker) and every
detection, with b the barycenter the TrackedObject constructor computes in
the sensor frame: the tracked object built with the local pose has its
anchor point equal to its barycenter, which is the local pose applied to b;
exactly one lane-direction lookup is made for it, at P applied to b, the
barycenter in world coordinates, and its lane direction is the answer of the
lookup at that point (or the first column of P when it fails); none of this
depends on the offset. -/
theorem C22_anchor_and_lane_query_point (env : Collaborators W) (self : HmObjectTracker W)
    (P : Matrix4d) (options : TrackerOptions) (object : Object) :
    (ConstructTrackedObject env self (TransformPoseGlobal2Local self P) options
        object).1.anchor_point =
        (ConstructTrackedObject env self (TransformPoseGlobal2Local self P) options
          object).1.barycenter ∧
      (ConstructTrackedObject env self (TransformPoseGlobal2Local self P) options
        object).1.barycenter =
        mulHead3 (TransformPoseGlobal2Local self P)
          { x := (env.NewTrackedObject object).barycenter.x,
            y := (env.NewTrackedObject object).barycenter.y,
            z := (env.NewTrackedObject object).barycenter.z, w := 1 } ∧
      (ConstructTrackedObject env self (TransformPoseGlobal2Local self P) options
        object).2.filterMap Call.laneQuery? =
        [mulHead3 P
          { x := (env.NewTrackedObject object).barycenter.x,
            y := (env.NewTrackedObject object).barycenter.y,
            z := (env.NewTrackedObject object).barycenter.z, w := 1 }] ∧
      (ConstructTrackedObject env self (TransformPoseGlobal2Local self P) options
        object).1.lane_direction =
        match options.hdmap_input
          (mulHead3 P
            { x := (env.NewTrackedObject object).barycenter.x,
              y := (env.NewTrackedObject object).barycenter.y,
              z := (env.NewTrackedObject object).barycenter.z, w := 1 }) with
        | some lane_dir => lane_dir
        | none => { x := P 0 0, y := P 1 0, z := P 2 0 } := by
  have hw := local_then_world self P (env.NewTrackedObject object).barycenter
  have hcol := (TransformPoseGlobal2Local_entries self P).1
  refine ⟨?_, ?_, ?_, ?_⟩
  · simp only [ConstructTrackedObject]
  · cases hu : self.use_histogram_for_match_ <;>
      simp [ConstructTrackedObject, hu, ComputeShapeFeatures, TransformTrackedObject]
  · cases hu : self.use_histogram_for_match_ <;>
      simp [ConstructTrackedObject, hu, ComputeShapeFeatures, TransformTrackedObject,
        Call.laneQuery?, List.filterMap_cons, hw]
  · cases hu : self.use_histogram_for_match_ <;>
      simp only [ConstructTrackedObject, hu, ComputeShapeFeatures, TransformTrackedObject,
        hw, if_true, if_false, Bool.false_eq_true] <;>
      cases options.hdmap_input _ <;>
      simp [mulHead3, hcol 0 0 (Or.inl (by decide)), hcol 1 0 (Or.inl (by decide)),
        hcol 2 0 (Or.inl (by decide))]

/-! ## Heading on the axis -/

/-- C23, the claim refuted: for the direction (0, 0, 0), whose forward
component is exactly zero, CollectTrackedResults reports the heading
-M_PI / 2, while atan2(0, 0) is 0. -/
theorem C23_heading_at_zero_direction_counterexample :
    (sampleTrackWithDirection 0 0).current_object_.direction.x = 0 ∧
      (CollectObject sampleEnvAxis sampleTracker (sampleTrackWithDirection 0 0)).theta =
        -M_PI / 2 ∧
      sampleEnvAxis.atan2 (sampleTrackWithDirection 0 0).current_object_.direction.y
          (sampleTrackWithDirection 0 0).current_object_.direction.x = 0 ∧
      (CollectObject sampleEnvAxis sampleTracker (sampleTrackWithDirection 0 0)).theta ≠
        sampleEnvAxis.atan2 (sampleTrackWithDirection 0 0).current_object_.direction.y
          (sampleTrackWithDirection 0 0).current_object_.direction.x := by
  have htheta : (CollectObject sampleEnvAxis sampleTracker
      (sampleTrackWithDirection 0 0)).theta = -M_PI / 2 := by
    simp [CollectObject, sampleTrackWithDirection, DBL_MIN]
  have hatan : sampleEnvAxis.atan2 (sampleTrackWithDirection 0 0).current_object_.direction.y
      (sampleTrackWithDirection 0 0).current_object_.direction.x = 0 := by
    simp [sampleEnvAxis, axisAtan2, sampleTrackWithDirection]
  refine ⟨rfl, htheta, hatan, ?_⟩
  rw [htheta, hatan]
  have := M_PI_pos
  intro h
  linarith

/-- C23 as amended: with an atan2 that returns M_PI / 2 for (y, 0) with y > 0
and -M_PI / 2 for (y, 0) with y < 0, the reported heading equals
atan2(dy, dx) for every direction whose forward component is exactly zero
and whose lateral component is not zero, and for every direction with
|dx| >= DBL_MIN; for a direction with both components zero the reported
heading is -M_PI / 2. -/
theorem C23_heading_special_case_agrees_off_origin (env : Collaborators W)
    (self : HmObjectTracker W) (track : ObjectTrack)
    (haxis : ∀ y : ℚ, (0 < y → env.atan2 y 0 = M_PI / 2) ∧
      (y < 0 → env.atan2 y 0 = -M_PI / 2)) :
    (track.current_object_.direction.x = 0 → track.current_object_.direction.y ≠ 0 →
        (CollectObject env self track).theta =
          env.atan2 track.current_object_.direction.y track.current_object_.direction.x) ∧
      (DBL_MIN ≤ |track.current_object_.direction.x| →
        (CollectObject env self track).theta =
          env.atan2 track.current_object_.direction.y track.current_object_.direction.x) ∧
      (track.current_object_.direction.x = 0 → track.current_object_.direction.y = 0 →
        (CollectObject env self track).theta = -M_PI / 2) := by
  have hmin : (0 : ℚ) < DBL_MIN := by simp [DBL_MIN]
  refine ⟨?_, ?_, ?_⟩
  · intro hx hy
    rw [hx]
    rcases lt_or_gt_of_ne hy with hneg | hpos
    · rw [(haxis _).2 hneg]
      simp [CollectObject, hx, hmin, not_lt.mpr hneg.le]
    · rw [(haxis _).1 hpos]
      simp [CollectObject, hx, hmin, hpos]
  · intro h1
    simp [CollectObject, not_lt.mpr h1]
  · intro hx hy
    simp [CollectObject, hx, hy, hmin]

/-- C23 as amended, with the sample atan2 on the axis and the direction
(0, -2, 0): the reported heading is atan2(-2, 0). -/
theorem C23_heading_special_case_witness :
    (CollectObject sampleEnvAxis sampleTracker (sampleTrackWithDirection 0 (-2))).theta =
      sampleEnvAxis.atan2 (sampleTrackWithDirection 0 (-2)).current_object_.direction.y
        (sampleTrackWithDirection 0 (-2)).current_object_.direction.x :=
  (C23_heading_special_case_agrees_off_origin sampleEnvAxis sampleTracker
    (sampleTrackWithDirection 0 (-2))
    (fun y => ⟨fun h => by simp [sampleEnvAxis, axisAtan2, h],
      fun h => by simp [sampleEnvAxis, axisAtan2, h, not_lt.mpr h.le]⟩)).1 rfl
    (by simp [sampleTrackWithDirection])

end Apollo.HmObjectTracker

namespace Apollo

/-! # Maps: keys -/

theorem mapAssign_keys {K V : Type} [DecidableEq K] (m : List (K × V)) (k : K) (v : V) :
    (mapAssign m k v).map Prod.fst =
      if k ∈ m.map Prod.fst then m.map Prod.fst else m.map Prod.fst ++ [k] := by
  induction m with
  | nil => simp [mapAssign]
  | cons entry rest ih =>
    by_cases h : entry.1 = k
    · simp [mapAssign, h]
    · have h2 : ¬ k = entry.1 := fun h3 => h h3.symm
      simp only [mapAssign, if_neg h, List.map_cons, ih, List.mem_cons, h2, false_or]
      split_ifs <;> simp

theorem mapFind_eq_none_iff {K V : Type} [DecidableEq K] (m : List (K × V)) (k : K) :
    mapFind m k = none ↔ k ∉ m.map Prod.fst := by
  induction m with
  | nil => simp [mapFind]
  | cons entry rest ih =>
    by_cases h : entry.1 = k
    · simp [mapFind, h]
    · have h2 : ¬ k = entry.1 := fun h3 => h h3.symm
      simp [mapFind, h, h2, ih]

theorem mapFind_mem {K V : Type} [DecidableEq K] (m : List (K × V)) (k : K) (v : V)
    (h : mapFind m k = some v) : (k, v) ∈ m := by
  induction m with
  | nil => simp [mapFind] at h
  | cons entry rest ih =>
    by_cases hk : entry.1 = k
    · simp only [mapFind, if_pos hk, Option.some.injEq] at h
      rw [← hk, ← h]
      exact List.mem_cons_self _ _
    · simp only [mapFind, if_neg hk] at h
      exact List.mem_cons_of_mem _ (ih h)

theorem mem_mapAssign {K V : Type} [DecidableEq K] (m : List (K × V)) (k : K) (v : V)
    (entry : K × V) (h : entry ∈ mapAssign m k v) : entry = (k, v) ∨ entry ∈ m := by
  induction m with
  | nil => simpa [mapAssign] using h
  | cons first rest ih =>
    by_cases hk : first.1 = k
    · simp only [mapAssign, if_pos hk, List.mem_cons] at h
      rcases h with h | h
      · exact Or.inl h
      · exact Or.inr (List.mem_cons_of_mem _ h)
    · simp only [mapAssign, if_neg hk, List.mem_cons] at h
      rcases h with h | h
      · exact Or.inr (by rw [h]; exact List.mem_cons_self _ _)
      · rcases ih h with h2 | h2
        · exact Or.inl h2
        · exact Or.inr (List.mem_cons_of_mem _ h2)

theorem mapIndex_of_found {K V : Type} [DecidableEq K] (m : List (K × V)) (k : K) (d v : V)
    (h : mapFind m k = some v) : mapIndex m k d = (v, m) := by
  simp [mapIndex, h]

end Apollo

namespace Apollo.ColorReviser

/-! # ColorReviser: the memory invariant -/

theorem ReviseLight_config (self : ColorReviser) (ts : ℚ) (light : Light) :
    (ReviseLight self ts light).1.enable = self.enable ∧
      (ReviseLight self ts light).1.blink_time = self.blink_time := by
  simp only [ReviseLight, Remember, mapIndex]
  repeat' split
  all_goals exact ⟨rfl, rfl⟩

theorem ReviseLoop_config (ts : ℚ) (self : ColorReviser) (lights : List Light) :
    (ReviseLoop ts self lights).1.enable = self.enable ∧
      (ReviseLoop ts self lights).1.blink_time = self.blink_time := by
  induction lights generalizing self with
  | nil => exact ⟨rfl, rfl⟩
  | cons light rest ih =>
    simp only [ReviseLoop]
    rw [(ih _).1, (ih _).2]
    exact ReviseLight_config self ts light

theorem Revise_config (self : ColorReviser) (ts : ℚ) (lights : List Light) :
    (Revise self ts lights).2.1.enable = self.enable ∧
      (Revise self ts lights).2.1.blink_time = self.blink_time := by
  unfold Revise
  split
  · exact ⟨rfl, rfl⟩
  · exact ReviseLoop_config ts self lights

theorem ReviseAll_config (self : ColorReviser) (frames : List (ℚ × List Light)) :
    (ReviseAll self frames).1.enable = self.enable ∧
      (ReviseAll self frames).1.blink_time = self.blink_time := by
  induction frames generalizing self with
  | nil => exact ⟨rfl, rfl⟩
  | cons frame rest ih =>
    simp only [ReviseAll]
    rw [(ih _).1, (ih _).2]
    exact Revise_config self frame.1 frame.2

theorem MemoryInvariant_empty (self : ColorReviser) (hcolor : self.color_map_ = [])
    (htime : self.time_map_ = []) : MemoryInvariant self := by
  simp [MemoryInvariant, hcolor, htime]

theorem MemoryInvariant_assign (self : ColorReviser) (k : String) (c : TLColor) (t : ℚ)
    (h : MemoryInvariant self)
    (hc : c = TLColor.RED ∨ c = TLColor.GREEN ∨ c = TLColor.YELLOW)
    (hroom : self.color_map_.length ≤ 10 ∨ k ∈ self.color_map_.map Prod.fst) :
    MemoryInvariant { self with
      color_map_ := mapAssign self.color_map_ k c
      time_map_ := mapAssign self.time_map_ k t } := by
  obtain ⟨hkeys, hnodup, hlen, hcolors⟩ := h
  have hlen2 : ∀ keys : List String, keys.length ≤ 11 → (keys.length ≤ 10 ∨ k ∈ keys) →
      (if k ∈ keys then keys else keys ++ [k]).length ≤ 11 := by
    intro keys h11 hor
    split_ifs with hk
    · exact h11
    · rcases hor with h10 | hmem
      · simp only [List.length_append, List.length_singleton]; omega
      · exact absurd hmem hk
  refine ⟨?_, ?_, ?_, ?_⟩
  · show (mapAssign self.color_map_ k c).map Prod.fst =
      (mapAssign self.time_map_ k t).map Prod.fst
    rw [mapAssign_keys, mapAssign_keys, hkeys]
  · show ((mapAssign self.color_map_ k c).map Prod.fst).Nodup
    rw [mapAssign_keys]
    split_ifs with hk
    · exact hnodup
    · exact List.Nodup.append hnodup (List.nodup_singleton k)
        (by
          intro a ha hb
          rw [List.mem_singleton] at hb
          exact hk (hb ▸ ha))
  · show (mapAssign self.color_map_ k c).length ≤ 11
    have h1 := hlen2 (self.color_map_.map Prod.fst) (by simpa using hlen) (by simpa using hroom)
    rw [← mapAssign_keys self.color_map_ k c] at h1
    simpa using h1
  · intro entry hentry
    rcases mem_mapAssign self.color_map_ k c entry hentry with hnew | hold
    · rw [hnew]; exact hc
    · exact hcolors entry hold

theorem MemoryInvariant_Remember (self : ColorReviser) (ts : ℚ) (light : Light)
    (h : MemoryInvariant self)
    (hc : light.color = TLColor.RED ∨ light.color = TLColor.GREEN ∨
      light.color = TLColor.YELLOW) :
    MemoryInvariant (Remember self ts light).1 := by
  unfold Remember
  by_cases hfull : self.time_map_.length > 10
  · simp only [hfull, if_true]
    exact MemoryInvariant_assign { self with color_map_ := [], time_map_ := [] } light.id
      light.color ts (by simp [MemoryInvariant]) hc (Or.inl (by simp))
  · simp only [hfull, if_false]
    refine MemoryInvariant_assign self light.id light.color ts h hc (Or.inl ?_)
    have hlen : self.color_map_.length = self.time_map_.length := by
      have := congrArg List.length h.1
      simpa using this
    omega

theorem mapFind_time_of_color (self : ColorReviser) (id : String) (c : TLColor)
    (h : MemoryInvariant self) (hfound : mapFind self.color_map_ id = some c) :
    ∃ t, mapFind self.time_map_ id = some t := by
  have hkey : id ∈ self.color_map_.map Prod.fst := by
    by_contra hnot
    rw [← mapFind_eq_none_iff, hfound] at hnot
    exact Option.noConfusion hnot
  rw [h.1] at hkey
  cases hfind : mapFind self.time_map_ id with
  | none => exact absurd hkey ((mapFind_eq_none_iff _ _).1 hfind)
  | some t => exact ⟨t, rfl⟩

theorem mapFind_color_of_time (self : ColorReviser) (id : String) (t : ℚ)
    (h : MemoryInvariant self) (hfound : mapFind self.time_map_ id = some t) :
    ∃ c, mapFind self.color_map_ id = some c := by
  have hkey : id ∈ self.time_map_.map Prod.fst := by
    by_contra hnot
    rw [← mapFind_eq_none_iff, hfound] at hnot
    exact Option.noConfusion hnot
  rw [← h.1] at hkey
  cases hfind : mapFind self.color_map_ id with
  | none => exact absurd hkey ((mapFind_eq_none_iff _ _).1 hfind)
  | some c => exact ⟨c, rfl⟩

theorem ReviseLight_dark_found (self : ColorReviser) (ts : ℚ) (light : Light)
    (c : TLColor) (t : ℚ)
    (hdark : light.color = TLColor.BLACK ∨ light.color = TLColor.UNKNOWN_COLOR)
    (hc : mapFind self.color_map_ light.id = some c)
    (ht : mapFind self.time_map_ light.id = some t) :
    ReviseLight self ts light =
      (self, if 0 < ts ∧ ts - t < self.blink_time then { light with color := c }
        else light) := by
  have hread := mapIndex_of_found self.time_map_ light.id 0 t ht
  rcases hdark with hcol | hcol
  all_goals
    simp only [ReviseLight, hcol, hc, hread, gt_iff_lt]
    by_cases hts : 0 < ts
    · by_cases hblink : ts - t < self.blink_time
      · simp only [hts, hblink, if_true, and_self]
      · simp only [hts, hblink, if_true, if_false, and_false]
    · simp only [hts, if_false, false_and]

theorem ReviseLight_dark_missing (self : ColorReviser) (ts : ℚ) (light : Light)
    (hdark : light.color = TLColor.BLACK ∨ light.color = TLColor.UNKNOWN_COLOR)
    (hc : mapFind self.color_map_ light.id = none) :
    ReviseLight self ts light = (self, light) := by
  rcases hdark with hcol | hcol
  all_goals simp only [ReviseLight, hcol, hc]

theorem MemoryInvariant_ReviseLight (self : ColorReviser) (ts : ℚ) (light : Light)
    (h : MemoryInvariant self) : MemoryInvariant (ReviseLight self ts light).1 := by
  cases hcol : light.color with
  | RED =>
    have hstep : ReviseLight self ts light = Remember self ts light := by
      simp only [ReviseLight, hcol]
    rw [hstep]
    exact MemoryInvariant_Remember self ts light h (Or.inl hcol)
  | GREEN =>
    have hstep : ReviseLight self ts light = Remember self ts light := by
      simp only [ReviseLight, hcol]
    rw [hstep]
    exact MemoryInvariant_Remember self ts light h (Or.inr (Or.inl hcol))
  | YELLOW =>
    have hrem := MemoryInvariant_Remember self ts light h (Or.inr (Or.inr hcol))
    by_cases hred : mapFind self.color_map_ light.id = some TLColor.RED
    · by_cases hts : 0 < ts
      · rw [ReviseLight_yellow_after_red self ts light hts hcol hred]
        refine MemoryInvariant_assign self light.id TLColor.RED ts h (Or.inl rfl) (Or.inr ?_)
        by_contra hnot
        rw [← mapFind_eq_none_iff, hred] at hnot
        exact Option.noConfusion hnot
      · have hstep : ReviseLight self ts light = Remember self ts light := by
          simp only [ReviseLight, hcol, hred, gt_iff_lt, hts, if_false]
        rw [hstep]
        exact hrem
    · have hstep : ReviseLight self ts light = Remember self ts light := by
        simp only [ReviseLight, hcol]
      rw [hstep]
      exact hrem
  | BLACK =>
    cases hfind : mapFind self.color_map_ light.id with
    | none => rw [ReviseLight_dark_missing self ts light (Or.inl hcol) hfind]; exact h
    | some c =>
      obtain ⟨t, ht⟩ := mapFind_time_of_color self light.id c h hfind
      rw [ReviseLight_dark_found self ts light c t (Or.inl hcol) hfind ht]
      exact h
  | UNKNOWN_COLOR =>
    cases hfind : mapFind self.color_map_ light.id with
    | none => rw [ReviseLight_dark_missing self ts light (Or.inr hcol) hfind]; exact h
    | some c =>
      obtain ⟨t, ht⟩ := mapFind_time_of_color self light.id c h hfind
      rw [ReviseLight_dark_found self ts light c t (Or.inr hcol) hfind ht]
      exact h

theorem MemoryInvariant_ReviseLoop (ts : ℚ) (self : ColorReviser) (lights : List Light)
    (h : MemoryInvariant self) : MemoryInvariant (ReviseLoop ts self lights).1 := by
  induction lights generalizing self with
  | nil => exact h
  | cons light rest ih =>
    simp only [ReviseLoop]
    exact ih _ (MemoryInvariant_ReviseLight self ts light h)

theorem MemoryInvariant_Revise (self : ColorReviser) (ts : ℚ) (lights : List Light)
    (h : MemoryInvariant self) : MemoryInvariant (Revise self ts lights).2.1 := by
  unfold Revise
  split
  · exact h
  · exact MemoryInvariant_ReviseLoop ts self lights h

theorem MemoryInvariant_ReviseAll (self : ColorReviser) (frames : List (ℚ × List Light))
    (h : MemoryInvariant self) : MemoryInvariant (ReviseAll self frames).1 := by
  induction frames generalizing self with
  | nil => exact h
  | cons frame rest ih =>
    simp only [ReviseAll]
    exact ih _ (MemoryInvariant_Revise self frame.1 frame.2 h)

theorem MemoryInvariant_color (self : ColorReviser) (id : String) (c : TLColor)
    (h : MemoryInvariant self) (hfound : mapFind self.color_map_ id = some c) :
    c = TLColor.RED ∨ c = TLColor.GREEN ∨ c = TLColor.YELLOW :=
  h.2.2.2 (id, c) (mapFind_mem _ _ _ hfound)

theorem ReviseLight_dark_cases (self : ColorReviser) (ts : ℚ) (light : Light)
    (h : MemoryInvariant self)
    (hdark : light.color = TLColor.BLACK ∨ light.color = TLColor.UNKNOWN_COLOR) :
    (ReviseLight self ts light).1 = self ∧
      ((∃ c t, mapFind self.color_map_ light.id = some c ∧
          mapFind self.time_map_ light.id = some t ∧ 0 < ts ∧ ts - t < self.blink_time ∧
          (ReviseLight self ts light).2 = { light with color := c } ∧ c ≠ light.color) ∨
        (¬ (∃ c t, mapFind self.color_map_ light.id = some c ∧
            mapFind self.time_map_ light.id = some t ∧ 0 < ts ∧ ts - t < self.blink_time) ∧
          (ReviseLight self ts light).2 = light)) := by
  cases hfind : mapFind self.color_map_ light.id with
  | none =>
    rw [ReviseLight_dark_missing self ts light hdark hfind]
    refine ⟨rfl, Or.inr ⟨?_, rfl⟩⟩
    rintro ⟨c, t, hc, -⟩
    exact Option.noConfusion hc
  | some c =>
    obtain ⟨t, ht⟩ := mapFind_time_of_color self light.id c h hfind
    have hrgy := MemoryInvariant_color self light.id c h hfind
    rw [ReviseLight_dark_found self ts light c t hdark hfind ht]
    refine ⟨rfl, ?_⟩
    by_cases hcond : 0 < ts ∧ ts - t < self.blink_time
    · refine Or.inl ⟨c, t, rfl, ht, hcond.1, hcond.2, ?_, ?_⟩
      · simp only [hcond, and_self, if_true]
      · intro hsame
        rw [← hsame] at hdark
        rcases hrgy with h1 | h1 | h1 <;> rcases hdark with h2 | h2 <;>
          · rw [h1] at h2
            exact TLColor.noConfusion h2
    · refine Or.inr ⟨?_, ?_⟩
      · rintro ⟨c2, t2, -, ht2, hpos, hblink⟩
        rw [ht] at ht2
        have heq : t = t2 := Option.some.inj ht2
        rw [← heq] at hblink
        exact hcond ⟨hpos, hblink⟩
      · simp only [hcond, if_false]

theorem ReviseLight_changed_color (self : ColorReviser) (ts : ℚ) (light : Light)
    (h : MemoryInvariant self) (hchanged : (ReviseLight self ts light).2 ≠ light) :
    (ReviseLight self ts light).2.color = TLColor.RED ∨
      (ReviseLight self ts light).2.color = TLColor.GREEN ∨
      (ReviseLight self ts light).2.color = TLColor.YELLOW := by
  have hremember : (Remember self ts light).2 = light := rfl
  cases hcol : light.color with
  | RED =>
    have hstep : ReviseLight self ts light = Remember self ts light := by
      simp only [ReviseLight, hcol]
    rw [hstep, hremember] at hchanged
    exact absurd rfl hchanged
  | GREEN =>
    have hstep : ReviseLight self ts light = Remember self ts light := by
      simp only [ReviseLight, hcol]
    rw [hstep, hremember] at hchanged
    exact absurd rfl hchanged
  | YELLOW =>
    by_cases hred : mapFind self.color_map_ light.id = some TLColor.RED
    · by_cases hts : 0 < ts
      · rw [ReviseLight_yellow_after_red self ts light hts hcol hred]
        exact Or.inl rfl
      · have hstep : ReviseLight self ts light = Remember self ts light := by
          simp only [ReviseLight, hcol, hred, gt_iff_lt, hts, if_false]
        rw [hstep, hremember] at hchanged
        exact absurd rfl hchanged
    · have hstep : ReviseLight self ts light = Remember self ts light := by
        simp only [ReviseLight, hcol]
      rw [hstep, hremember] at hchanged
      exact absurd rfl hchanged
  | BLACK =>
    rcases (ReviseLight_dark_cases self ts light h (Or.inl hcol)).2 with
      ⟨c, t, hc, -, -, -, hout, -⟩ | ⟨-, hout⟩
    · rw [hout]
      exact MemoryInvariant_color self light.id c h hc
    · exact absurd hout hchanged
  | UNKNOWN_COLOR =>
    rcases (ReviseLight_dark_cases self ts light h (Or.inr hcol)).2 with
      ⟨c, t, hc, -, -, -, hout, -⟩ | ⟨-, hout⟩
    · rw [hout]
      exact MemoryInvariant_color self light.id c h hc
    · exact absurd hout hchanged

theorem MemoryInvariant_reachable (init : ColorReviser) (frames : List (ℚ × List Light))
    (ts : ℚ) (before : List Light) (hcolor : init.color_map_ = [])
    (htime : init.time_map_ = []) :
    MemoryInvariant (ReviseLoop ts (ReviseAll init frames).1 before).1 :=
  MemoryInvariant_ReviseLoop ts _ before
    (MemoryInvariant_ReviseAll init frames (MemoryInvariant_empty init hcolor htime))

theorem ReviseAll_sampleLightFrames :
    (ReviseAll sampleEmptyReviser sampleLightFrames).1 = sampleRevisedMemory := by
  have hab : ("a" : String) ≠ "b" := by decide
  simp only [sampleRevisedMemory, sampleEmptyReviser, sampleLightFrames, ReviseAll,
    Revise, ReviseLoop, ReviseLight, Remember, mapFind, mapAssign, mapIndex]
  norm_num [mapAssign, hab]

/-! # ColorReviser: BLACK and UNKNOWN_COLOR detections -/

/-- C24: with the reviser enabled, let start be a state reached from the
empty memory by Revise calls and self the state in which the loop of a
further Revise call with timestamp ts reaches a light detected BLACK or
UNKNOWN_COLOR. The light reported at that position differs in colour from
the detection if and only if its id has a remembered colour and a remembered
time t with 0 < ts and ts - t < blink_time; in that case it is the detected
light with the remembered colour, otherwise it is the light as detected; and
handling the light leaves the reviser, hence both memories, as it was. -/
theorem C24_dark_light_revised_iff_recently_remembered (init start self : ColorReviser)
    (frames : List (ℚ × List Light)) (ts : ℚ) (before after : List Light) (light : Light)
    (hcolor : init.color_map_ = []) (htime : init.time_map_ = [])
    (henable : init.enable ≠ 0)
    (hstart : start = (ReviseAll init frames).1)
    (hself : self = (ReviseLoop ts start before).1)
    (hdark : light.color = TLColor.BLACK ∨ light.color = TLColor.UNKNOWN_COLOR) :
    ∃ out,
      (Revise start ts (before ++ light :: after)).2.2[before.length]? = some out ∧
      (ReviseLoop ts start (before ++ [light])).1 = self ∧
      (out.color ≠ light.color ↔
        ∃ c t, mapFind self.color_map_ light.id = some c ∧
          mapFind self.time_map_ light.id = some t ∧ 0 < ts ∧ ts - t < self.blink_time) ∧
      ((∃ c t, mapFind self.color_map_ light.id = some c ∧
          mapFind self.time_map_ light.id = some t ∧ 0 < ts ∧ ts - t < self.blink_time) →
        ∃ c, mapFind self.color_map_ light.id = some c ∧
          out = { light with color := c }) ∧
      (¬ (∃ c t, mapFind self.color_map_ light.id = some c ∧
          mapFind self.time_map_ light.id = some t ∧ 0 < ts ∧ ts - t < self.blink_time) →
        out = light) := by
  subst hstart
  subst hself
  have hinv := MemoryInvariant_reachable init frames ts before hcolor htime
  have hon : (ReviseAll init frames).1.enable ≠ 0 := by
    rw [(ReviseAll_config init frames).1]
    exact henable
  have hlen := ReviseLoop_length ts (ReviseAll init frames).1 before
  have hcases := ReviseLight_dark_cases (ReviseLoop ts (ReviseAll init frames).1 before).1
    ts light hinv hdark
  refine ⟨(ReviseLight (ReviseLoop ts (ReviseAll init frames).1 before).1 ts light).2,
    ?_, ?_, ?_, ?_, ?_⟩
  · simp only [Revise, if_neg hon, ReviseLoop_append, ReviseLoop]
    rw [List.getElem?_append_right (by omega)]
    simp [hlen]
  · simp only [ReviseLoop_append, ReviseLoop]
    exact hcases.1
  · rcases hcases.2 with ⟨c, t, hc, ht, hpos, hblink, hout, hne⟩ | ⟨hnot, hout⟩
    · constructor
      · intro _
        exact ⟨c, t, hc, ht, hpos, hblink⟩
      · intro _
        rw [hout]
        exact hne
    · constructor
      · intro hdiff
        rw [hout] at hdiff
        exact absurd rfl hdiff
      · intro hcond
        exact absurd hcond hnot
  · intro hcond
    rcases hcases.2 with ⟨c, t, hc, ht, hpos, hblink, hout, hne⟩ | ⟨hnot, hout⟩
    · exact ⟨c, hc, hout⟩
    · exact absurd hcond hnot
  · intro hnotcond
    rcases hcases.2 with ⟨c, t, hc, ht, hpos, hblink, hout, hne⟩ | ⟨hnot, hout⟩
    · exact absurd ⟨c, t, hc, ht, hpos, hblink⟩ hnotcond
    · exact hout

/-- C24 on the sample reviser after the sample calls (GREEN for light a since
time 1, RED for light b since time 2, blink time 3/2): in a call at time 5/2
light a detected UNKNOWN_COLOR is reached first and light b detected BLACK
second; light b is reported RED, and the reviser is the same after light b as
before it. -/
theorem C24_dark_light_witness :
    (Revise sampleRevisedMemory (5 / 2)
        ([{ id := "a", color := TLColor.UNKNOWN_COLOR }] ++
          { id := "b", color := TLColor.BLACK } :: [])).2.2[1]? =
        some { id := "b", color := TLColor.RED } ∧
      (ReviseLoop (5 / 2) sampleRevisedMemory
        ([{ id := "a", color := TLColor.UNKNOWN_COLOR }] ++
          [{ id := "b", color := TLColor.BLACK }])).1 = sampleRevisedMemory := by
  obtain ⟨out, hget, hstate, -, hrevised, -⟩ :=
    C24_dark_light_revised_iff_recently_remembered sampleEmptyReviser sampleRevisedMemory
      sampleRevisedMemory sampleLightFrames (5 / 2)
      [{ id := "a", color := TLColor.UNKNOWN_COLOR }] []
      { id := "b", color := TLColor.BLACK } rfl rfl (by decide)
      ReviseAll_sampleLightFrames.symm
      (by
        simp only [sampleRevisedMemory, ReviseLoop, ReviseLight, mapFind, mapIndex]
        norm_num)
      (Or.inl rfl)
  obtain ⟨c, hc, hout⟩ := hrevised ⟨TLColor.RED, 2, by decide, by decide, by norm_num,
    by norm_num [sampleRevisedMemory]⟩
  have hred : c = TLColor.RED := by
    have hfound : mapFind sampleRevisedMemory.color_map_ "b" = some TLColor.RED := by decide
    exact (Option.some.inj (hfound.symm.trans hc)).symm
  rw [hred] at hout
  rw [hout] at hget
  exact ⟨hget, hstate⟩

/-! # ColorReviser: what every reachable memory satisfies -/

/-- C25: let self be a state reached from the empty memory by Revise calls
(frames), possibly followed by the part of the loop of a further call that
has handled the lights before. Then an id has a remembered colour exactly
when it has a remembered time; no id is stored twice and each memory holds
at most 11 ids; every remembered colour is RED, GREEN or YELLOW; and
whenever handling a light in that state reports something other than the
detection, the reported colour is RED, GREEN or YELLOW, so a light reported
BLACK or UNKNOWN_COLOR is an unrevised one. -/
theorem C25_reachable_memory_invariant (init self : ColorReviser)
    (frames : List (ℚ × List Light)) (ts : ℚ) (before : List Light)
    (hcolor : init.color_map_ = []) (htime : init.time_map_ = [])
    (hself : self = (ReviseLoop ts (ReviseAll init frames).1 before).1) :
    (∀ id, (∃ c, mapFind self.color_map_ id = some c) ↔
        ∃ t, mapFind self.time_map_ id = some t) ∧
      self.color_map_.map Prod.fst = self.time_map_.map Prod.fst ∧
      (self.color_map_.map Prod.fst).Nodup ∧
      self.color_map_.length ≤ 11 ∧ self.time_map_.length ≤ 11 ∧
      (∀ id c, mapFind self.color_map_ id = some c →
        c = TLColor.RED ∨ c = TLColor.GREEN ∨ c = TLColor.YELLOW) ∧
      (∀ entry ∈ self.color_map_,
        entry.2 ≠ TLColor.BLACK ∧ entry.2 ≠ TLColor.UNKNOWN_COLOR) ∧
      (∀ stamp light, (ReviseLight self stamp light).2 ≠ light →
        (ReviseLight self stamp light).2.color ≠ TLColor.BLACK ∧
          (ReviseLight self stamp light).2.color ≠ TLColor.UNKNOWN_COLOR) := by
  subst hself
  have hinv := MemoryInvariant_reachable init frames ts before hcolor htime
  have hrgy : ∀ c : TLColor, (c = TLColor.RED ∨ c = TLColor.GREEN ∨ c = TLColor.YELLOW) →
      c ≠ TLColor.BLACK ∧ c ≠ TLColor.UNKNOWN_COLOR := by
    intro c hc
    rcases hc with h | h | h <;> rw [h] <;> exact ⟨by decide, by decide⟩
  refine ⟨?_, hinv.1, hinv.2.1, hinv.2.2.1, ?_, ?_, ?_, ?_⟩
  · intro id
    constructor
    · rintro ⟨c, hc⟩
      exact mapFind_time_of_color _ id c hinv hc
    · rintro ⟨t, ht⟩
      exact mapFind_color_of_time _ id t hinv ht
  · have hlen := congrArg List.length hinv.1
    simp only [List.length_map] at hlen
    rw [← hlen]
    exact hinv.2.2.1
  · intro id c hc
    exact MemoryInvariant_color _ id c hinv hc
  · intro entry hentry
    exact hrgy _ (hinv.2.2.2 entry hentry)
  · intro stamp light hchanged
    exact hrgy _ (ReviseLight_changed_color _ stamp light hinv hchanged)

/-- C25 on the sample reviser: after the sample calls from the empty memory
it remembers GREEN for light a and RED for light b, two ids in each memory,
and light a has both a remembered colour and a remembered time. -/
theorem C25_reachable_memory_witness :
    ((∃ c, mapFind sampleRevisedMemory.color_map_ "a" = some c) ↔
        ∃ t, mapFind sampleRevisedMemory.time_map_ "a" = some t) ∧
      sampleRevisedMemory.color_map_.length ≤ 11 ∧
      ∀ entry ∈ sampleRevisedMemory.color_map_,
        entry.2 ≠ TLColor.BLACK ∧ entry.2 ≠ TLColor.UNKNOWN_COLOR :=
  have h := C25_reachable_memory_invariant sampleEmptyReviser sampleRevisedMemory
    sampleLightFrames 3 [] rfl rfl
    ReviseAll_sampleLightFrames.symm
  ⟨h.1 "a", h.2.2.2.1, h.2.2.2.2.2.2.1⟩

end Apollo.ColorReviser

namespace Apollo.HmObjectTracker

variable {W : Type}

/-! ## What the update passes leave in the collection -/

theorem UpdateAssignedTracks_other_object (env : Collaborators W) (time_diff : ℚ)
    (assignments : List (Int × Int)) (tracks tracks1 : List ObjectTrack)
    (objs objs1 : List TrackedObject) (calls : List Call) (j : Int)
    (h : UpdateAssignedTracks env time_diff assignments tracks objs =
      some (tracks1, objs1, calls))
    (hj : j ∉ assignments.map Prod.snd) : at? objs1 j = at? objs j := by
  induction assignments generalizing tracks objs calls with
  | nil =>
    simp only [UpdateAssignedTracks, Option.some.injEq, Prod.mk.injEq] at h
    rw [← h.2.1]
  | cons a rest ih =>
    simp only [List.map_cons, List.mem_cons, not_or] at hj
    simp only [UpdateAssignedTracks] at h
    split at h
    · rename_i track obj htrack hobj
      split at h
      · rename_i heq
        simp only [Option.some.injEq, Prod.mk.injEq] at h
        obtain ⟨rfl, rfl, rfl⟩ := h
        rw [ih _ _ _ heq hj.2]
        exact at?_setAt_ne objs a.2 j _ obj hobj (fun hEq => hj.1 hEq.symm)
      · cases h
    · cases h

theorem not_mem_of_count_cons_self {α : Type} [DecidableEq α] (a : α) (rest : List α)
    (h : (a :: rest).count a = 1) : a ∉ rest := by
  intro hmem
  have := List.count_pos_iff.2 hmem
  simp only [List.count_cons_self] at h
  omega

theorem count_tail_of_mem {α : Type} [DecidableEq α] (a b : α) (rest : List α)
    (h : (b :: rest).count a = 1) (hmem : a ∈ rest) : b ≠ a ∧ rest.count a = 1 := by
  have hpos := List.count_pos_iff.2 hmem
  by_cases hba : b = a
  · subst hba
    simp only [List.count_cons_self] at h
    omega
  · rw [List.count_cons_of_ne (fun hEq => hba hEq.symm)] at h
    exact ⟨hba, h⟩

theorem UpdateAssignedTracks_once (env : Collaborators W) (time_diff : ℚ)
    (assignments : List (Int × Int)) (tracks tracks1 : List ObjectTrack)
    (objs objs1 : List TrackedObject) (calls : List Call) (a : Int × Int)
    (track : ObjectTrack) (obj : TrackedObject)
    (h : UpdateAssignedTracks env time_diff assignments tracks objs =
      some (tracks1, objs1, calls))
    (ha : a ∈ assignments)
    (hfst : (assignments.map Prod.fst).count a.1 = 1)
    (hsnd : (assignments.map Prod.snd).count a.2 = 1)
    (htrack : at? tracks a.1 = some track) (hobj : at? objs a.2 = some obj) :
    at? tracks1 a.1 = some (env.UpdateWithObject track obj time_diff).1 ∧
      at? objs1 a.2 = some (env.UpdateWithObject track obj time_diff).2 := by
  induction assignments generalizing tracks objs calls with
  | nil => simp at ha
  | cons b rest ih =>
    simp only [UpdateAssignedTracks] at h
    split at h
    · rename_i track0 obj0 htrack0 hobj0
      split at h
      · rename_i heq
        simp only [Option.some.injEq, Prod.mk.injEq] at h
        obtain ⟨rfl, rfl, rfl⟩ := h
        simp only [List.map_cons] at hfst hsnd
        by_cases hmem : a ∈ rest
        · obtain ⟨hne1, hc1⟩ := count_tail_of_mem a.1 b.1 (rest.map Prod.fst) hfst
            (List.mem_map_of_mem _ hmem)
          obtain ⟨hne2, hc2⟩ := count_tail_of_mem a.2 b.2 (rest.map Prod.snd) hsnd
            (List.mem_map_of_mem _ hmem)
          refine ih _ _ _ heq hmem hc1 hc2 ?_ ?_
          · rw [at?_setAt_ne tracks b.1 a.1 _ track0 htrack0 hne1]
            exact htrack
          · rw [at?_setAt_ne objs b.2 a.2 _ obj0 hobj0 hne2]
            exact hobj
        · have hab : a = b := by
            rcases List.mem_cons.1 ha with h1 | h1
            · exact h1
            · exact absurd h1 hmem
          subst hab
          have hn1 := not_mem_of_count_cons_self a.1 (rest.map Prod.fst) hfst
          have hn2 := not_mem_of_count_cons_self a.2 (rest.map Prod.snd) hsnd
          rw [htrack] at htrack0
          rw [hobj] at hobj0
          cases htrack0
          cases hobj0
          rw [UpdateAssignedTracks_other env _ _ _ _ _ _ _ a.1 heq hn1,
            UpdateAssignedTracks_other_object env _ _ _ _ _ _ _ a.2 heq hn2]
          exact ⟨at?_setAt_same tracks a.1 _ track htrack,
            at?_setAt_same objs a.2 _ obj hobj⟩
      · cases h
    · cases h

theorem CreateNewTracks_eq (env : Collaborators W) (new_objects : List TrackedObject)
    (unassigned : List Int) (tracks tracks1 : List ObjectTrack) (static static1 : W)
    (calls : List Call)
    (h : CreateNewTracks env new_objects unassigned tracks static =
      some (tracks1, static1, calls)) :
    tracks1 = tracks ++
        (TracksFrom env static (unassigned.filterMap (fun j => at? new_objects j))).1 ∧
      static1 = (TracksFrom env static (unassigned.filterMap (fun j => at? new_objects j))).2 ∧
      (unassigned.filterMap (fun j => at? new_objects j)).length = unassigned.length := by
  induction unassigned generalizing tracks static calls with
  | nil =>
    simp only [CreateNewTracks, Option.some.injEq, Prod.mk.injEq] at h
    obtain ⟨rfl, rfl, rfl⟩ := h
    simp [TracksFrom]
  | cons a rest ih =>
    simp only [CreateNewTracks] at h
    split at h
    · split at h
      · rename_i obj hobj _ _ _ _ heq
        simp only [Option.some.injEq, Prod.mk.injEq] at h
        obtain ⟨rfl, rfl, rfl⟩ := h
        obtain ⟨h1, h2, h3⟩ := ih _ _ _ heq
        simp only [List.filterMap_cons, hobj, TracksFrom, List.length_cons, h3]
        refine ⟨?_, h2, trivial⟩
        rw [h1]
        simp [AddTrack]
      · cases h
    · cases h

/-! ## The estimator is only asked at the frame's time delta -/

theorem UpdateAssignedTracks_congr (env : Collaborators W)
    (Predict2 : ObjectTrack → ℚ → List ℚ)
    (UpdateWithObject2 : ObjectTrack → TrackedObject → ℚ → ObjectTrack × TrackedObject)
    (UpdateWithoutObject2 : ObjectTrack → List ℚ → ℚ → ObjectTrack) (time_diff : ℚ)
    (hU : ∀ track obj, UpdateWithObject2 track obj time_diff =
      env.UpdateWithObject track obj time_diff)
    (assignments : List (Int × Int)) (tracks : List ObjectTrack) (objs : List TrackedObject) :
    UpdateAssignedTracks
        { env with
          Predict := Predict2, UpdateWithObject := UpdateWithObject2,
          UpdateWithoutObject := UpdateWithoutObject2 }
        time_diff assignments tracks objs =
      UpdateAssignedTracks env time_diff assignments tracks objs := by
  induction assignments generalizing tracks objs with
  | nil => rfl
  | cons a rest ih =>
    simp only [UpdateAssignedTracks, hU, ih]

theorem UpdateUnassignedTracks_congr (env : Collaborators W)
    (Predict2 : ObjectTrack → ℚ → List ℚ)
    (UpdateWithObject2 : ObjectTrack → TrackedObject → ℚ → ObjectTrack × TrackedObject)
    (UpdateWithoutObject2 : ObjectTrack → List ℚ → ℚ → ObjectTrack) (time_diff : ℚ)
    (hV : ∀ track predict, UpdateWithoutObject2 track predict time_diff =
      env.UpdateWithoutObject track predict time_diff)
    (tracks_predict : List (List ℚ)) (unassigned : List Int) (tracks : List ObjectTrack) :
    UpdateUnassignedTracks
        { env with
          Predict := Predict2, UpdateWithObject := UpdateWithObject2,
          UpdateWithoutObject := UpdateWithoutObject2 }
        tracks_predict time_diff unassigned tracks =
      UpdateUnassignedTracks env tracks_predict time_diff unassigned tracks := by
  induction unassigned generalizing tracks with
  | nil => rfl
  | cons a rest ih =>
    simp only [UpdateUnassignedTracks, hV, ih]

theorem ComputeTracksPredict_congr (env : Collaborators W)
    (Predict2 : ObjectTrack → ℚ → List ℚ)
    (UpdateWithObject2 : ObjectTrack → TrackedObject → ℚ → ObjectTrack × TrackedObject)
    (UpdateWithoutObject2 : ObjectTrack → List ℚ → ℚ → ObjectTrack) (time_diff : ℚ)
    (hP : ∀ track, Predict2 track time_diff = env.Predict track time_diff)
    (self : HmObjectTracker W) :
    ComputeTracksPredict
        { env with
          Predict := Predict2, UpdateWithObject := UpdateWithObject2,
          UpdateWithoutObject := UpdateWithoutObject2 }
        self time_diff =
      ComputeTracksPredict env self time_diff := by
  simp only [ComputeTracksPredict, hP]

theorem ConstructTrackedObjects_congr (env : Collaborators W)
    (Predict2 : ObjectTrack → ℚ → List ℚ)
    (UpdateWithObject2 : ObjectTrack → TrackedObject → ℚ → ObjectTrack × TrackedObject)
    (UpdateWithoutObject2 : ObjectTrack → List ℚ → ℚ → ObjectTrack)
    (self : HmObjectTracker W) (objects : List Object) (pose : Matrix4d)
    (options : TrackerOptions) :
    ConstructTrackedObjects
        { env with
          Predict := Predict2, UpdateWithObject := UpdateWithObject2,
          UpdateWithoutObject := UpdateWithoutObject2 }
        self objects pose options =
      ConstructTrackedObjects env self objects pose options := rfl

theorem CreateNewTracks_congr (env : Collaborators W)
    (Predict2 : ObjectTrack → ℚ → List ℚ)
    (UpdateWithObject2 : ObjectTrack → TrackedObject → ℚ → ObjectTrack × TrackedObject)
    (UpdateWithoutObject2 : ObjectTrack → List ℚ → ℚ → ObjectTrack)
    (new_objects : List TrackedObject) (unassigned : List Int) (tracks : List ObjectTrack)
    (static : W) :
    CreateNewTracks
        { env with
          Predict := Predict2, UpdateWithObject := UpdateWithObject2,
          UpdateWithoutObject := UpdateWithoutObject2 }
        new_objects unassigned tracks static =
      CreateNewTracks env new_objects unassigned tracks static := by
  induction unassigned generalizing tracks static with
  | nil => rfl
  | cons a rest ih =>
    simp only [CreateNewTracks, ih]

theorem CollectTrackedResults_congr (env : Collaborators W)
    (Predict2 : ObjectTrack → ℚ → List ℚ)
    (UpdateWithObject2 : ObjectTrack → TrackedObject → ℚ → ObjectTrack × TrackedObject)
    (UpdateWithoutObject2 : ObjectTrack → List ℚ → ℚ → ObjectTrack)
    (self : HmObjectTracker W) (out : List (Option Object)) :
    CollectTrackedResults
        { env with
          Predict := Predict2, UpdateWithObject := UpdateWithObject2,
          UpdateWithoutObject := UpdateWithoutObject2 }
        self out =
      CollectTrackedResults env self out := by
  rw [CollectTrackedResults_eq, CollectTrackedResults_eq]
  rfl

theorem Track_later_congr (env : Collaborators W)
    (Predict2 : ObjectTrack → ℚ → List ℚ)
    (UpdateWithObject2 : ObjectTrack → TrackedObject → ℚ → ObjectTrack × TrackedObject)
    (UpdateWithoutObject2 : ObjectTrack → List ℚ → ℚ → ObjectTrack)
    (self : HmObjectTracker W) (objects : List Object) (timestamp : ℚ)
    (options : TrackerOptions) (tracked_objects : Option (List (Option Object)))
    (hvalid : self.valid_ = true)
    (hP : ∀ track, Predict2 track (timestamp - self.time_stamp_) =
      env.Predict track (timestamp - self.time_stamp_))
    (hU : ∀ track obj, UpdateWithObject2 track obj (timestamp - self.time_stamp_) =
      env.UpdateWithObject track obj (timestamp - self.time_stamp_))
    (hV : ∀ track predict, UpdateWithoutObject2 track predict (timestamp - self.time_stamp_) =
      env.UpdateWithoutObject track predict (timestamp - self.time_stamp_)) :
    Track
        { env with
          Predict := Predict2, UpdateWithObject := UpdateWithObject2,
          UpdateWithoutObject := UpdateWithoutObject2 }
        self objects timestamp options tracked_objects =
      Track env self objects timestamp options tracked_objects := by
  have hnot : (!self.valid_) = false := by simp [hvalid]
  unfold Track
  simp only [hnot, Bool.false_eq_true, if_false,
    ConstructTrackedObjects_congr env Predict2 UpdateWithObject2 UpdateWithoutObject2,
    ComputeTracksPredict_congr env Predict2 UpdateWithObject2 UpdateWithoutObject2 _ hP,
    UpdateAssignedTracks_congr env Predict2 UpdateWithObject2 UpdateWithoutObject2 _ hU,
    UpdateUnassignedTracks_congr env Predict2 UpdateWithObject2 UpdateWithoutObject2 _ hV,
    CreateNewTracks_congr env Predict2 UpdateWithObject2 UpdateWithoutObject2,
    CollectTrackedResults_congr env Predict2 UpdateWithObject2 UpdateWithoutObject2,
    DeleteLostTracks]

/-! ## The collection after a later frame -/

theorem MatchOfFrame_eq (env : Collaborators W) (self : HmObjectTracker W)
    (objects : List Object) (timestamp : ℚ) (options : TrackerOptions) (pose : Matrix4d) :
    MatchOfFrame env self objects timestamp options pose =
      env.Match (ObjectsOfFrame env self objects timestamp options pose) self.object_tracks_
        (self.object_tracks_.map
          (fun track => env.Predict track (timestamp - self.time_stamp_))) := rfl

theorem Track_later_state (env : Collaborators W) (self : HmObjectTracker W)
    (objects : List Object) (timestamp : ℚ) (options : TrackerOptions)
    (tracked_objects : Option (List (Option Object))) (r : TrackResult W)
    (hvalid : self.valid_ = true)
    (hrun : Track env self objects timestamp options tracked_objects = some r)
    (hret : r.ret = true) :
    ∃ (pose : Matrix4d) (updated : List ObjectTrack) (objects1 : List TrackedObject),
      options.velodyne_trans = some pose ∧
      updated.length = self.object_tracks_.length ∧
      r.self.object_tracks_ = env.RemoveLostTracks updated ++
        (TracksFrom env self.track_static_
          ((MatchOfFrame env self objects timestamp options pose).unassigned_objects.filterMap
            (fun j => at? objects1 j))).1 ∧
      r.self.track_static_ =
        (TracksFrom env self.track_static_
          ((MatchOfFrame env self objects timestamp options pose).unassigned_objects.filterMap
            (fun j => at? objects1 j))).2 ∧
      ((MatchOfFrame env self objects timestamp options pose).unassigned_objects.filterMap
          (fun j => at? objects1 j)).length =
        (MatchOfFrame env self objects timestamp options pose).unassigned_objects.length ∧
      (∀ j : Int,
        j ∉ (MatchOfFrame env self objects timestamp options pose).assignments.map Prod.snd →
        at? objects1 j = at? (ObjectsOfFrame env self objects timestamp options pose) j) ∧
      (∀ a ∈ (MatchOfFrame env self objects timestamp options pose).assignments,
        ((MatchOfFrame env self objects timestamp options pose).assignments.map
          Prod.fst).count a.1 = 1 →
        ((MatchOfFrame env self objects timestamp options pose).assignments.map
          Prod.snd).count a.2 = 1 →
        a.1 ∉ (MatchOfFrame env self objects timestamp options pose).unassigned_tracks →
        ∀ (track : ObjectTrack) (obj : TrackedObject),
          at? self.object_tracks_ a.1 = some track →
          at? (ObjectsOfFrame env self objects timestamp options pose) a.2 = some obj →
          at? updated a.1 =
            some (env.UpdateWithObject track obj (timestamp - self.time_stamp_)).1) ∧
      (∀ (i : Int) (track : ObjectTrack),
        (MatchOfFrame env self objects timestamp options pose).unassigned_tracks.count i = 1 →
        i ∉ (MatchOfFrame env self objects timestamp options pose).assignments.map Prod.fst →
        at? self.object_tracks_ i = some track →
        at? updated i =
          some (env.UpdateWithoutObject track
            (env.Predict track (timestamp - self.time_stamp_))
            (timestamp - self.time_stamp_))) := by
  obtain ⟨out1, pose, matcher1, tracks1, objects1, calls1, tracks2, calls2, tracks3, static3,
    calls3, -, hpose, -, h1, h2, h3, hself, -, -⟩ :=
    Track_later_accepted env self objects timestamp _ _ r hvalid hrun hret
  obtain ⟨-, hl1, -⟩ := UpdateAssignedTracks_calls env _ _ _ _ _ _ _ h1
  obtain ⟨-, hl2⟩ := UpdateUnassignedTracks_calls env _ _ _ _ _ _ h2
  obtain ⟨hadd, hstatic, haddlen⟩ := CreateNewTracks_eq env _ _ _ _ _ _ _ h3
  refine ⟨pose, tracks2, objects1, hpose, by rw [hl2, hl1], ?_, ?_, haddlen, ?_, ?_, ?_⟩
  · rw [hself, hadd]
    rfl
  · rw [hself, hstatic]
    rfl
  · intro j hj
    exact UpdateAssignedTracks_other_object env _ _ _ _ _ _ _ j h1 hj
  · intro a ha hfst hsnd hnot track obj htrack hobj
    rw [UpdateUnassignedTracks_other env _ _ _ _ _ _ a.1 h2 hnot]
    exact (UpdateAssignedTracks_once env _ _ _ _ _ _ _ a track obj h1 ha hfst hsnd htrack
      hobj).1
  · intro i track hcount hnot htrack
    have hsame := UpdateAssignedTracks_other env _ _ _ _ _ _ _ i h1 hnot
    refine UpdateUnassignedTracks_once env _ _ _ _ _ _ i track _ h2 hcount
      (hsame.trans htrack) ?_
    simp only [ComputeTracksPredict, at?_map, htrack, Option.map_some']

/-! ## Time delta handed to the estimator -/

/-- C7: on every accepted later frame (valid_ set, Track returns true) the
stored timestamp afterwards is the supplied one, and the time delta handed to
the estimator is timestamp minus the previously stored timestamp, whatever
its sign. Every recorded Predict, UpdateWithObject and UpdateWithoutObject
call carries that delta and every live track is predicted with it. The
outcome of the frame depends on the three estimator operations only through
their values at that delta: replacing them by operations that agree with
them there, and are arbitrary at every other delta, gives the same result.
The matcher is handed the predictions made with that delta; a track that the
matcher pairs once with a detection, and lists nowhere else, becomes the
result of UpdateWithObject on that track and detection at that delta; and a
track listed once as unassigned, and not paired, becomes the result of
UpdateWithoutObject on it with its prediction at that delta. -/
theorem C7_time_diff_passed_unmodified (env : Collaborators W) (self : HmObjectTracker W)
    (objects : List Object) (timestamp : ℚ) (options : TrackerOptions)
    (tracked_objects : Option (List (Option Object))) (r : TrackResult W)
    (hvalid : self.valid_ = true)
    (hrun : Track env self objects timestamp options tracked_objects = some r)
    (hret : r.ret = true) :
    r.self.time_stamp_ = timestamp ∧
      (∀ c ∈ r.calls, ∀ d : ℚ, Call.time_diff? c = some d → d = timestamp - self.time_stamp_) ∧
      (∀ i : Nat, i < self.object_tracks_.length →
        Call.Predict i (timestamp - self.time_stamp_) ∈ r.calls) ∧
      (∀ (Predict2 : ObjectTrack → ℚ → List ℚ)
        (UpdateWithObject2 : ObjectTrack → TrackedObject → ℚ → ObjectTrack × TrackedObject)
        (UpdateWithoutObject2 : ObjectTrack → List ℚ → ℚ → ObjectTrack),
        (∀ track, Predict2 track (timestamp - self.time_stamp_) =
          env.Predict track (timestamp - self.time_stamp_)) →
        (∀ track obj, UpdateWithObject2 track obj (timestamp - self.time_stamp_) =
          env.UpdateWithObject track obj (timestamp - self.time_stamp_)) →
        (∀ track predict, UpdateWithoutObject2 track predict (timestamp - self.time_stamp_) =
          env.UpdateWithoutObject track predict (timestamp - self.time_stamp_)) →
        Track
            { env with
              Predict := Predict2, UpdateWithObject := UpdateWithObject2,
              UpdateWithoutObject := UpdateWithoutObject2 }
            self objects timestamp options tracked_objects = some r) ∧
      ∃ (pose : Matrix4d) (updated added : List ObjectTrack),
        options.velodyne_trans = some pose ∧
        MatchOfFrame env self objects timestamp options pose =
          env.Match (ObjectsOfFrame env self objects timestamp options pose)
            self.object_tracks_
            (self.object_tracks_.map
              (fun track => env.Predict track (timestamp - self.time_stamp_))) ∧
        updated.length = self.object_tracks_.length ∧
        r.self.object_tracks_ = env.RemoveLostTracks updated ++ added ∧
        (∀ a ∈ (MatchOfFrame env self objects timestamp options pose).assignments,
          ((MatchOfFrame env self objects timestamp options pose).assignments.map
            Prod.fst).count a.1 = 1 →
          ((MatchOfFrame env self objects timestamp options pose).assignments.map
            Prod.snd).count a.2 = 1 →
          a.1 ∉ (MatchOfFrame env self objects timestamp options pose).unassigned_tracks →
          ∀ (track : ObjectTrack) (obj : TrackedObject),
            at? self.object_tracks_ a.1 = some track →
            at? (ObjectsOfFrame env self objects timestamp options pose) a.2 = some obj →
            at? updated a.1 =
              some (env.UpdateWithObject track obj (timestamp - self.time_stamp_)).1) ∧
        (∀ (i : Int) (track : ObjectTrack),
          (MatchOfFrame env self objects timestamp options pose).unassigned_tracks.count i =
            1 →
          i ∉ (MatchOfFrame env self objects timestamp options pose).assignments.map
            Prod.fst →
          at? self.object_tracks_ i = some track →
          at? updated i =
            some (env.UpdateWithoutObject track
              (env.Predict track (timestamp - self.time_stamp_))
              (timestamp - self.time_stamp_))) := by
  obtain ⟨hcalls, hpredict, hstamp⟩ := Track_later_time_diff_calls env self objects timestamp
    options tracked_objects r hvalid hrun hret
  obtain ⟨pose, updated, objects1, hpose, hlen, htracks, -, -, -, hassigned, hunassigned⟩ :=
    Track_later_state env self objects timestamp options tracked_objects r hvalid hrun hret
  refine ⟨hstamp, hcalls, hpredict, ?_, pose, updated, _, hpose,
    MatchOfFrame_eq env self objects timestamp options pose, hlen, htracks, hassigned,
    hunassigned⟩
  intro Predict2 UpdateWithObject2 UpdateWithoutObject2 hP hU hV
  rw [Track_later_congr env Predict2 UpdateWithObject2 UpdateWithoutObject2 self objects
    timestamp options tracked_objects hvalid hP hU hV]
  exact hrun

/-- C7 on the sample third frame run at time 10, before the stored timestamp
21/2: the frame is accepted, the stored timestamp becomes 10, every recorded
call carries the delta 10 - 21/2, and the first track, which the sample
matcher pairs with the first detection, is the result of UpdateWithObject at
that negative delta. -/
theorem C7_time_diff_witness :
    ∃ r : TrackResult Nat,
      Track sampleEnv sampleTracker2 sampleFrame3.objects 10 sampleFrame3.options
          (some []) = some r ∧
        r.ret = true ∧ sampleTracker2.time_stamp_ = 21 / 2 ∧ r.self.time_stamp_ = 10 ∧
        (∀ c ∈ r.calls, ∀ d : ℚ, Call.time_diff? c = some d →
          d = 10 - sampleTracker2.time_stamp_) ∧
        ∃ (pose : Matrix4d) (updated added : List ObjectTrack),
          r.self.object_tracks_ = sampleEnv.RemoveLostTracks updated ++ added ∧
          ∀ (track : ObjectTrack) (obj : TrackedObject),
            at? sampleTracker2.object_tracks_ 0 = some track →
            at? (ObjectsOfFrame sampleEnv sampleTracker2 sampleFrame3.objects 10
              sampleFrame3.options pose) 0 = some obj →
            at? updated 0 =
              some (sampleEnv.UpdateWithObject track obj
                (10 - sampleTracker2.time_stamp_)).1 :=
  by
  have h : ∀ r : TrackResult Nat,
      Track sampleEnv sampleTracker2 sampleFrame3.objects 10 sampleFrame3.options
        (some []) = some r → r.ret = true →
      r.self.time_stamp_ = 10 ∧
        (∀ c ∈ r.calls, ∀ d : ℚ, Call.time_diff? c = some d →
          d = 10 - sampleTracker2.time_stamp_) ∧
        ∃ (pose : Matrix4d) (updated added : List ObjectTrack),
          r.self.object_tracks_ = sampleEnv.RemoveLostTracks updated ++ added ∧
          ∀ (track : ObjectTrack) (obj : TrackedObject),
            at? sampleTracker2.object_tracks_ 0 = some track →
            at? (ObjectsOfFrame sampleEnv sampleTracker2 sampleFrame3.objects 10
              sampleFrame3.options pose) 0 = some obj →
            at? updated 0 =
              some (sampleEnv.UpdateWithObject track obj
                (10 - sampleTracker2.time_stamp_)).1 := by
    intro r hrun hret
    obtain ⟨hstamp, hcalls, -, -, pose, updated, added, hpose, -, -, htracks, hassigned, -⟩ :=
      C7_time_diff_passed_unmodified sampleEnv sampleTracker2 sampleFrame3.objects 10
        sampleFrame3.options (some []) r rfl hrun hret
    cases Option.some.inj hpose
    refine ⟨hstamp, hcalls, samplePose2, updated, added, htracks, ?_⟩
    exact hassigned (0, 0) (by decide) (by decide) (by decide) (by decide)
  refine ⟨_, rfl, ?_, ?_, ?_⟩
  · rfl
  · exact rfl
  · exact h _ rfl rfl

/-! ## Conservation of detections and tracks -/

theorem perm_range_count (l1 l2 : List Int) (n : Nat)
    (h : List.Perm (l1 ++ l2) ((List.range n).map (fun (k : Nat) => (k : Int)))) (i : Int)
    (hi : i ∈ l1 ++ l2) : l1.count i + l2.count i = 1 ∧ 0 ≤ i ∧ i < n := by
  obtain ⟨h0, h1⟩ := mem_range_cast n i (h.subset hi)
  have hcount := h.count_eq i
  have hcast : ((i.toNat : Nat) : Int) = i := Int.toNat_of_nonneg h0
  rw [List.count_append, ← hcast, count_range_cast n i.toNat (by omega), hcast] at hcount
  exact ⟨hcount, h0, h1⟩

theorem perm_range_left (l1 l2 : List Int) (n : Nat)
    (h : List.Perm (l1 ++ l2) ((List.range n).map (fun (k : Nat) => (k : Int)))) (i : Int)
    (hi : i ∈ l1) : l1.count i = 1 ∧ i ∉ l2 ∧ 0 ≤ i ∧ i < n := by
  obtain ⟨hc, h0, h1⟩ := perm_range_count l1 l2 n h i (List.mem_append_left _ hi)
  have hpos := List.count_pos_iff.2 hi
  refine ⟨by omega, ?_, h0, h1⟩
  intro hmem
  have := List.count_pos_iff.2 hmem
  omega

theorem perm_range_right (l1 l2 : List Int) (n : Nat)
    (h : List.Perm (l1 ++ l2) ((List.range n).map (fun (k : Nat) => (k : Int)))) (i : Int)
    (hi : i ∈ l2) : l2.count i = 1 ∧ i ∉ l1 ∧ 0 ≤ i ∧ i < n := by
  obtain ⟨hc, h0, h1⟩ := perm_range_count l1 l2 n h i (List.mem_append_right _ hi)
  have hpos := List.count_pos_iff.2 hi
  refine ⟨by omega, ?_, h0, h1⟩
  intro hmem
  have := List.count_pos_iff.2 hmem
  omega

theorem ObjectsOfFrame_length (env : Collaborators W) (self : HmObjectTracker W)
    (objects : List Object) (timestamp : ℚ) (options : TrackerOptions) (pose : Matrix4d) :
    (ObjectsOfFrame env self objects timestamp options pose).length = objects.length := by
  simp [ObjectsOfFrame, ConstructTrackedObjects_length]

/-- C6: on a later frame (valid_ set, matcher present, pose and output vector
given), if the matcher's output lists every detection index 0..n-1 exactly
once among the matched pairs and the unassigned objects, and every track index
0..m-1 exactly once among the matched pairs and the unassigned tracks, then
Track succeeds and the collection afterwards is what RemoveLostTracks keeps of
the m updated tracks, followed by the new tracks. For every matched pair the
updated track is the result of UpdateWithObject on that pre-existing track
and the tracked object built from the paired detection; for every unassigned
track it is the result of UpdateWithoutObject on that track with its own
prediction; the new tracks are those the ObjectTrack constructor builds, in
order, from the tracked objects of the unassigned detections, one each. In
the recorded calls every detection is handed to UpdateWithObject or creates a
new track, exactly once in total, every pre-existing track gets
UpdateWithObject or UpdateWithoutObject, exactly once in total, and the
UpdateWithObject calls are the matcher's pairs in order. With an empty
detection list there is no UpdateWithObject call and no new track: the
collection is what RemoveLostTracks keeps of the tracks each updated by
UpdateWithoutObject, and the static state of ObjectTrack is unchanged. -/
theorem C6_conservation_of_detections_and_tracks (env : Collaborators W)
    (self : HmObjectTracker W) (objects : List Object) (timestamp : ℚ)
    (hdmap : Vector3 → Option Vector3) (pose : Matrix4d) (matcher : MatcherMethod)
    (out : List (Option Object))
    (hvalid : self.valid_ = true) (hmatcher : self.matcher_ = some matcher)
    (hobjects : List.Perm
      ((MatchOfFrame env self objects timestamp
          { velodyne_trans := some pose, hdmap_input := hdmap } pose).assignments.map Prod.snd ++
        (MatchOfFrame env self objects timestamp
          { velodyne_trans := some pose, hdmap_input := hdmap } pose).unassigned_objects)
      ((List.range objects.length).map (fun (k : Nat) => (k : Int))))
    (htracks : List.Perm
      ((MatchOfFrame env self objects timestamp
          { velodyne_trans := some pose, hdmap_input := hdmap } pose).assignments.map Prod.fst ++
        (MatchOfFrame env self objects timestamp
          { velodyne_trans := some pose, hdmap_input := hdmap } pose).unassigned_tracks)
      ((List.range self.object_tracks_.length).map (fun (k : Nat) => (k : Int)))) :
    ∃ (r : TrackResult W) (updated added : List ObjectTrack),
      Track env self objects timestamp { velodyne_trans := some pose, hdmap_input := hdmap }
          (some out) = some r ∧
        r.ret = true ∧
        (∀ j : Nat, j < objects.length →
          r.calls.countP (Call.matchesObject j) + r.calls.countP (Call.createsFromObject j) =
            1) ∧
        (∀ i : Nat, i < self.object_tracks_.length →
          r.calls.countP (Call.updatesTrackWithObject i) +
            r.calls.countP (Call.updatesTrackWithoutObject i) = 1) ∧
        r.calls.filterMap Call.assignment? =
          (MatchOfFrame env self objects timestamp
            { velodyne_trans := some pose, hdmap_input := hdmap } pose).assignments ∧
        updated.length = self.object_tracks_.length ∧
        r.self.object_tracks_ = env.RemoveLostTracks updated ++ added ∧
        (∀ a ∈ (MatchOfFrame env self objects timestamp
            { velodyne_trans := some pose, hdmap_input := hdmap } pose).assignments,
          ∃ (track : ObjectTrack) (obj : TrackedObject),
            at? self.object_tracks_ a.1 = some track ∧
            at? (ObjectsOfFrame env self objects timestamp
              { velodyne_trans := some pose, hdmap_input := hdmap } pose) a.2 = some obj ∧
            at? updated a.1 =
              some (env.UpdateWithObject track obj (timestamp - self.time_stamp_)).1) ∧
        (∀ i ∈ (MatchOfFrame env self objects timestamp
            { velodyne_trans := some pose, hdmap_input := hdmap } pose).unassigned_tracks,
          ∃ track : ObjectTrack,
            at? self.object_tracks_ i = some track ∧
            at? updated i =
              some (env.UpdateWithoutObject track
                (env.Predict track (timestamp - self.time_stamp_))
                (timestamp - self.time_stamp_))) ∧
        added =
          (TracksFrom env self.track_static_
            ((MatchOfFrame env self objects timestamp
              { velodyne_trans := some pose, hdmap_input := hdmap } pose).unassigned_objects.filterMap
              (fun j => at? (ObjectsOfFrame env self objects timestamp
                { velodyne_trans := some pose, hdmap_input := hdmap } pose) j))).1 ∧
        added.length =
          (MatchOfFrame env self objects timestamp
            { velodyne_trans := some pose, hdmap_input := hdmap } pose).unassigned_objects.length ∧
        (∀ (j : Nat) (h : j < objects.length),
          at? (ObjectsOfFrame env self objects timestamp
            { velodyne_trans := some pose, hdmap_input := hdmap } pose) (j : Int) =
            some (ConstructTrackedObject env { self with time_stamp_ := timestamp }
              (TransformPoseGlobal2Local { self with time_stamp_ := timestamp } pose)
              { velodyne_trans := some pose, hdmap_input := hdmap } objects[j]).1) ∧
        (objects = [] →
          (∀ c ∈ r.calls, Call.assignment? c = none) ∧
            (∀ c ∈ r.calls, ∀ j : Int, c ≠ Call.NewObjectTrack j) ∧
            r.self.object_tracks_ =
              env.RemoveLostTracks
                (self.object_tracks_.map
                  (fun track =>
                    env.UpdateWithoutObject track
                      (env.Predict track (timestamp - self.time_stamp_))
                      (timestamp - self.time_stamp_))) ∧
            r.self.track_static_ = self.track_static_) := by
  obtain ⟨r, hrun, hret, hdet, htrk, hassign, -, hempty⟩ :=
    Track_later_conservation_calls env self objects timestamp hdmap pose matcher out hvalid
      hmatcher hobjects htracks
  obtain ⟨pose1, updated, objects1, hpose, hlen, htracks1, hstatic, haddlen, hobj1, hassigned,
    hunassigned⟩ := Track_later_state env self objects timestamp _ _ r hvalid hrun hret
  cases Option.some.inj hpose
  have hfm : (MatchOfFrame env self objects timestamp
      { velodyne_trans := some pose, hdmap_input := hdmap } pose).unassigned_objects.filterMap
        (fun j => at? objects1 j) =
      (MatchOfFrame env self objects timestamp
        { velodyne_trans := some pose, hdmap_input := hdmap } pose).unassigned_objects.filterMap
        (fun j => at? (ObjectsOfFrame env self objects timestamp
          { velodyne_trans := some pose, hdmap_input := hdmap } pose) j) := by
    apply List.filterMap_congr
    intro j hj
    exact hobj1 j (perm_range_right _ _ _ hobjects j hj).2.1
  rw [hfm] at htracks1 hstatic haddlen
  have hupd : ∀ i ∈ (MatchOfFrame env self objects timestamp
      { velodyne_trans := some pose, hdmap_input := hdmap } pose).unassigned_tracks,
      ∃ track : ObjectTrack,
        at? self.object_tracks_ i = some track ∧
        at? updated i =
          some (env.UpdateWithoutObject track
            (env.Predict track (timestamp - self.time_stamp_))
            (timestamp - self.time_stamp_)) := by
    intro i hi
    obtain ⟨hc, hn, h0, h1⟩ := perm_range_right _ _ _ htracks i hi
    obtain ⟨track, ht⟩ := at?_of_lt self.object_tracks_ i h0 h1
    exact ⟨track, ht, hunassigned i track hc hn ht⟩
  refine ⟨r, updated, _, hrun, hret, hdet, htrk, hassign, hlen, htracks1, ?_, hupd, rfl, ?_,
    ?_, ?_⟩
  · intro a ha
    obtain ⟨hc1, hn1, h0, h1⟩ := perm_range_left _ _ _ htracks a.1 (List.mem_map_of_mem _ ha)
    obtain ⟨hc2, -, h2, h3⟩ := perm_range_left _ _ _ hobjects a.2 (List.mem_map_of_mem _ ha)
    obtain ⟨track, ht⟩ := at?_of_lt self.object_tracks_ a.1 h0 h1
    obtain ⟨obj, ho⟩ := at?_of_lt (ObjectsOfFrame env self objects timestamp
      { velodyne_trans := some pose, hdmap_input := hdmap } pose) a.2 h2
      (by rw [ObjectsOfFrame_length]; exact h3)
    exact ⟨track, obj, ht, ho, hassigned a ha hc1 hc2 hn1 track obj ht ho⟩
  · rw [TracksFrom_length]
    exact haddlen
  · intro j h
    rw [at?_natCast, List.get?_eq_getElem?]
    exact ConstructTrackedObjects_get env _ objects _ _ j h
  · intro hnil
    subst hnil
    have hboth := List.append_eq_nil.1 (List.Perm.eq_nil hobjects)
    have hnoassign := List.map_eq_nil_iff.1 hboth.1
    refine ⟨(hempty rfl).1, (hempty rfl).2.1, ?_, ?_⟩
    · rw [htracks1, hboth.2]
      simp only [List.filterMap_nil, TracksFrom, List.append_nil]
      congr 1
      apply List.ext_getElem?
      intro n
      by_cases hn : n < self.object_tracks_.length
      · have hmem : (n : Int) ∈ (MatchOfFrame env self []
            timestamp { velodyne_trans := some pose, hdmap_input := hdmap } pose).unassigned_tracks := by
          have hin : (n : Int) ∈
              (List.range self.object_tracks_.length).map (fun (k : Nat) => (k : Int)) := by
            simp only [List.mem_map, List.mem_range]
            exact ⟨n, hn, rfl⟩
          have := htracks.symm.subset hin
          rw [hnoassign] at this
          simpa using this
        obtain ⟨track, ht, hu⟩ := hupd _ hmem
        rw [at?_natCast, List.get?_eq_getElem?] at ht hu
        rw [hu, List.getElem?_map, ht]
        rfl
      · rw [List.getElem?_eq_none (by omega), List.getElem?_eq_none (by simp; omega)]
    · rw [hstatic, hboth.2]
      rfl

/-- C6 on the sample second frame: two detections, three tracks; the sample
matcher pairs tracks 0 and 1 with detections 0 and 1 and leaves track 2
unassigned. Track 0 becomes the result of UpdateWithObject on it and the
tracked object of detection 0, track 2 the result of UpdateWithoutObject, and
no track is created. -/
theorem C6_conservation_witness :
    ∃ (r : TrackResult Nat) (updated added : List ObjectTrack),
      Track sampleEnv sampleTracker1 sampleFrame2.objects (21 / 2)
          { velodyne_trans := some samplePose2, hdmap_input := fun _ => none } (some []) =
          some r ∧
        r.ret = true ∧
        r.calls.filterMap Call.assignment? = [(0, 0), (1, 1)] ∧
        r.self.object_tracks_ = sampleEnv.RemoveLostTracks updated ++ added ∧
        added.length = 0 ∧
        (∃ (track : ObjectTrack) (obj : TrackedObject),
          at? sampleTracker1.object_tracks_ 0 = some track ∧
          at? (ObjectsOfFrame sampleEnv sampleTracker1 sampleFrame2.objects (21 / 2)
            { velodyne_trans := some samplePose2, hdmap_input := fun _ => none }
            samplePose2) 0 = some obj ∧
          at? updated 0 =
            some (sampleEnv.UpdateWithObject track obj
              (21 / 2 - sampleTracker1.time_stamp_)).1) ∧
        ∃ track : ObjectTrack,
          at? sampleTracker1.object_tracks_ 2 = some track ∧
          at? updated 2 =
            some (sampleEnv.UpdateWithoutObject track
              (sampleEnv.Predict track (21 / 2 - sampleTracker1.time_stamp_))
              (21 / 2 - sampleTracker1.time_stamp_)) :=
  match C6_conservation_of_detections_and_tracks sampleEnv sampleTracker1
      sampleFrame2.objects (21 / 2) (fun _ => none) samplePose2
      MatcherMethod.HUNGARIAN_MATCHER [] rfl rfl (List.Perm.refl _) (List.Perm.refl _) with
  | ⟨r, updated, added, h1, h2, _, _, h5, _, h7, h8, h9, _, h11, _⟩ =>
    ⟨r, updated, added, h1, h2, h5, h7, h11, h8 (0, 0) (by decide), h9 2 (by decide)⟩

end Apollo.HmObjectTracker
